import Mathlib

/-!
# DAL: HDF5 dataset and attribute layer

A shallow embedding of the dataset code of `HDF5Dataset.cc` and of the
attribute codec of `dalCommon.h` / `dalCommon.cc`.

Conventions

* `hid_t`, `herr_t`, `htri_t` and `int` values are `Int`;
* `hsize_t`, `size_t` and `uint64_t` values are `Nat`, reduced modulo `2^64`
  wherever the source computes with them;
* `std::vector<T>` is `List T`;
* the HDF5 library is not part of the sources.  The dataset code is embedded
  over a record of library answers (`H5Env`) and returns the list of library
  calls it issues; the attribute codec is embedded over a library interface
  with an explicit library state (`H5Lib`), of which `H5Model` is an
  executable instance.
-/

namespace DAL

/-! ## Machine integers -/

/-- Reduction of a natural number to the range of `uint64_t` / `hsize_t`. -/
def wrap64 (n : Nat) : Nat := n % 2 ^ 64

/-- The constant `H5S_UNLIMITED`, that is `(hsize_t)(-1)`. -/
def H5S_UNLIMITED : Nat := 2 ^ 64 - 1

/-! ## HDF5Dataset.cc : chunking -/

/-- The loop at the head of `HDF5Dataset::adjustChunksize`:
`uint64_t chunkSize = datatypeSize; for (n) chunkSize *= (uint64_t)itsChunking[n];`
Every product is taken in 64-bit unsigned arithmetic. -/
def chunkSize (datatypeSize : Nat) (itsChunking : List Nat) : Nat :=
  itsChunking.foldl (fun acc c => wrap64 (acc * wrap64 c)) (wrap64 datatypeSize)

/-- The loop `for (n) itsChunking[n] /= 2;` of `HDF5Dataset::adjustChunksize`. -/
def halveChunking (itsChunking : List Nat) : List Nat :=
  itsChunking.map (fun c => c / 2)

/-- The recursion of `HDF5Dataset::adjustChunksize` on the chunk shape, for a
datatype of `datatypeSize` bytes.  The first argument bounds the number of
nested calls; `none` means that the recursion is still running when the bound
is used up. -/
def adjustChunksizeFuel : Nat → Nat → List Nat → Option (List Nat)
  | 0, _, _ => none
  | fuel + 1, datatypeSize, itsChunking =>
    if chunkSize datatypeSize itsChunking > 0xffffffff then
      adjustChunksizeFuel fuel datatypeSize (halveChunking itsChunking)
    else
      some itsChunking

/-- Number of nested calls granted to `adjustChunksize`: an axis below `2^64`
is zero after 64 halvings, so a chunk shape of rank at least one is settled
within 65 calls (`adjustChunksizeFuel_enough`). -/
def adjustDepth : Nat := 65

/-- The enumeration `H5D_layout_t`. -/
inductive H5D_layout_t
  | H5D_LAYOUT_ERROR
  | H5D_COMPACT
  | H5D_CONTIGUOUS
  | H5D_CHUNKED
  deriving DecidableEq, Repr

/-- The enumeration `H5S_seloper_t` (selection operators of a hyperslab). -/
inductive H5S_seloper_t
  | H5S_SELECT_NOOP
  | H5S_SELECT_SET
  | H5S_SELECT_OR
  | H5S_SELECT_AND
  | H5S_SELECT_XOR
  | H5S_SELECT_NOTB
  | H5S_SELECT_NOTA
  | H5S_SELECT_APPEND
  | H5S_SELECT_PREPEND
  | H5S_SELECT_INVALID
  deriving DecidableEq, Repr

/-- Modelled from the spec: the class `HDF5Hyperslab` is not among the sources.
A hyperslab is a (start offset, stride, count, block size, combine-operator)
description of a rectangular sub-region of a dataspace; `selection ()` returns
the combine-operator. -/
structure HDF5Hyperslab where
  start : List Int
  stride : List Int
  count : List Int
  block : List Int
  selection : H5S_seloper_t
  deriving DecidableEq, Repr

/-- The data members of `HDF5Dataset`. -/
structure HDF5Dataset where
  itsName : String
  location_p : Int
  itsDataspace : Int
  itsDatatype : Int
  itsLayout : H5D_layout_t
  itsShape : List Nat
  itsChunking : List Nat
  itsHyperslab : List HDF5Hyperslab
  deriving DecidableEq, Repr

/-- The answers of the HDF5 library (and of `HDF5Hyperslab::setHyperslab`,
`h5get_dataspace_shape`, whose bodies are not among the sources) to the calls
issued by the dataset code. -/
structure H5Env where
  H5Iis_valid : Int → Bool
  H5Tcopy : Int → Int
  H5Tget_size : Int → Nat
  H5Screate_simple : Nat → List Nat → List Nat → Int
  H5Pcreate : Int
  H5Pset_chunk : Int → Nat → List Nat → Int
  H5Dcreate2 : Int → String → Int → Int → Int → Int
  slabSetHyperslab : HDF5Hyperslab → Int → Int → Bool → Bool
  h5get_dataspace_shape : Int → List Nat → List Nat

/-- The library calls issued by `HDF5Dataset::open`, with their arguments. -/
inductive H5Call
  | H5Tcopy (datatype : Int)
  | H5Screate_simple (rank : Nat) (dims maxdims : List Nat)
  | H5Pcreate
  | H5Pset_chunk (dcpl : Int) (rank : Nat) (chunkdims : List Nat)
  | H5Dcreate2 (location : Int) (name : String) (datatype dataspace dcpl : Int)
  | H5Pclose (dcpl : Int)
  deriving DecidableEq, Repr

/-- `HDF5Dataset::init`. -/
def HDF5Dataset.init : HDF5Dataset :=
  { itsName := "Dataset", location_p := 0, itsDataspace := 0, itsDatatype := 0,
    itsLayout := H5D_layout_t.H5D_COMPACT, itsShape := [], itsChunking := [],
    itsHyperslab := [] }

/-- `HDF5Dataset::adjustChunksize`: the element size is asked from the library
(`H5Tget_size (itsDatatype)`), the chunk shape is halved until the byte size
of a chunk, computed in 64 bits, is at most `0xffffffff`.  The status returned
by the source is always `true`. -/
def HDF5Dataset.adjustChunksize (env : H5Env) (ds : HDF5Dataset) :
    Option (Bool × HDF5Dataset) :=
  match adjustChunksizeFuel adjustDepth (env.H5Tget_size ds.itsDatatype) ds.itsChunking with
  | none => none
  | some c => some (true, { ds with itsChunking := c })

/-- `HDF5Dataset::setShape`: stores the shape, takes the shape as chunk shape
when `chunksize` is empty or of another rank, then adjusts the chunk shape. -/
def HDF5Dataset.setShape (env : H5Env) (ds : HDF5Dataset)
    (shape chunksize : List Nat) : Option (Bool × HDF5Dataset) :=
  let rank := shape.length
  let ds := { ds with itsShape := shape }
  let ds :=
    if chunksize.isEmpty || chunksize.length != rank then
      { ds with itsChunking := ds.itsShape }
    else
      { ds with itsChunking := chunksize }
  ds.adjustChunksize env

/-- `HDF5Dataset::open (location, name, shape, chunksize, datatype)`.  The
result carries the returned status, the dataset object afterwards and the
library calls issued, in order.  `dims`, `maxdims` and `chunkdims` are the
arrays filled by the loop over `n < rank`. -/
def HDF5Dataset.open (env : H5Env) (ds : HDF5Dataset) (location : Int) (name : String)
    (shape chunksize : List Nat) (datatype : Int) :
    Option (Bool × HDF5Dataset × List H5Call) :=
  let ds := { ds with itsName := name, itsDatatype := env.H5Tcopy datatype }
  match ds.setShape env shape chunksize with
  | none => none
  | some (_, ds) =>
    let rank := shape.length
    let dims := (List.range rank).map (fun n => ds.itsShape.getD n 0)
    let maxdims := (List.range rank).map (fun _ => H5S_UNLIMITED)
    let chunkdims := (List.range rank).map (fun n => ds.itsChunking.getD n 0)
    let dataspace := env.H5Screate_simple rank dims maxdims
    let ds := { ds with itsDataspace := dataspace }
    let dcpl := env.H5Pcreate
    let _h5error := env.H5Pset_chunk dcpl rank chunkdims
    let ds := { ds with
      location_p := env.H5Dcreate2 location ds.itsName ds.itsDatatype ds.itsDataspace dcpl }
    let calls := [H5Call.H5Tcopy datatype,
      H5Call.H5Screate_simple rank dims maxdims,
      H5Call.H5Pcreate,
      H5Call.H5Pset_chunk dcpl rank chunkdims,
      H5Call.H5Dcreate2 location ds.itsName ds.itsDatatype ds.itsDataspace dcpl]
    if env.H5Iis_valid dcpl then
      some (true, ds, calls ++ [H5Call.H5Pclose dcpl])
    else
      some (false, ds, calls)

/-- `HDF5Dataset::open (location, name, shape, datatype)`: the overload without
a chunk argument passes an empty `chunksize`. -/
def HDF5Dataset.openNoChunk (env : H5Env) (ds : HDF5Dataset) (location : Int)
    (name : String) (shape : List Nat) (datatype : Int) :
    Option (Bool × HDF5Dataset × List H5Call) :=
  let chunksize : List Nat := []
  ds.open env location name shape chunksize datatype

/-- `HDF5Dataset::setHyperslab (slab, resizeDataset)`.  `itsHyperslab.empty ()`
in the `H5S_SELECT_SET` branch is the query of `std::vector` and leaves the
vector as it is.  `HDF5Hyperslab::setHyperslab` is taken to leave `slab` as it
is. -/
def HDF5Dataset.setHyperslab (env : H5Env) (ds : HDF5Dataset) (slab : HDF5Hyperslab)
    (resizeDataset : Bool) : Bool × HDF5Dataset :=
  let status := true
  if env.H5Iis_valid ds.location_p && env.H5Iis_valid ds.itsDataspace then
    let status := env.slabSetHyperslab slab ds.location_p ds.itsDataspace resizeDataset
    let ds :=
      match slab.selection with
      | H5S_seloper_t.H5S_SELECT_SET =>
        let _ := ds.itsHyperslab.isEmpty
        { ds with itsHyperslab := ds.itsHyperslab ++ [slab] }
      | _ => { ds with itsHyperslab := ds.itsHyperslab ++ [slab] }
    let ds := { ds with itsShape := env.h5get_dataspace_shape ds.location_p ds.itsShape }
    (status, ds)
  else
    (status, ds)

/-- A library that answers every call of the dataset code with success, for
datatypes of `elementSize` bytes: identifiers are valid when positive, a
hyperslab selection succeeds and leaves the shape of the dataset as it is. -/
def sampleEnv (elementSize : Nat) : H5Env :=
  { H5Iis_valid := fun id => decide (0 < id)
    H5Tcopy := fun datatype => datatype
    H5Tget_size := fun _ => elementSize
    H5Screate_simple := fun _ _ _ => 11
    H5Pcreate := 12
    H5Pset_chunk := fun _ _ _ => 0
    H5Dcreate2 := fun _ _ _ _ _ => 13
    slabSetHyperslab := fun _ _ _ _ => true
    h5get_dataspace_shape := fun _ shape => shape }

/-- Number of axes on which the chunk shapes `c` and `r` differ. -/
def axesChanged (c r : List Nat) : Nat :=
  ((c.zip r).filter (fun p => p.1 != p.2)).length

/-! ## dalCommon.h / dalCommon.cc : the attribute codec

The codec is embedded over `H5Lib σ α`: `σ` is the state of the HDF5 library
(the open file and the table of identifiers), `α` the element type of the
caller's buffer (`T` in `T * value`).  A call that changes the state of the
library returns the new state next to its result. -/

/-- Conversion `int` to `hsize_t`, as in `hsize_t dims[1] = { size };`. -/
def hsize (size : Int) : Nat := (size % 2 ^ 64).toNat

/-- Conversion of a `std::vector` size to `int`, as in `int nelem = value.size ();`. -/
def toInt32 (n : Nat) : Int := ((n : Int) + 2 ^ 31) % 2 ^ 32 - 2 ^ 31

/-- The enumeration constant `H5T_INTEGER` of `H5T_class_t`. -/
def H5T_INTEGER : Int := 0

/-- The enumeration constant `H5T_FLOAT` of `H5T_class_t`. -/
def H5T_FLOAT : Int := 1

/-- The enumeration constant `H5T_STRING` of `H5T_class_t`. -/
def H5T_STRING : Int := 3

/-- The constant `H5T_VARIABLE`, that is `(size_t)(-1)`. -/
def H5T_VARIABLE : Nat := 2 ^ 64 - 1

/-- Modelled from the spec: the constant `DAL::FAIL` (`dalBaseTypes.h`) is not
among the sources; failures are surfaced as the boolean `false`. -/
def FAIL : Bool := false

/-- The calls of the HDF5 library used by the attribute codec.  `H5Aread`
returns the status and the elements the library delivers into the caller's
buffer; `h5get_dataspace_shape` stands for `DAL::h5get_dataspace_shape` and
`HDF5Dataspace::shape`, whose bodies are not among the sources: they return a
status and the extent of the dataspace of an attribute. -/
structure H5Lib (σ : Type) (α : Type) where
  H5T_NATIVE_INT : Int
  H5T_NATIVE_UINT : Int
  H5T_NATIVE_SHORT : Int
  H5T_NATIVE_LONG : Int
  H5T_NATIVE_ULLONG : Int
  H5T_NATIVE_FLOAT : Int
  H5T_NATIVE_DOUBLE : Int
  H5T_C_S1 : Int
  H5Iis_valid : σ → Int → Bool
  H5Aexists : σ → Int → String → Int
  H5Aopen : σ → Int → String → Int × σ
  H5Aclose : σ → Int → Int × σ
  H5Acreate : σ → Int → String → Int → Int → Int × σ
  H5Aget_type : σ → Int → Int × σ
  H5Tget_native_type : σ → Int → Int × σ
  H5Tget_size : σ → Int → Nat
  H5Tget_class : σ → Int → Int
  H5Tis_variable_str : σ → Int → Int
  H5Tcopy : σ → Int → Int × σ
  H5Tset_size : σ → Int → Nat → Int × σ
  H5Tclose : σ → Int → Int × σ
  H5Aread : σ → Int → Int → Int × List α
  H5Awrite : σ → Int → Int → List α → Int × σ
  H5Screate_simple : σ → Nat → List Nat → Int × σ
  H5Sclose : σ → Int → Int × σ
  H5Eclear1 : σ → Int × σ
  h5get_dataspace_shape : σ → Int → Bool × List Nat

section codec

variable {σ α : Type}

/-- The statement `if (H5Iis_valid (id)) { close (id); }`. -/
def closeIfValid (lib : H5Lib σ α) (close : σ → Int → Int × σ) (s : σ) (id : Int) : σ :=
  if lib.H5Iis_valid s id then (close s id).2 else s

/-- `h5get_attribute (hid_t const &attribute_id, T &value)` of `dalCommon.h`.
The result is the returned status, the variable `value` afterwards and the
state of the library.  `value` receives the first element delivered by
`H5Aread`; further elements land behind the variable and are not modelled. -/
def h5get_attribute (lib : H5Lib σ α) (s : σ) (attribute_id : Int) (value : α) :
    Bool × α × σ :=
  if lib.H5Iis_valid s attribute_id then
    let r := lib.H5Aget_type s attribute_id
    let h5datatype := r.1
    let s := r.2
    let h5datatype :=
      if h5datatype > 0 then
        if h5datatype = H5T_FLOAT then lib.H5T_NATIVE_FLOAT
        else if h5datatype = H5T_INTEGER then lib.H5T_NATIVE_INT
        else h5datatype
      else h5datatype
    let rd := lib.H5Aread s attribute_id h5datatype
    let _h5error := rd.1
    let value := rd.2.headD value
    let s := closeIfValid lib lib.H5Tclose s h5datatype
    let cl := lib.H5Eclear1 s
    let h5error := cl.1
    let s := cl.2
    if h5error = 0 then (true, value, s) else (false, value, s)
  else
    (false, value, s)

/-- `h5get_attribute (hid_t const &location_id, std::string const &name, T &value)`
of `dalCommon.h`, over the getter `get` for an attribute identifier (the
template above or its specialisation for `std::string`). -/
def h5get_attribute_name {β : Type} (lib : H5Lib σ α)
    (get : H5Lib σ α → σ → Int → β → Bool × β × σ)
    (s : σ) (location_id : Int) (name : String) (value : β) : Bool × β × σ :=
  if !lib.H5Iis_valid s location_id then
    (false, value, s)
  else if lib.H5Aexists s location_id name > 0 then
    let r := lib.H5Aopen s location_id name
    let attribute_id := r.1
    let s := r.2
    let res :=
      if attribute_id > 0 then get lib s attribute_id value
      else (false, value, s)
    let s := closeIfValid lib lib.H5Aclose res.2.2 attribute_id
    (res.1, res.2.1, s)
  else
    (FAIL, value, s)

/-- `h5get_attribute (hid_t const &attribute_id, std::vector<T> &value)` of
`dalCommon.h`: on a successful read the vector is resized to `shape[0]` and
filled from the buffer. -/
def h5get_attribute_vector (lib : H5Lib σ α) (s : σ) (attribute_id : Int)
    (value : List α) : Bool × List α × σ :=
  if lib.H5Iis_valid s attribute_id then
    let r := lib.H5Aget_type s attribute_id
    let datatype_id := r.1
    let r := lib.H5Tget_native_type r.2 datatype_id
    let native_datatype_id := r.1
    let s := r.2
    let sh := lib.h5get_dataspace_shape s attribute_id
    let status := sh.1
    let shape := sh.2
    let res : Bool × List α :=
      if shape.length > 0 then
        let rd := lib.H5Aread s attribute_id native_datatype_id
        if rd.1 = 0 then (status, rd.2.take (shape.headD 0))
        else (false, value)
      else (false, value)
    let s := closeIfValid lib lib.H5Tclose s datatype_id
    let s := closeIfValid lib lib.H5Tclose s native_datatype_id
    (res.1, res.2, s)
  else
    (false, value, s)

/-- `h5get_attribute (hid_t const &location_id, std::string const &name,
std::vector<T> &value)` of `dalCommon.h`, over the getter `get` for an
attribute identifier (the template above or one of its specialisations). -/
def h5get_attribute_vector_name {β : Type} (lib : H5Lib σ α)
    (get : H5Lib σ α → σ → Int → β → Bool × β × σ)
    (s : σ) (location_id : Int) (name : String) (value : β) : Bool × β × σ :=
  if lib.H5Aexists s location_id name ≠ 0 then
    let r := lib.H5Aopen s location_id name
    let attribute_id := r.1
    let res := get lib r.2 attribute_id value
    let s := closeIfValid lib lib.H5Aclose res.2.2 attribute_id
    let s := (lib.H5Eclear1 s).2
    (res.1, res.2.1, s)
  else
    (false, value, s)

/-- The end of `h5set_attribute (datatype, location_id, name, value, size)`,
from `H5Awrite` on, once the attribute is opened or created. -/
def h5set_attribute_write (lib : H5Lib σ α) (s : σ) (datatype attribute_id dataspace_id : Int)
    (value : List α) : Bool × σ :=
  let w := lib.H5Awrite s attribute_id datatype value
  if w.1 < 0 then
    (false, w.2)
  else
    let s := closeIfValid lib lib.H5Aclose w.2 attribute_id
    let s := closeIfValid lib lib.H5Sclose s dataspace_id
    (true, s)

/-- `h5set_attribute (hid_t const &datatype, hid_t const &location_id,
std::string name, T * value, int size)` of `dalCommon.h`; `value` is the
array behind the pointer. -/
def h5set_attribute (lib : H5Lib σ α) (s : σ) (datatype location_id : Int) (name : String)
    (value : List α) (size : Int) : Bool × σ :=
  let dims : List Nat := [hsize size]
  if !lib.H5Iis_valid s location_id then
    (false, s)
  else if lib.H5Aexists s location_id name ≠ 0 then
    let r := lib.H5Aopen s location_id name
    h5set_attribute_write lib r.2 datatype r.1 0 value
  else
    let sp := lib.H5Screate_simple s 1 dims
    let dataspace_id := sp.1
    if dataspace_id < 0 then
      (false, sp.2)
    else
      let cr := lib.H5Acreate sp.2 location_id name datatype dataspace_id
      let attribute_id := cr.1
      if attribute_id < 0 then
        (false, cr.2)
      else
        h5set_attribute_write lib cr.2 datatype attribute_id dataspace_id value

/-- The host types for which `dalCommon.cc` specialises
`h5set_attribute (location_id, name, T * value, int size)` by choosing the
native HDF5 datatype. -/
inductive HostType
  | int
  | uint
  | short
  | long
  | ullong
  | float
  | double
  deriving DecidableEq, Repr

/-- The datatype chosen by the specialisation for a host type
(`hid_t datatype = H5T_NATIVE_INT;` and so on). -/
def HostType.datatype (lib : H5Lib σ α) : HostType → Int
  | HostType.int => lib.H5T_NATIVE_INT
  | HostType.uint => lib.H5T_NATIVE_UINT
  | HostType.short => lib.H5T_NATIVE_SHORT
  | HostType.long => lib.H5T_NATIVE_LONG
  | HostType.ullong => lib.H5T_NATIVE_ULLONG
  | HostType.float => lib.H5T_NATIVE_FLOAT
  | HostType.double => lib.H5T_NATIVE_DOUBLE

/-- The specialisations `h5set_attribute (location_id, name, T * value, int size)`
of `dalCommon.cc` for `int`, `uint`, `short`, `long`, `unsigned long long`,
`float` and `double`. -/
def h5set_attribute_ptr (lib : H5Lib σ α) (T : HostType) (s : σ) (location_id : Int)
    (name : String) (value : List α) (size : Int) : Bool × σ :=
  let datatype := T.datatype lib
  h5set_attribute lib s datatype location_id name value size

/-- `h5set_attribute (hid_t location_id, std::string name, std::vector<T> const &value)`
of `dalCommon.h`, over the specialisation `setPtr` for `T *`.  `none` stands
for the exception thrown by `new T [nelem]` when the size of the vector does
not fit `int` and `nelem` is negative. -/
def h5set_attribute_vector {β : Type} (setPtr : σ → Int → String → List β → Int → Bool × σ)
    (s : σ) (location_id : Int) (name : String) (value : List β) : Option (Bool × σ) :=
  let nelem := toInt32 value.length
  if nelem < 0 then
    none
  else
    let data := value.take nelem.toNat
    some (setPtr s location_id name data nelem)

/-- `h5set_attribute (hid_t location, std::string name, T const &value)` of
`dalCommon.h`, over the specialisation `setPtr` for `T *`. -/
def h5set_attribute_scalar {β ρ : Type} (setPtr : σ → Int → String → List β → Int → ρ)
    (s : σ) (location : Int) (name : String) (value : β) : ρ :=
  let nelem : Int := 1
  let data := [value]
  setPtr s location name data nelem

/-- The specialisation `h5set_attribute (location_id, name, bool * value, int size)`
of `dalCommon.cc`: the values are stored as `int`.  (For a negative `size`
the source throws in `new int [size]`; the overloads for a vector and for a
single value never pass one.) -/
def h5set_attribute_bool (lib : H5Lib σ Int) (s : σ) (location_id : Int) (name : String)
    (value : List Bool) (size : Int) : Bool × σ :=
  let data : List Int := (value.take size.toNat).map (fun b => if b then 1 else 0)
  let datatype := lib.H5T_NATIVE_INT
  h5set_attribute lib s datatype location_id name data size

/-- The specialisation `h5get_attribute (attribute_id, std::vector<bool> &value)`
of `dalCommon.cc`: the identifier is not checked, the values are read as
`int` and converted back with `bool (buffer[n])`. -/
def h5get_attribute_vector_bool (lib : H5Lib σ Int) (s : σ) (attribute_id : Int)
    (value : List Bool) : Bool × List Bool × σ :=
  let r := lib.H5Aget_type s attribute_id
  let datatype_id := r.1
  let r := lib.H5Tget_native_type r.2 datatype_id
  let native_datatype_id := r.1
  let s := r.2
  let sh := lib.h5get_dataspace_shape s attribute_id
  let status := sh.1
  let shape := sh.2
  let res : Bool × List Bool :=
    if shape.length > 0 then
      let rd := lib.H5Aread s attribute_id native_datatype_id
      if rd.1 = 0 then (status, (rd.2.take (shape.headD 0)).map (fun i => decide (i ≠ 0)))
      else (false, value)
    else (false, value)
  let s := closeIfValid lib lib.H5Tclose s datatype_id
  let s := closeIfValid lib lib.H5Tclose s native_datatype_id
  (res.1, res.2, s)

/-- `strcpy (string_attr[ii], value[ii].c_str ())` into a buffer of
`MAX_COL_NAME_SIZE` characters: the characters up to the first NUL.  `none`
stands for the overflow of the buffer by a string that does not fit together
with its terminator. -/
def strcpy (MAX_COL_NAME_SIZE : Nat) (src : List Char) : Option (List Char) :=
  let c_str := src.takeWhile (fun c => c != Char.ofNat 0)
  if c_str.length + 1 ≤ MAX_COL_NAME_SIZE then some c_str else none

/-- The end of the specialisation of `h5set_attribute` for `std::string`,
from `H5Awrite` on. -/
def h5set_attribute_string_write (lib : H5Lib σ (List Char)) (s : σ)
    (type attribute_id dataspace_id : Int) (string_attr : List (List Char)) : Bool × σ :=
  let w := lib.H5Awrite s attribute_id type string_attr
  if w.1 < 0 then
    (false, w.2)
  else
    let c := lib.H5Aclose w.2 attribute_id
    if c.1 < 0 then
      (false, c.2)
    else
      let s := closeIfValid lib lib.H5Sclose c.2 dataspace_id
      let s := closeIfValid lib lib.H5Aclose s attribute_id
      (true, s)

/-- The specialisation `h5set_attribute (datatype, location_id, name,
std::string * value, int size)` of `dalCommon.cc`.  The constant
`MAX_COL_NAME_SIZE` is not among the sources and is a parameter.  The strings
are written as variable-length C strings. -/
def h5set_attribute_string (lib : H5Lib σ (List Char)) (MAX_COL_NAME_SIZE : Nat) (s : σ)
    (datatype location_id : Int) (name : String) (value : List (List Char)) (size : Int) :
    Option (Bool × σ) :=
  let dims : List Nat := [hsize size]
  if lib.H5Iis_valid s location_id then
    if datatype ≠ H5T_STRING then
      some (false, s)
    else
      match (value.take size.toNat).mapM (strcpy MAX_COL_NAME_SIZE) with
      | none => none
      | some string_attr =>
        let ty := lib.H5Tcopy s lib.H5T_C_S1
        let type := ty.1
        if type < 0 then
          some (false, ty.2)
        else
          let sz := lib.H5Tset_size ty.2 type H5T_VARIABLE
          if sz.1 < 0 then
            some (false, sz.2)
          else if lib.H5Aexists sz.2 location_id name ≠ 0 then
            let r := lib.H5Aopen sz.2 location_id name
            some (h5set_attribute_string_write lib r.2 type r.1 0 string_attr)
          else
            let sp := lib.H5Screate_simple sz.2 1 dims
            let dataspace_id := sp.1
            if dataspace_id < 0 then
              some (false, sp.2)
            else
              let cr := lib.H5Acreate sp.2 location_id name type dataspace_id
              let attribute_id := cr.1
              if attribute_id < 0 then
                some (false, cr.2)
              else
                some (h5set_attribute_string_write lib cr.2 type attribute_id dataspace_id
                  string_attr)
  else
    some (false, s)

/-- The specialisation `h5set_attribute (location_id, name, std::string * value,
int size)` of `dalCommon.cc`. -/
def h5set_attribute_string_ptr (lib : H5Lib σ (List Char)) (MAX_COL_NAME_SIZE : Nat) (s : σ)
    (location_id : Int) (name : String) (value : List (List Char)) (size : Int) :
    Option (Bool × σ) :=
  let datatype := H5T_STRING
  h5set_attribute_string lib MAX_COL_NAME_SIZE s datatype location_id name value size

/-- The constructor `std::string (const char *)`: the characters up to the
first NUL of the buffer.  (The source reads on behind a buffer that holds no
NUL; the model stops at the end of the buffer.) -/
def cstring (buffer : List Char) : List Char :=
  buffer.takeWhile (fun c => c != Char.ofNat 0)

/-- The specialisation `h5get_attribute (attribute_id, std::string &value)` of
`dalCommon.cc`.  For a string of variable length the library delivers the
string behind the `char *` it stores into `buffer`; for strings of fixed
length it delivers one block of `datatype_size` characters per element into
the `char` array.  The status returned is `true` whenever the identifier is
valid.  (After a failed read of a fixed-length string the source copies the
buffer as it was allocated; the model yields what the library delivered.) -/
def h5get_attribute_string (lib : H5Lib σ (List Char)) (s : σ) (attribute_id : Int)
    (value : List Char) : Bool × List Char × σ :=
  let status := true
  if lib.H5Iis_valid s attribute_id then
    let r := lib.H5Aget_type s attribute_id
    let datatype_id := r.1
    let r := lib.H5Tget_native_type r.2 datatype_id
    let native_datatype_id := r.1
    let s := r.2
    let value :=
      if datatype_id > 0 then
        if lib.H5Tget_class s datatype_id = H5T_STRING then
          if lib.H5Tis_variable_str s datatype_id ≠ 0 then
            let rd := lib.H5Aread s attribute_id native_datatype_id
            if rd.1 = 0 then cstring (rd.2.headD []) else value
          else
            let datatype_size := lib.H5Tget_size s datatype_id
            let rd := lib.H5Aread s attribute_id datatype_id
            rd.2.flatten.take datatype_size
        else value
      else value
    let s := closeIfValid lib lib.H5Tclose s native_datatype_id
    let s := closeIfValid lib lib.H5Tclose s datatype_id
    let s := (lib.H5Eclear1 s).2
    (status, value, s)
  else
    (false, value, s)

/-- `std::string::substr (pos, len)`; `none` stands for the exception
`std::out_of_range`, thrown when `pos` exceeds the length of the string. -/
def substr (str : List Char) (pos len : Nat) : Option (List Char) :=
  if pos > str.length then none else some ((str.drop pos).take len)

/-- The specialisation `h5get_attribute (attribute_id, std::vector<std::string> &value)`
of `dalCommon.cc`; the library delivers characters into the `char` buffer.
`none` stands for an exception thrown by `substr`.  A failed read leaves the
status as returned by `HDF5Dataspace::shape`. -/
def h5get_attribute_vector_string (lib : H5Lib σ Char) (s : σ) (attribute_id : Int)
    (value : List (List Char)) : Option (Bool × List (List Char) × σ) :=
  if lib.H5Iis_valid s attribute_id then
    let r := lib.H5Aget_type s attribute_id
    let datatype_id := r.1
    let r := lib.H5Tget_native_type r.2 datatype_id
    let native_datatype_id := r.1
    let s := r.2
    let sh := lib.h5get_dataspace_shape s attribute_id
    let status := sh.1
    let shape := sh.2
    let res : Option (Bool × List (List Char)) :=
      if shape.length > 0 then
        let datatype_size := lib.H5Tget_size s datatype_id
        let rd := lib.H5Aread s attribute_id native_datatype_id
        if rd.1 = 0 then
          let str := cstring rd.2
          match (List.range (shape.headD 0)).mapM
              (fun n => substr str (n * datatype_size) datatype_size) with
          | none => none
          | some v => some (status, v)
        else some (status, value)
      else some (false, value)
    match res with
    | none => none
    | some res =>
      let s := closeIfValid lib lib.H5Tclose s datatype_id
      let s := closeIfValid lib lib.H5Tclose s native_datatype_id
      some (res.1, res.2, s)
  else
    some (false, value, s)

end codec

/-! ## An executable model of the library

A file is a set of locations (files, groups, datasets) with named attributes;
an attribute keeps the datatype and the dataspace it was created with, and
its elements.  Identifiers handed out by the library (`H5Aopen`,
`H5Screate_simple`, `H5Aget_type`, ...) are numbered from `firstId` on.
`H5Awrite` and `H5Aread` move as many elements as the dataspace of the
attribute holds, and convert between the datatype in memory and the stored
one with `H5Tconvert` when the two differ. -/

/-- The datatypes of the model: the predefined native types of numbers, named
by their identifier, and the C string types, of fixed size or of variable
length (`none`). -/
inductive H5Type
  | native (id : Int)
  | string (size : Option Nat)
  deriving DecidableEq, Repr

/-- What an identifier handed out by the library refers to. -/
inductive H5Handle
  | attribute (location : Int) (name : String)
  | dataspace (dims : List Nat)
  | datatype (type : H5Type)
  deriving DecidableEq, Repr

/-- An attribute in the file: datatype of the elements, extent of the
dataspace, elements. -/
structure H5Attribute (α : Type) where
  datatype : H5Type
  dims : List Nat
  data : List α
  deriving DecidableEq, Repr

/-- The state of the model library. -/
structure H5State (α : Type) where
  locations : Int → Bool
  attributes : Int → String → Option (H5Attribute α)
  handles : Int → Option H5Handle
  next : Nat

namespace H5Model

variable {α : Type}

/-- Identifier of the predefined datatype `H5T_NATIVE_INT` in the model. -/
def NATIVE_INT : Int := 201

/-- Identifier of the predefined datatype `H5T_NATIVE_UINT` in the model. -/
def NATIVE_UINT : Int := 202

/-- Identifier of the predefined datatype `H5T_NATIVE_SHORT` in the model. -/
def NATIVE_SHORT : Int := 203

/-- Identifier of the predefined datatype `H5T_NATIVE_LONG` in the model. -/
def NATIVE_LONG : Int := 204

/-- Identifier of the predefined datatype `H5T_NATIVE_ULLONG` in the model. -/
def NATIVE_ULLONG : Int := 205

/-- Identifier of the predefined datatype `H5T_NATIVE_FLOAT` in the model. -/
def NATIVE_FLOAT : Int := 206

/-- Identifier of the predefined datatype `H5T_NATIVE_DOUBLE` in the model. -/
def NATIVE_DOUBLE : Int := 207

/-- Identifier of the predefined datatype `H5T_C_S1` in the model. -/
def C_S1 : Int := 208

/-- The identifiers of the predefined native datatypes. -/
def predefined (id : Int) : Bool := decide (201 ≤ id) && decide (id ≤ 207)

/-- The datatype behind the identifier of a predefined datatype. -/
def builtin (id : Int) : Option H5Type :=
  if predefined id then some (H5Type.native id)
  else if id = C_S1 then some (H5Type.string (some 1))
  else none

/-- Size in bytes of a datatype (LP64); a string of variable length is held
as a `char *`. -/
def typeSize : H5Type → Nat
  | H5Type.native type =>
    if type = NATIVE_INT then 4
    else if type = NATIVE_UINT then 4
    else if type = NATIVE_SHORT then 2
    else if type = NATIVE_LONG then 8
    else if type = NATIVE_ULLONG then 8
    else if type = NATIVE_FLOAT then 4
    else if type = NATIVE_DOUBLE then 8
    else 0
  | H5Type.string (some size) => size
  | H5Type.string none => 8

/-- Class of a datatype, as returned by `H5Tget_class`. -/
def typeClass : H5Type → Int
  | H5Type.native type =>
    if type = NATIVE_FLOAT ∨ type = NATIVE_DOUBLE then H5T_FLOAT else H5T_INTEGER
  | H5Type.string _ => H5T_STRING

/-- First identifier handed out by the library. -/
def firstId : Int := 16777216

/-- The identifier the library hands out next. -/
def freshId (s : H5State α) : Int := firstId + s.next

/-- Registers `h` under a fresh identifier. -/
def alloc (s : H5State α) (h : H5Handle) : Int × H5State α :=
  (freshId s,
    { s with
      handles := fun id => if id = freshId s then some h else s.handles id
      next := s.next + 1 })

/-- Releases the identifier `id`. -/
def release (s : H5State α) (id : Int) : H5State α :=
  { s with handles := fun i => if i = id then none else s.handles i }

/-- The datatype an identifier stands for. -/
def typeOf (s : H5State α) (id : Int) : Option H5Type :=
  match builtin id with
  | some t => some t
  | none =>
    match s.handles id with
    | some (H5Handle.datatype t) => some t
    | _ => none

/-- The attribute an identifier stands for. -/
def attributeOf (s : H5State α) (id : Int) : Option (Int × String × H5Attribute α) :=
  match s.handles id with
  | some (H5Handle.attribute location name) =>
    match s.attributes location name with
    | some a => some (location, name, a)
    | none => none
  | _ => none

/-- Replaces the attribute `name` of `location`. -/
def store (s : H5State α) (location : Int) (name : String) (a : H5Attribute α) :
    H5State α :=
  { s with
    attributes := fun l n =>
      if l = location ∧ n = name then some a else s.attributes l n }

/-- Elements moved between memory and file: unchanged when the two datatypes
agree, converted one by one otherwise. -/
def transfer (H5Tconvert : H5Type → H5Type → α → Option α) (src dst : H5Type)
    (buf : List α) :
    Option (List α) :=
  if src = dst then some buf else buf.mapM (H5Tconvert src dst)

def H5Iis_valid (s : H5State α) (id : Int) : Bool :=
  s.locations id || (s.handles id).isSome || (builtin id).isSome

def H5Aexists (s : H5State α) (location : Int) (name : String) : Int :=
  if s.locations location then
    if (s.attributes location name).isSome then 1 else 0
  else -1

def H5Aopen (s : H5State α) (location : Int) (name : String) : Int × H5State α :=
  if s.locations location && (s.attributes location name).isSome then
    alloc s (H5Handle.attribute location name)
  else (-1, s)

def H5Aclose (s : H5State α) (id : Int) : Int × H5State α :=
  match s.handles id with
  | some (H5Handle.attribute _ _) => (0, release s id)
  | _ => (-1, s)

def H5Screate_simple (s : H5State α) (rank : Nat) (dims : List Nat) : Int × H5State α :=
  if 0 < rank ∧ rank = dims.length then alloc s (H5Handle.dataspace dims) else (-1, s)

def H5Sclose (s : H5State α) (id : Int) : Int × H5State α :=
  match s.handles id with
  | some (H5Handle.dataspace _) => (0, release s id)
  | _ => (-1, s)

def H5Acreate (s : H5State α) (location : Int) (name : String) (type space : Int) :
    Int × H5State α :=
  if s.locations location && (s.attributes location name).isNone then
    match typeOf s type, s.handles space with
    | some t, some (H5Handle.dataspace dims) =>
      alloc (store s location name { datatype := t, dims := dims, data := [] })
        (H5Handle.attribute location name)
    | _, _ => (-1, s)
  else (-1, s)

def H5Aget_type (s : H5State α) (id : Int) : Int × H5State α :=
  match attributeOf s id with
  | some (_, _, a) => alloc s (H5Handle.datatype a.datatype)
  | none => (-1, s)

def H5Tget_native_type (s : H5State α) (id : Int) : Int × H5State α :=
  match typeOf s id with
  | some t => alloc s (H5Handle.datatype t)
  | none => (-1, s)

def H5Tget_size (s : H5State α) (id : Int) : Nat :=
  match typeOf s id with
  | some t => typeSize t
  | none => 0

def H5Tget_class (s : H5State α) (id : Int) : Int :=
  match typeOf s id with
  | some t => typeClass t
  | none => -1

def H5Tis_variable_str (s : H5State α) (id : Int) : Int :=
  match typeOf s id with
  | some (H5Type.string none) => 1
  | some _ => 0
  | none => -1

def H5Tcopy (s : H5State α) (id : Int) : Int × H5State α :=
  match typeOf s id with
  | some t => alloc s (H5Handle.datatype t)
  | none => (-1, s)

/-- `H5Tset_size` on a copy of a string datatype; the predefined datatypes
cannot be changed. -/
def H5Tset_size (s : H5State α) (id : Int) (size : Nat) : Int × H5State α :=
  if (builtin id).isSome then (-1, s)
  else
    match s.handles id with
    | some (H5Handle.datatype (H5Type.string _)) =>
      (0, { s with
        handles := fun i =>
          if i = id then
            some (H5Handle.datatype
              (H5Type.string (if size = H5T_VARIABLE then none else some size)))
          else s.handles i })
    | _ => (-1, s)

def H5Tclose (s : H5State α) (id : Int) : Int × H5State α :=
  match s.handles id with
  | some (H5Handle.datatype _) => (0, release s id)
  | _ => (-1, s)

def H5Aread (H5Tconvert : H5Type → H5Type → α → Option α) (s : H5State α) (id type : Int) :
    Int × List α :=
  match attributeOf s id, typeOf s type with
  | some (_, _, a), some t =>
    match transfer H5Tconvert a.datatype t a.data with
    | some data => (0, data)
    | none => (-1, [])
  | _, _ => (-1, [])

def H5Awrite (H5Tconvert : H5Type → H5Type → α → Option α) (s : H5State α) (id type : Int)
    (buf : List α) : Int × H5State α :=
  match attributeOf s id, typeOf s type with
  | some (location, name, a), some t =>
    match transfer H5Tconvert t a.datatype (buf.take a.dims.prod) with
    | some data => (0, store s location name { a with data := data })
    | none => (-1, s)
  | _, _ => (-1, s)

def H5Eclear1 (s : H5State α) : Int × H5State α := (0, s)

def h5get_dataspace_shape (s : H5State α) (id : Int) : Bool × List Nat :=
  match attributeOf s id with
  | some (_, _, a) => (true, a.dims)
  | none => (false, [])

end H5Model

/-- The model library as an instance of the interface of the codec. -/
def H5Model.lib {α : Type} (H5Tconvert : H5Type → H5Type → α → Option α) :
    H5Lib (H5State α) α :=
  { H5T_NATIVE_INT := H5Model.NATIVE_INT
    H5T_NATIVE_UINT := H5Model.NATIVE_UINT
    H5T_NATIVE_SHORT := H5Model.NATIVE_SHORT
    H5T_NATIVE_LONG := H5Model.NATIVE_LONG
    H5T_NATIVE_ULLONG := H5Model.NATIVE_ULLONG
    H5T_NATIVE_FLOAT := H5Model.NATIVE_FLOAT
    H5T_NATIVE_DOUBLE := H5Model.NATIVE_DOUBLE
    H5T_C_S1 := H5Model.C_S1
    H5Iis_valid := H5Model.H5Iis_valid
    H5Aexists := H5Model.H5Aexists
    H5Aopen := H5Model.H5Aopen
    H5Aclose := H5Model.H5Aclose
    H5Acreate := H5Model.H5Acreate
    H5Aget_type := H5Model.H5Aget_type
    H5Tget_native_type := H5Model.H5Tget_native_type
    H5Tget_size := H5Model.H5Tget_size
    H5Tget_class := H5Model.H5Tget_class
    H5Tis_variable_str := H5Model.H5Tis_variable_str
    H5Tcopy := H5Model.H5Tcopy
    H5Tset_size := H5Model.H5Tset_size
    H5Tclose := H5Model.H5Tclose
    H5Aread := H5Model.H5Aread H5Tconvert
    H5Awrite := H5Model.H5Awrite H5Tconvert
    H5Screate_simple := H5Model.H5Screate_simple
    H5Sclose := H5Model.H5Sclose
    H5Eclear1 := H5Model.H5Eclear1
    h5get_dataspace_shape := H5Model.h5get_dataspace_shape }

/-- A conversion between datatypes that leaves every element as it is. -/
def keepValue {α : Type} : H5Type → H5Type → α → Option α := fun _ _ x => some x

/-- A file with one group, identifier 5, that carries no attribute. -/
def emptyGroup {α : Type} : H5State α :=
  { locations := fun id => decide (id = 5)
    attributes := fun _ _ => none
    handles := fun _ => none
    next := 0 }

/-- A file with one group, identifier 5, that carries the attribute "X" of
type `int` with the one element 7. -/
def groupWithX : H5State Int :=
  { locations := fun id => decide (id = 5)
    attributes := fun l n =>
      if l = 5 ∧ n = "X" then
        some { datatype := H5Type.native H5Model.NATIVE_INT, dims := [1], data := [7] }
      else none
    handles := fun _ => none
    next := 0 }

/-- A file with one group, identifier 5, that carries the attribute "V" of
type `int` with the three elements 1, 2, 3. -/
def groupWithV : H5State Int :=
  { locations := fun id => decide (id = 5)
    attributes := fun l n =>
      if l = 5 ∧ n = "V" then
        some { datatype := H5Type.native H5Model.NATIVE_INT, dims := [3], data := [1, 2, 3] }
      else none
    handles := fun _ => none
    next := 0 }

/-- A file with one group, identifier 5, that carries the attribute "S" of
variable-length strings with the two elements "old" and "v". -/
def groupWithS : H5State (List Char) :=
  { locations := fun id => decide (id = 5)
    attributes := fun l n =>
      if l = 5 ∧ n = "S" then
        some { datatype := H5Type.string none, dims := [2], data := [['o', 'l', 'd'], ['v']] }
      else none
    handles := fun _ => none
    next := 0 }

/-- A library without a file: every call fails. -/
def failingLib (α : Type) : H5Lib Unit α :=
  { H5T_NATIVE_INT := 201
    H5T_NATIVE_UINT := 202
    H5T_NATIVE_SHORT := 203
    H5T_NATIVE_LONG := 204
    H5T_NATIVE_ULLONG := 205
    H5T_NATIVE_FLOAT := 206
    H5T_NATIVE_DOUBLE := 207
    H5T_C_S1 := 208
    H5Iis_valid := fun _ _ => false
    H5Aexists := fun _ _ _ => -1
    H5Aopen := fun s _ _ => (-1, s)
    H5Aclose := fun s _ => (-1, s)
    H5Acreate := fun s _ _ _ _ => (-1, s)
    H5Aget_type := fun s _ => (-1, s)
    H5Tget_native_type := fun s _ => (-1, s)
    H5Tget_size := fun _ _ => 0
    H5Tget_class := fun _ _ => -1
    H5Tis_variable_str := fun _ _ => -1
    H5Tcopy := fun s _ => (-1, s)
    H5Tset_size := fun s _ _ => (-1, s)
    H5Tclose := fun s _ => (-1, s)
    H5Aread := fun _ _ _ => (-1, [])
    H5Awrite := fun s _ _ _ => (-1, s)
    H5Screate_simple := fun s _ _ => (-1, s)
    H5Sclose := fun s _ => (-1, s)
    H5Eclear1 := fun s => (0, s)
    h5get_dataspace_shape := fun _ _ => (false, []) }

/-- The character NUL. -/
def NUL : Char := Char.ofNat 0

/-- A library serving one open attribute, identifier 20: a one-dimensional
attribute of two strings of the fixed size 4, "ab" and "cd", each padded with
NUL.  Its datatype is handed out as identifier 30, the native datatype as
identifier 31; a read delivers the 8 characters of the two elements. -/
def twoFixedStrings : H5Lib Unit Char :=
  { failingLib Char with
    H5Iis_valid := fun _ id => decide (id = 20 ∨ id = 30 ∨ id = 31)
    H5Aget_type := fun s id => if id = 20 then (30, s) else (-1, s)
    H5Tget_native_type := fun s id => if id = 30 ∨ id = 31 then (31, s) else (-1, s)
    H5Tget_size := fun _ id => if id = 30 ∨ id = 31 then 4 else 0
    H5Tget_class := fun _ id => if id = 30 ∨ id = 31 then H5T_STRING else -1
    H5Tis_variable_str := fun _ id => if id = 30 ∨ id = 31 then 0 else -1
    H5Tclose := fun s id => if id = 30 ∨ id = 31 then (0, s) else (-1, s)
    H5Aread := fun _ id type =>
      if id = 20 ∧ (type = 30 ∨ type = 31) then
        (0, ['a', 'b', NUL, NUL, 'c', 'd', NUL, NUL])
      else (-1, [])
    h5get_dataspace_shape := fun _ id => if id = 20 then (true, [2]) else (false, []) }

/-! ## Statements about the attribute codec -/

section scenarios

variable {σ α : Type}

/-- The attribute `name` of `location` holds the elements `v`, in a dataspace
of extent `[v.length]` and with datatype `t`. -/
def Stored (s : H5State α) (location : Int) (name : String) (t : H5Type) (v : List α) : Prop :=
  s.locations location = true
  ∧ s.attributes location name = some { datatype := t, dims := [v.length], data := v }

/-- `location` is a location of the file on which the attribute `name` either
does not exist, or exists with datatype `t` and a dataspace of extent `[n]`. -/
def Writable (s : H5State α) (location : Int) (name : String) (t : H5Type) (n : Nat) : Prop :=
  s.locations location = true
  ∧ (s.attributes location name = none
    ∨ ∃ old, s.attributes location name = some { datatype := t, dims := [n], data := old })

/-- `h5set_attribute (location, name, v)` for a vector `v` of a numeric type,
followed by `h5get_attribute (location, name, out)`: the two statuses and the
vector read. -/
def setGetVector (lib : H5Lib σ α) (T : HostType) (s : σ) (location : Int) (name : String)
    (v out : List α) : Option (Bool × Bool × List α) :=
  (h5set_attribute_vector (h5set_attribute_ptr lib T) s location name v).map
    (fun r =>
      (r.1,
        (h5get_attribute_vector_name lib h5get_attribute_vector r.2 location name out).1,
        (h5get_attribute_vector_name lib h5get_attribute_vector r.2 location name out).2.1))

/-- `h5set_attribute (location, name, x)` for a single value `x` of a numeric
type, followed by `h5get_attribute (location, name, out)`. -/
def setGetScalar (lib : H5Lib σ α) (T : HostType) (s : σ) (location : Int) (name : String)
    (x out : α) : Bool × Bool × α :=
  let r := h5set_attribute_scalar (h5set_attribute_ptr lib T) s location name x
  let g := h5get_attribute_name lib h5get_attribute r.2 location name out
  (r.1, g.1, g.2.1)

/-- `h5set_attribute (location, name, b)` for a vector of `bool`, followed by
`h5get_attribute (location, name, out)`. -/
def setGetVectorBool (lib : H5Lib σ Int) (s : σ) (location : Int) (name : String)
    (b out : List Bool) : Option (Bool × Bool × List Bool) :=
  (h5set_attribute_vector (h5set_attribute_bool lib) s location name b).map
    (fun r =>
      (r.1,
        (h5get_attribute_vector_name lib h5get_attribute_vector_bool r.2 location name out).1,
        (h5get_attribute_vector_name lib h5get_attribute_vector_bool r.2 location name out).2.1))

/-- `h5set_attribute (location, name, x)` for a single `std::string`, followed
by `h5get_attribute (location, name, out)`. -/
def setGetString (lib : H5Lib σ (List Char)) (MAX_COL_NAME_SIZE : Nat) (s : σ)
    (location : Int) (name : String) (x out : List Char) : Option (Bool × Bool × List Char) :=
  (h5set_attribute_scalar (h5set_attribute_string_ptr lib MAX_COL_NAME_SIZE) s location
      name x).map
    (fun r =>
      (r.1,
        (h5get_attribute_name lib h5get_attribute_string r.2 location name out).1,
        (h5get_attribute_name lib h5get_attribute_string r.2 location name out).2.1))

end scenarios

/-- A library in which the dataspace and the dataset cannot be created
(`H5Screate_simple` and `H5Dcreate2` hand back -1), everything else succeeding
as in `sampleEnv`. -/
def noCreateEnv (elementSize : Nat) : H5Env :=
  { sampleEnv elementSize with
    H5Screate_simple := fun _ _ _ => -1
    H5Dcreate2 := fun _ _ _ _ _ => -1 }

/-! ## Filename.cc -/

/-- The enumeration `Filename::FileType`.  Its declaration (`Filename.h`) is not
among the sources; the enumerators are those named by the `switch` of
`getName`, and `other` stands for any value not named there. -/
inductive FileType
  | uv
  | sky
  | rm
  | nfi
  | dynspec
  | bf
  | tbb
  | other
  deriving DecidableEq, Repr

/-- The enumeration `Filename::FileExtension`.  Its declaration (`Filename.h`)
is not among the sources; the enumerators are those named by the `switch` of
`getName`, and `other` stands for any value not named there. -/
inductive FileExtension
  | MS
  | h5
  | fits
  | log
  | parset
  | lsm
  | IM
  | PD
  | vds
  | gds
  | conf
  | other
  deriving DecidableEq, Repr

/-- The data members of `Filename`. -/
structure Filename where
  observationID_p : String
  optionalDescription_p : String
  filetype_p : FileType
  extension_p : FileExtension
  path_p : String
  deriving DecidableEq, Repr

/-- `Filename::init`. -/
def Filename.init : Filename :=
  { observationID_p := "", optionalDescription_p := "", filetype_p := FileType.uv,
    extension_p := FileExtension.h5, path_p := "" }

/-- `Filename::setOptionalDescription`: the argument is stored as it is. -/
def Filename.setOptionalDescription (f : Filename) (optionalDescription : String) : Filename :=
  { f with optionalDescription_p := optionalDescription }

/-- The constructor `Filename (observationID, optionalDescription, filetype,
extension, path)`.  The setters `setObservationID`, `setFiletype`,
`setExtension` and `setPath` are defined in `Filename.h`, which is not among
the sources; each is taken to store its argument, as `setOptionalDescription`
does.  The members are not initialised before the setters run. -/
def Filename.create (observationID optionalDescription : String) (filetype : FileType)
    (extension : FileExtension) (path : String) : Filename :=
  let f : Filename :=
    { observationID_p := observationID, optionalDescription_p := "", filetype_p := filetype,
      extension_p := extension, path_p := path }
  f.setOptionalDescription optionalDescription

/-- `Filename::getName (Filename::FileExtension const &)`. -/
def Filename.getNameExtension : FileExtension → String
  | FileExtension.MS => "MS"
  | FileExtension.h5 => "h5"
  | FileExtension.fits => "fits"
  | FileExtension.log => "log"
  | FileExtension.parset => "parset"
  | FileExtension.lsm => "lsm"
  | FileExtension.IM => "IM"
  | FileExtension.PD => "PD"
  | FileExtension.vds => "vds"
  | FileExtension.gds => "gds"
  | FileExtension.conf => "conf"
  | FileExtension.other => "UNDEFINED"

/-- `Filename::getName (Filename::FileType const &)`. -/
def Filename.getNameType : FileType → String
  | FileType.uv => "uv"
  | FileType.sky => "sky"
  | FileType.rm => "rm"
  | FileType.nfi => "nfi"
  | FileType.dynspec => "dynspec"
  | FileType.bf => "bf"
  | FileType.tbb => "tbb"
  | FileType.other => "UNDEFINED"

/-- `Filename::filename (bool const &fullpath)`. -/
def Filename.filename (f : Filename) (fullpath : Bool) : String :=
  let name := ""
  let name := if fullpath && f.path_p != "" then (name ++ f.path_p) ++ "/" else name
  let name := name ++ "L"
  let name := name ++ f.observationID_p
  let name :=
    if f.optionalDescription_p != "" then (name ++ "_") ++ f.optionalDescription_p else name
  let name := name ++ "_"
  let name := name ++ Filename.getNameType f.filetype_p
  let name := name ++ "."
  let name := name ++ Filename.getNameExtension f.extension_p
  name

/-- The checks documented for `Filename::setOptionalDescription`: no leading
underscore, no hyphen between sub-strings. -/
def passesDocumentedChecks (optionalDescription : String) : Bool :=
  !(optionalDescription.data.head? == some '_') && !(optionalDescription.data.contains '-')

/-! ## dalArray.cpp, dalGroup.cc : closing -/

/-- Modelled from the spec: the constant `DAL::SUCCESS` (`dalBaseTypes.h`) is
not among the sources; success is surfaced as the boolean `true`. -/
def SUCCESS : Bool := true

/-- The answers of the HDF5 library to the calls issued by `dalArray` and
`dalGroup` when opening and closing. -/
structure H5CloseEnv where
  H5Dopen : Int → String → Int
  H5Dclose : Int → Int
  H5Gclose : Int → Int

/-- The library calls issued by `dalArray` and `dalGroup` when opening and
closing. -/
inductive H5CloseCall
  | H5Dopen (file_id : Int) (name : String)
  | H5Dclose (array_id : Int)
  | H5Gclose (group_id : Int)
  deriving DecidableEq, Repr

/-- The data members of `dalArray` (`dalArray.h` is not among the sources; the
members are those set by the default constructor). -/
structure dalArray where
  array_id : Int
  file_id : Int
  rank : Int
  datatype : String
  status : Int
  name : String
  deriving DecidableEq, Repr

/-- The default constructor `dalArray::dalArray ()`. -/
def dalArray.init : dalArray :=
  { array_id := 0, file_id := 0, rank := 0, datatype := "UNKNOWN", status := 0,
    name := "UNKNOWN" }

/-- `dalArray::open (void * voidfile, string arrayname)`; `file` is the
identifier behind `voidfile`. -/
def dalArray.open (env : H5CloseEnv) (a : dalArray) (file : Int) (arrayname : String) :
    Int × dalArray × List H5CloseCall :=
  let a := { a with name := arrayname }
  let a := { a with file_id := file }
  let a := { a with array_id := env.H5Dopen a.file_id a.name }
  (a.array_id, a, [H5CloseCall.H5Dopen a.file_id a.name])

/-- `dalArray::close ()`: `H5Dclose (array_id)` is called whatever the value of
`array_id`, and `array_id` is left as it is. -/
def dalArray.close (env : H5CloseEnv) (a : dalArray) : Bool × dalArray × List H5CloseCall :=
  if env.H5Dclose a.array_id < 0 then
    (FAIL, a, [H5CloseCall.H5Dclose a.array_id])
  else
    (SUCCESS, a, [H5CloseCall.H5Dclose a.array_id])

/-- `dalGroup::close ()`, on the member `itsGroupID`: the result is the status,
`itsGroupID` afterwards and the calls issued. -/
def dalGroup.close (env : H5CloseEnv) (itsGroupID : Int) : Bool × Int × List H5CloseCall :=
  if 0 ≠ itsGroupID then
    if env.H5Gclose itsGroupID < 0 then
      (FAIL, itsGroupID, [H5CloseCall.H5Gclose itsGroupID])
    else
      (SUCCESS, 0, [H5CloseCall.H5Gclose itsGroupID])
  else
    (SUCCESS, itsGroupID, [])

/-- A library in which `H5Dopen` hands out the identifier 31 and the close
calls succeed on positive identifiers only. -/
def closeEnv : H5CloseEnv :=
  { H5Dopen := fun _ _ => 31
    H5Dclose := fun id => if 0 < id then 0 else -1
    H5Gclose := fun id => if 0 < id then 0 else -1 }

/-! ## CoordinatesGroup.cc, BF_StationBeam.cc : opening a group -/

/-- The comparison `operator<` of `std::string`: lexicographic, character by
character. -/
def stringLess : List Char → List Char → Bool
  | _, [] => false
  | [], _ :: _ => true
  | a :: as, b :: bs =>
    if a.toNat < b.toNat then true
    else if b.toNat < a.toNat then false
    else stringLess as bs

/-- The order of the elements of a `std::set<std::string>`. -/
def StringLt (x y : String) : Prop :=
  stringLess x.data y.data = true

/-- `std::set<std::string>::insert` on the set held as the list of its
elements in increasing order. -/
def setInsert (x : String) : List String → List String
  | [] => [x]
  | y :: ys =>
    if stringLess x.data y.data then x :: y :: ys
    else if x = y then y :: ys
    else y :: setInsert x ys

/-- `std::set<std::string>::count`. -/
def setCount (s : List String) (x : String) : Nat :=
  if x ∈ s then 1 else 0

/-- The constant `H5G_GROUP` of the enumeration `H5G_obj_t`. -/
def H5G_GROUP : Int := 0

/-- The constant `H5G_DATASET` of the enumeration `H5G_obj_t`. -/
def H5G_DATASET : Int := 1

/-- The constant `H5G_TYPE` of the enumeration `H5G_obj_t`. -/
def H5G_TYPE : Int := 2

/-- The value handed to `h5set_attribute`; `F` is the type of floating-point
values, which are only passed on. -/
inductive AttrValue (F : Type)
  | string (s : String)
  | strings (v : List String)
  | int (i : Int)
  | float (x : F)
  | double (x : F)
  | doubles (v : List F)
  deriving DecidableEq, Repr

/-- The answers of the HDF5 library to the calls issued when a group is
opened. -/
structure H5GroupEnv where
  H5Lexists : Int → String → Int
  H5Gopen2 : Int → String → Int
  H5Gcreate : Int → String → Int

/-- The calls issued when a group is opened, with their arguments. -/
inductive GroupCall (F : Type)
  | H5Lexists (location : Int) (name : String)
  | h5get_names (location : Int) (type : Int)
  | H5Gopen2 (location : Int) (name : String)
  | H5Gcreate (location : Int) (name : String)
  | h5set_attribute (location : Int) (name : String) (value : AttrValue F)
  deriving DecidableEq, Repr

section groups

variable {F : Type}

/-- The call creates a group. -/
def GroupCall.isCreate : GroupCall F → Bool
  | GroupCall.H5Gcreate _ _ => true
  | _ => false

/-- The call writes an attribute. -/
def GroupCall.isAttributeWrite : GroupCall F → Bool
  | GroupCall.h5set_attribute _ _ _ => true
  | _ => false

/-- The names of the attributes written by a sequence of calls, in order. -/
def namesWritten (calls : List (GroupCall F)) : List String :=
  calls.filterMap (fun c =>
    match c with
    | GroupCall.h5set_attribute _ name _ => some name
    | _ => none)

/-- The values written to the attribute `name` by a sequence of calls, in
order. -/
def valuesWritten (calls : List (GroupCall F)) (name : String) : List (AttrValue F) :=
  calls.filterMap (fun c =>
    match c with
    | GroupCall.h5set_attribute _ n value => if n = name then some value else none
    | _ => none)

/-- The location whose attribute a call writes, if the call writes one. -/
def GroupCall.target : GroupCall F → Option Int
  | GroupCall.h5set_attribute location _ _ => some location
  | _ => none

/-- The names of the attributes that a sequence of calls writes to the location
`target`, in order. -/
def namesWrittenTo (calls : List (GroupCall F)) (target : Int) : List String :=
  calls.filterMap (fun c =>
    match c with
    | GroupCall.h5set_attribute location name _ =>
      if location = target then some name else none
    | _ => none)

/-- The values that a sequence of calls writes to the attribute `name` of the
location `target`, in order. -/
def valuesWrittenTo (calls : List (GroupCall F)) (target : Int) (name : String) :
    List (AttrValue F) :=
  calls.filterMap (fun c =>
    match c with
    | GroupCall.h5set_attribute location n value =>
      if location = target ∧ n = name then some value else none
    | _ => none)

/-- The data members of `CoordinatesGroup` (`CoordinatesGroup.h` is not among
the sources; the members are those set by `init` and `setAttributes`). -/
structure CoordinatesGroup (F : Type) where
  location_p : Int
  attributes_p : List String
  itsGroupType : String
  refLocationValue_p : List F
  refLocationUnit_p : List String
  refLocationFrame_p : String
  refTimeValue_p : F
  refTimeUnit_p : String
  refTimeFrame_p : String
  nofCoordinates_p : Int
  nofAxes_p : Int
  itsCoordinateTypes : List String

/-- `CoordinatesGroup::init`; `zero` is the value `0.0`. -/
def CoordinatesGroup.init (zero : F) : CoordinatesGroup F :=
  let undefined := "UNDEFINED"
  { location_p := 0
    attributes_p := []
    itsGroupType := "CoordinatesGroup"
    refLocationValue_p := List.replicate 3 zero
    refLocationUnit_p := List.replicate 3 undefined
    refLocationFrame_p := undefined
    refTimeValue_p := zero
    refTimeUnit_p := "s"
    refTimeFrame_p := "UTC"
    nofCoordinates_p := 0
    nofAxes_p := 0
    itsCoordinateTypes := List.replicate 1 undefined }

/-- `CoordinatesGroup::setAttributes`. -/
def CoordinatesGroup.setAttributes (cg : CoordinatesGroup F) : CoordinatesGroup F :=
  let attributes_p : List String := []
  let attributes_p := setInsert "GROUPTYPE" attributes_p
  let attributes_p := setInsert "REF_LOCATION_VALUE" attributes_p
  let attributes_p := setInsert "REF_LOCATION_UNIT" attributes_p
  let attributes_p := setInsert "REF_LOCATION_FRAME" attributes_p
  let attributes_p := setInsert "REF_TIME_VALUE" attributes_p
  let attributes_p := setInsert "REF_TIME_UNIT" attributes_p
  let attributes_p := setInsert "REF_TIME_FRAME" attributes_p
  let attributes_p := setInsert "NOF_COORDINATES" attributes_p
  let attributes_p := setInsert "NOF_AXES" attributes_p
  let attributes_p := setInsert "COORDINATE_TYPES" attributes_p
  { cg with attributes_p := attributes_p }

/-- `CoordinatesGroup::open (location, name, create)`: the returned status,
the object afterwards and the calls issued, in order. -/
def CoordinatesGroup.open (env : H5GroupEnv) (cg : CoordinatesGroup F) (location : Int)
    (name : String) (create : Bool) : Bool × CoordinatesGroup F × List (GroupCall F) :=
  let cg := cg.setAttributes
  let calls : List (GroupCall F) := [GroupCall.H5Lexists location name]
  let opened : CoordinatesGroup F × List (GroupCall F) :=
    if env.H5Lexists location name ≠ 0 then
      ({ cg with location_p := env.H5Gopen2 location name },
        calls ++ [GroupCall.H5Gopen2 location name])
    else
      ({ cg with location_p := 0 }, calls)
  let cg := opened.1
  let calls := opened.2
  if cg.location_p > 0 then
    (true, cg, calls)
  else if create then
    let cg := { cg with location_p := env.H5Gcreate location name }
    let calls := calls ++ [GroupCall.H5Gcreate location name]
    if cg.location_p > 0 then
      let undefined := "UNDEFINED"
      let types := List.replicate 1 undefined
      (true, cg, calls ++
        [GroupCall.h5set_attribute cg.location_p "GROUPTYPE" (AttrValue.string cg.itsGroupType),
          GroupCall.h5set_attribute cg.location_p "REF_LOCATION_VALUE"
            (AttrValue.doubles cg.refLocationValue_p),
          GroupCall.h5set_attribute cg.location_p "REF_LOCATION_UNIT"
            (AttrValue.strings cg.refLocationUnit_p),
          GroupCall.h5set_attribute cg.location_p "REF_LOCATION_FRAME"
            (AttrValue.string cg.refLocationFrame_p),
          GroupCall.h5set_attribute cg.location_p "REF_TIME_VALUE"
            (AttrValue.double cg.refTimeValue_p),
          GroupCall.h5set_attribute cg.location_p "REF_TIME_UNIT"
            (AttrValue.string cg.refTimeUnit_p),
          GroupCall.h5set_attribute cg.location_p "REF_TIME_FRAME"
            (AttrValue.string cg.refTimeFrame_p),
          GroupCall.h5set_attribute cg.location_p "NOF_COORDINATES"
            (AttrValue.int cg.nofCoordinates_p),
          GroupCall.h5set_attribute cg.location_p "NOF_AXES" (AttrValue.int cg.nofAxes_p),
          GroupCall.h5set_attribute cg.location_p "COORDINATE_TYPES" (AttrValue.strings types)])
    else
      (false, cg, calls)
  else
    (false, cg, calls)

/-- The data members of `BF_StationBeam` used by `open`. -/
structure BF_StationBeam where
  location_p : Int
  attributes_p : List String
  deriving DecidableEq, Repr

/-- The default constructor `BF_StationBeam::BF_StationBeam ()`. -/
def BF_StationBeam.init : BF_StationBeam :=
  { location_p := 0, attributes_p := [] }

/-- `BF_StationBeam::setAttributes`. -/
def BF_StationBeam.setAttributes (bf : BF_StationBeam) : BF_StationBeam :=
  let attributes_p : List String := []
  let attributes_p := setInsert "GROUPTYPE" attributes_p
  let attributes_p := setInsert "NOF_STATIONS" attributes_p
  let attributes_p := setInsert "STATIONS_LIST" attributes_p
  let attributes_p := setInsert "POINT_RA" attributes_p
  let attributes_p := setInsert "POINT_DEC" attributes_p
  let attributes_p := setInsert "TRACKING" attributes_p
  let attributes_p := setInsert "POINT_ALTITUDE" attributes_p
  let attributes_p := setInsert "POINT_AZIMUTH" attributes_p
  let attributes_p := setInsert "CLOCK_RATE" attributes_p
  let attributes_p := setInsert "CLOCK_RATE_UNIT" attributes_p
  let attributes_p := setInsert "NOF_SAMPLES" attributes_p
  let attributes_p := setInsert "SAMPLING_RATE" attributes_p
  let attributes_p := setInsert "SAMPLING_RATE_UNIT" attributes_p
  let attributes_p := setInsert "SAMPLING_TIME" attributes_p
  let attributes_p := setInsert "SAMPLING_TIME_UNIT" attributes_p
  let attributes_p := setInsert "TOTAL_INTEGRATION_TIME" attributes_p
  let attributes_p := setInsert "TOTAL_INTEGRATION_TIME_UNIT" attributes_p
  let attributes_p := setInsert "CHANNELS_PER_SUBBAND" attributes_p
  let attributes_p := setInsert "SUBBAND_WIDTH" attributes_p
  let attributes_p := setInsert "SUBBAND_WIDTH_UNIT" attributes_p
  let attributes_p := setInsert "CHANNEL_WIDTH" attributes_p
  let attributes_p := setInsert "CHANNEL_WIDTH_UNIT" attributes_p
  let attributes_p := setInsert "NOF_PENCIL_BEAMS" attributes_p
  { bf with attributes_p := attributes_p }

/-- `BF_StationBeam::open (location, name, create)`.  The helpers
`defaultFloat ()` and `defaultVector (defaultString ())` are not among the
sources; their values are the parameters `defaultFloat` and `defaultStrings`.
The set `groups` filled by `h5get_names` is not read afterwards: the group is
looked up in `attributes_p`. -/
def BF_StationBeam.open (env : H5GroupEnv) (defaultFloat : F) (defaultStrings : List String)
    (bf : BF_StationBeam) (location : Int) (name : String) (create : Bool) :
    Bool × BF_StationBeam × List (GroupCall F) :=
  let bf := bf.setAttributes
  let calls : List (GroupCall F) := [GroupCall.h5get_names location H5G_GROUP]
  let opened : BF_StationBeam × List (GroupCall F) :=
    if setCount bf.attributes_p name ≠ 0 then
      ({ bf with location_p := env.H5Gopen2 location name },
        calls ++ [GroupCall.H5Gopen2 location name])
    else
      ({ bf with location_p := 0 }, calls)
  let bf := opened.1
  let calls := opened.2
  if bf.location_p > 0 then
    (true, bf, calls)
  else if create then
    let bf := { bf with location_p := env.H5Gcreate location name }
    let calls := calls ++ [GroupCall.H5Gcreate location name]
    if bf.location_p > 0 then
      let string_group := "StatBeam"
      let string_mhz := "MHz"
      let string_off := "OFF"
      let string_s := "s"
      let string_us := "us"
      (true, bf, calls ++
        [GroupCall.h5set_attribute bf.location_p "GROUPTYPE" (AttrValue.string string_group),
          GroupCall.h5set_attribute bf.location_p "NOF_STATIONS" (AttrValue.int 0),
          GroupCall.h5set_attribute bf.location_p "STATIONS_LIST"
            (AttrValue.strings defaultStrings),
          GroupCall.h5set_attribute bf.location_p "POINT_RA" (AttrValue.float defaultFloat),
          GroupCall.h5set_attribute bf.location_p "POINT_DEC" (AttrValue.float defaultFloat),
          GroupCall.h5set_attribute bf.location_p "TRACKING" (AttrValue.string string_off),
          GroupCall.h5set_attribute bf.location_p "POINT_ALTITUDE"
            (AttrValue.float defaultFloat),
          GroupCall.h5set_attribute bf.location_p "POINT_AZIMUTH" (AttrValue.float defaultFloat),
          GroupCall.h5set_attribute bf.location_p "CLOCK_RATE" (AttrValue.int 0),
          GroupCall.h5set_attribute bf.location_p "CLOCK_RATE_UNIT" (AttrValue.string string_mhz),
          GroupCall.h5set_attribute bf.location_p "NOF_SAMPLES" (AttrValue.int 0),
          GroupCall.h5set_attribute bf.location_p "SAMPLING_RATE" (AttrValue.float defaultFloat),
          GroupCall.h5set_attribute bf.location_p "SAMPLING_RATE_UNIT"
            (AttrValue.string string_mhz),
          GroupCall.h5set_attribute bf.location_p "SAMPLING_TIME" (AttrValue.float defaultFloat),
          GroupCall.h5set_attribute bf.location_p "SAMPLING_TIME_UNIT"
            (AttrValue.string string_us),
          GroupCall.h5set_attribute bf.location_p "TOTAL_INTEGRATION_TIME"
            (AttrValue.float defaultFloat),
          GroupCall.h5set_attribute bf.location_p "TOTAL_INTEGRATION_TIME_UNIT"
            (AttrValue.string string_s),
          GroupCall.h5set_attribute bf.location_p "CHANNELS_PER_SUBBAND" (AttrValue.int 0),
          GroupCall.h5set_attribute bf.location_p "SUBBAND_WIDTH" (AttrValue.float defaultFloat),
          GroupCall.h5set_attribute bf.location_p "SUBBAND_WIDTH_UNIT"
            (AttrValue.string string_mhz),
          GroupCall.h5set_attribute bf.location_p "CHANNEL_WIDTH" (AttrValue.float defaultFloat),
          GroupCall.h5set_attribute bf.location_p "CHANNEL_WIDTH_UNIT"
            (AttrValue.string string_mhz),
          GroupCall.h5set_attribute bf.location_p "NOF_PENCIL_BEAMS" (AttrValue.int 0)])
    else
      (false, bf, calls)
  else
    (false, bf, calls)

end groups

/-- A parent location, identifier 1, without children: no link exists under
any name, and a group can be created under every name (identifier 21). -/
def emptyParent : H5GroupEnv :=
  { H5Lexists := fun location _ => if location = 1 then 0 else -1
    H5Gopen2 := fun _ _ => -1
    H5Gcreate := fun location _ => if location = 1 then 21 else -1 }

/-- A parent location, identifier 1, that holds the group "StationBeam001":
the link exists, the group can be opened (identifier 21) and cannot be created
a second time. -/
def parentWithBeam : H5GroupEnv :=
  { H5Lexists := fun location name =>
      if location = 1 then (if name = "StationBeam001" then 1 else 0) else -1
    H5Gopen2 := fun location name =>
      if location = 1 ∧ name = "StationBeam001" then 21 else -1
    H5Gcreate := fun location name =>
      if location = 1 ∧ name ≠ "StationBeam001" then 22 else -1 }

/-! ## dalCommon.cc : the names of the objects attached to a location -/

/-- The constant `H5G_UNKNOWN` of the enumeration `H5G_obj_t`. -/
def H5G_UNKNOWN : Int := -1

/-- The HDF5 functions used to list the objects attached to a location.
`H5Gget_num_objs` answers its status and the value of the counter afterwards
(both callers initialise the counter to zero); `H5Gget_objname_by_idx` takes the
size of the buffer and answers the length of the name and the text left in the
buffer. -/
structure H5GLib where
  H5Gget_num_objs : Int → Int × Nat
  H5Gget_objtype_by_idx : Int → Nat → Int
  H5Gget_objname_by_idx : Int → Nat → Nat → Int × String

/-- `h5get_name (name, object_id, index)`: the status and `name` afterwards. -/
def h5get_name_index (lib : H5GLib) (name : String) (object_id : Int) (index : Nat) :
    Bool × String :=
  let nofObjects := (lib.H5Gget_num_objs object_id).2
  if index > nofObjects then
    (false, name)
  else
    let buffer_size : Nat := 10
    let name_length := (lib.H5Gget_objname_by_idx object_id index buffer_size).1
    if name_length > 0 then
      let buffer_size := (name_length + 1).toNat
      let buffer := (lib.H5Gget_objname_by_idx object_id index buffer_size).2
      (true, buffer)
    else
      (false, name)

/-- The body of the loop of `h5get_names` over the index `idx`; the state is
`status`, `tmp` and `names`. -/
def h5get_names_step (lib : H5GLib) (locationID : Int) (type : Int)
    (acc : Bool × String × List String) (idx : Nat) : Bool × String × List String :=
  if type = lib.H5Gget_objtype_by_idx locationID idx then
    let r := h5get_name_index lib acc.2.1 locationID idx
    if r.1 then (r.1, r.2, setInsert r.2 acc.2.2) else (r.1, r.2, acc.2.2)
  else
    acc

/-- `h5get_names (std::set<std::string> &names, locationID, type)`: the status
and `names` afterwards. -/
def h5get_names (lib : H5GLib) (names : List String) (locationID : Int) (type : Int) :
    Bool × List String :=
  let h5error := (lib.H5Gget_num_objs locationID).1
  let nofObjects := (lib.H5Gget_num_objs locationID).2
  if h5error > 0 then
    (false, names)
  else if nofObjects > 0 then
    let out := (List.range nofObjects).foldl (h5get_names_step lib locationID type)
      (true, "", names)
    (out.1, out.2.2)
  else
    (false, names)

/-- `std::vector<std::string>::resize`. -/
def resize (v : List String) (n : Nat) : List String :=
  v.take n ++ List.replicate (n - v.length) ""

/-- The loop `for (; itSet!=namesSet.end(); ++itSet) { *itVect = *itSet; ++itVect; }`
from the iterator positions given by the two lists.  The vector has been
resized to the size of the set, so that `itVect` does not reach the end before
`itSet`; the last case is not reached. -/
def copyFrom : List String → List String → List String
  | [], rest => rest
  | x :: xs, _ :: rest => x :: copyFrom xs rest
  | _ :: _, [] => []

/-- `h5get_names (std::vector<std::string> &names, location_id, type)`: the
status and `names` afterwards. -/
def h5get_names_vector (lib : H5GLib) (names : List String) (location_id : Int) (type : Int) :
    Bool × List String :=
  let namesSet : List String := []
  let r := h5get_names lib namesSet location_id type
  let status := r.1
  let namesSet := r.2
  let names := resize names namesSet.length
  let names := copyFrom namesSet names
  (status, names)

/-- An executable model of the library functions of `H5GLib`: `file` gives,
for every valid location, the attached objects (name and type) in index order.
Names are counted in characters of one byte each. -/
def childrenLib (file : Int → Option (List (String × Int))) : H5GLib :=
  { H5Gget_num_objs := fun loc =>
      match file loc with
      | none => (-1, 0)
      | some cs => (0, cs.length)
    H5Gget_objtype_by_idx := fun loc idx =>
      match file loc with
      | none => H5G_UNKNOWN
      | some cs =>
        match cs[idx]? with
        | none => H5G_UNKNOWN
        | some c => c.2
    H5Gget_objname_by_idx := fun loc idx size =>
      match file loc with
      | none => (-1, "")
      | some cs =>
        match cs[idx]? with
        | none => (-1, "")
        | some c => (c.1.length, String.mk (c.1.data.take (size - 1))) }

/-- The effect of one attached object `c` on the state of the loop of
`h5get_names`, read off the model `childrenLib`. -/
def childStep (type : Int) (acc : Bool × String × List String) (c : String × Int) :
    Bool × String × List String :=
  if type = c.2 then
    if 0 < c.1.length then (true, c.1, setInsert c.1 acc.2.2) else (false, acc.2.1, acc.2.2)
  else
    acc

/-- The names of the objects of the given type among the attached objects. -/
def namesOfType (type : Int) (cs : List (String × Int)) : List String :=
  (cs.filter (fun c => c.2 = type)).map Prod.fst

/-- A file in which location 1 is valid and has no attached object. -/
def noChildren : Int → Option (List (String × Int)) :=
  fun loc => if loc = 1 then some [] else none

/-- A file in which location 1 holds two groups and a dataset. -/
def threeChildren : Int → Option (List (String × Int)) :=
  fun loc =>
    if loc = 1 then
      some [("Station002", H5G_GROUP), ("data", H5G_DATASET), ("Station001", H5G_GROUP)]
    else none

/-- The file `threeChildren` with the objects attached in another order. -/
def threeChildrenReordered : Int → Option (List (String × Int)) :=
  fun loc =>
    if loc = 1 then
      some [("Station001", H5G_GROUP), ("Station002", H5G_GROUP), ("data", H5G_DATASET)]
    else none

/-! ## dalGroup.cc : member names -/

/-- The HDF5 functions used by `dalGroup::getMemberNames`.  `members loc name`
is what `H5Giterate` visits for the group `name` under `loc`: the identifier
handed to the operator and the member names in iteration order, or nothing when
the group cannot be iterated.  `H5Gget_objinfo` answers its status and the field
`type` of the stat buffer afterwards. -/
structure H5IterLib where
  H5Iis_valid : Int → Bool
  members : Int → String → Option (Int × List String)
  H5Gget_objinfo : Int → String → Int × Int

/-- The iteration of `H5Giterate` over the member names: the operator is called
for each member until it returns a non-zero value, which is then returned. -/
def iterate {σ : Type} (op : Int → String → σ → Int × σ) (gid : Int) :
    List String → σ → Int × σ
  | [], data => (0, data)
  | m :: ms, data =>
    let r := op gid m data
    if r.1 ≠ 0 then r else iterate op gid ms r.2

/-- The library function `H5Giterate (loc, name, NULL, op, data)`. -/
def H5Giterate {σ : Type} (lib : H5IterLib) (loc : Int) (name : String)
    (op : Int → String → σ → Int × σ) (data : σ) : Int × σ :=
  match lib.members loc name with
  | none => (-1, data)
  | some (gid, ms) => iterate op gid ms data

/-- `dalGroup_file_info (loc_id, name, opdata)`: the returned value and the
vector behind `opdata` afterwards. -/
def dalGroup_file_info (lib : H5IterLib) (loc_id : Int) (name : String)
    (opdata : List String) : Int × List String :=
  let r := lib.H5Gget_objinfo loc_id name
  if r.1 > 0 then
    (1, opdata)
  else if r.2 = H5G_DATASET then
    (0, opdata ++ [name])
  else
    (0, opdata)

/-- `dalGroup::getMemberNames`. -/
def getMemberNames (lib : H5IterLib) (itsFileID : Int) (groupname_full : String) :
    List String :=
  let member_names : List String := []
  if lib.H5Iis_valid itsFileID then
    (H5Giterate lib itsFileID groupname_full (dalGroup_file_info lib) member_names).2
  else
    member_names

/-- A file, identifier 1, with the group "/Station001" (identifier 5 during the
iteration) whose members are `cs` (name and type). -/
def groupFile (cs : List (String × Int)) : H5IterLib :=
  { H5Iis_valid := fun id => id = 1
    members := fun loc name =>
      if loc = 1 ∧ name = "/Station001" then some (5, cs.map Prod.fst) else none
    H5Gget_objinfo := fun loc name =>
      if loc = 5 then
        match cs.find? (fun c => c.1 = name) with
        | some c => (0, c.2)
        | none => (-1, H5G_UNKNOWN)
      else (-1, H5G_UNKNOWN) }

/-! ## dalCommon.h : array operations -/

/-- `product (vec)` for an element type `T` with exact multiplication; `T (0)`
and `T (1)` are the zero and the one of `T`. -/
def product {T : Type} [Mul T] [Zero T] [One T] (vec : List T) : T :=
  if vec.isEmpty then
    0
  else
    vec.foldl (fun tmp x => tmp * x) 1

/-- `std::vector<T>::resize`: the elements kept are unchanged, the elements
added are value-initialised (`zero`). -/
def vectorResize {T : Type} (zero : T) (v : List T) (n : Nat) : List T :=
  v.take n ++ List.replicate (n - v.length) zero

/-- `IdentityMatrix (data, sidelength)`: the vector `data` afterwards; `none`
when an element outside the vector is written.  The arithmetic is that of
`unsigned int`. -/
def IdentityMatrix {T : Type} [Zero T] [One T] (data : List T) (sidelength : Nat) :
    Option (List T) :=
  let nelem := (sidelength * sidelength) % 2 ^ 32
  let data := vectorResize 0 data nelem
  (List.range sidelength).foldlM
    (fun data n =>
      let idx := (n * sidelength + n) % 2 ^ 32
      if idx < data.length then some (data.set idx 1) else none)
    data

/-! ## dalCommon.cc : swapbytes -/

/-- The body of the loop of `swapbytes` for the index `i`; `none` when an
element outside the array is accessed. -/
def swapbytes_step {T : Type} (nbytes : Int) (addr : List T) (i : Nat) : Option (List T) :=
  let j := nbytes - ((i : Int) + 1)
  if j < 0 then
    none
  else
    match addr[i]?, addr[j.toNat]? with
    | some buf, some other => some ((addr.set i other).set j.toNat buf)
    | _, _ => none

/-- `swapbytes (addr, nbytes)`: the array afterwards; `nbytes` is an `int8_t`
and `nbytes/2` is the division of C++ (rounding towards zero). -/
def swapbytes {T : Type} (addr : List T) (nbytes : Int) : Option (List T) :=
  (List.range (nbytes.tdiv 2).toNat).foldlM (swapbytes_step nbytes) addr

/-! ## dalCommon.cc : the name of an object -/

/-- The constant `H5I_BADID` of the enumeration `H5I_type_t`. -/
def H5I_BADID : Int := -1

/-- The constant `H5I_FILE` of the enumeration `H5I_type_t`. -/
def H5I_FILE : Int := 1

/-- The constant `H5I_GROUP` of the enumeration `H5I_type_t`. -/
def H5I_GROUP : Int := 2

/-- The HDF5 functions used by `h5get_name (name, object_id, absolute)`.
`H5Fget_name` and `H5Iget_name` take the size of the buffer and answer the
length of the name and the text left in the buffer. -/
structure H5NameLib where
  H5Iget_type : Int → Int
  H5Fget_name : Int → Nat → Int × String
  H5Iget_name : Int → Nat → Int × String

/-- `h5get_name (name, object_id, absolute)`: the returned value and `name`
afterwards.  The local `status` is set to `false` when the name has no
characters, but the function ends with `return true;`. -/
def h5get_name (lib : H5NameLib) (name : String) (object_id : Int) (absolute : Bool) :
    Bool × String :=
  let objectType := lib.H5Iget_type object_id
  if objectType = H5I_BADID then
    (false, name)
  else
    let buffer_size : Nat := 10
    let name_length :=
      if objectType = H5I_FILE then (lib.H5Fget_name object_id buffer_size).1
      else (lib.H5Iget_name object_id buffer_size).1
    if name_length > 0 then
      let buffer_size := (name_length + 1).toNat
      let buffer :=
        if objectType = H5I_FILE then (lib.H5Fget_name object_id buffer_size).2
        else (lib.H5Iget_name object_id buffer_size).2
      let tmp := buffer
      if absolute then
        (true, tmp)
      else
        let tmp := if tmp.data.take 1 = ['/'] then String.mk (tmp.data.drop 1) else tmp
        (true, tmp)
    else
      (true, name)

/-- A library in which the identifier 5 is a group whose name `H5Iget_name`
reports with `length` characters (zero or negative: no name), the identifier 6
is a group named "/Station001/data", and no other identifier is valid. -/
def namelessLib (length : Int) : H5NameLib :=
  { H5Iget_type := fun id => if id = 5 ∨ id = 6 then H5I_GROUP else H5I_BADID
    H5Fget_name := fun _ _ => (-1, "")
    H5Iget_name := fun id size =>
      if id = 5 then (length, "")
      else if id = 6 then (16, String.mk ("/Station001/data".data.take (size - 1)))
      else (-1, "") }

/-! ## BF_StationBeam.cc : the name of a station beam -/

/-- The text written by `sprintf` for the conversion `%03d`: the decimal digits
of `value`, padded with zeros to a width of three characters, the sign
included. -/
def sprintf_03d (value : Int) : List Char :=
  let digits := Nat.toDigits 10 value.natAbs
  if value < 0 then
    '-' :: (List.replicate (2 - digits.length) '0' ++ digits)
  else
    List.replicate (3 - digits.length) '0' ++ digits

/-- `BF_StationBeam::getName (index)`.  The `unsigned int` is printed with the
conversion `%d`, that is as an `int`, into `char uid[10]`; `none` when the text
and its terminator do not fit into the ten bytes. -/
def BF_StationBeam.getName (index : Nat) : Option String :=
  let uid := sprintf_03d (toInt32 index)
  if uid.length + 1 > 10 then
    none
  else
    let name := String.mk uid
    some ("StationBeam" ++ name)

/-! ## dalCommon.cc : crc16 -/

/-- The constant `CRC_poly` of `crc16`: the polynomial
`x^16 + x^15 + x^2 + 1`. -/
def CRC_poly : Nat := 0x18005

/-- The constant `CRC_div` of `crc16`, a `uint32_t`. -/
def CRC_div : Nat := ((CRC_poly &&& 0x7fffffff) <<< 15) % 2 ^ 32

/-- The body of the loop over `j` in `crc16`, on the `uint32_t` `data`. -/
def crc16_bit (data : Nat) : Nat :=
  let data := if data &&& 0x80000000 ≠ 0 then data ^^^ CRC_div else data
  let data := data &&& 0x7fffffff
  (data <<< 1) % 2 ^ 32

/-- The loop over `j` in `crc16`: `bits` = 16 rounds. -/
def crc16_bits (data : Nat) : Nat :=
  (List.range 16).foldl (fun data _ => crc16_bit data) data

/-- The body of the loop over `i` in `crc16` for the word `buffer[i]`. -/
def crc16_word (data : Nat) (word : Nat) : Nat :=
  crc16_bits ((data + word) % 2 ^ 32)

/-- The loop over `i` in `crc16`, with `count` rounds left; `none` when a word
outside the buffer is read. -/
def crc16_loop (buffer : List Nat) : Nat → Nat → Nat → Option Nat
  | 0, _, data => some data
  | count + 1, i, data =>
    match buffer[i]? with
    | none => none
    | some word => crc16_loop buffer count (i + 1) (crc16_word data word)

/-- `crc16 (buffer, length)` on a buffer of `uint16_t` words; `none` when a
word outside the buffer is read.  The shift of `buffer[0]` is taken on the bit
pattern and stored in the `uint32_t` `data`. -/
def crc16 (buffer : List Nat) (length : Nat) : Option Nat :=
  match buffer[0]? with
  | none => none
  | some first =>
    let data := ((first &&& 0x7fffffff) <<< 16) % 2 ^ 32
    (crc16_loop buffer (length - 1) 1 data).map (fun data => (data >>> 16) % 2 ^ 16)

/-- The message polynomial of a buffer, held as the number whose binary digits
are its coefficients: the words are concatenated, most significant bit first,
word 0 highest. -/
def message (buffer : List Nat) : Nat :=
  buffer.foldl (fun m word => m * 2 ^ 16 + word) 0

/-- The product over GF(2) of the polynomial with the coefficients `q`, highest
first, and the polynomial `p`; `p` and the product are held as the numbers
whose binary digits are their coefficients. -/
def clmul (q : List Bool) (p : Nat) : Nat :=
  q.foldl (fun acc b => (2 * acc) ^^^ (if b then p else 0)) 0

/-- The element-wise XOR of two buffers. -/
def xorBuffers (a b : List Nat) : List Nat :=
  List.zipWith (fun x y => x ^^^ y) a b

/-! ## Theorems -/

theorem chunkSize_eq (datatypeSize : Nat) (itsChunking : List Nat) :
    chunkSize datatypeSize itsChunking
      = (datatypeSize * (itsChunking.map wrap64).prod) % 2 ^ 64 := by
  unfold chunkSize
  induction itsChunking generalizing datatypeSize with
  | nil => simp [wrap64]
  | cons c cs ih =>
    simp only [List.foldl_cons, List.map_cons, List.prod_cons]
    have h := ih (wrap64 datatypeSize * wrap64 c)
    simp only [wrap64] at h ⊢
    rw [h]
    rw [← Nat.mul_assoc]
    conv_rhs => rw [Nat.mul_mod]
    conv_lhs => rw [Nat.mul_mod]
    congr 2
    rw [Nat.mul_mod, Nat.mod_mod, Nat.mod_mod, ← Nat.mul_mod]
    conv_rhs => rw [Nat.mul_mod, Nat.mod_mod, ← Nat.mul_mod]

theorem map_wrap64_of_lt (c : List Nat) (h : ∀ x ∈ c, x < 2 ^ 64) : c.map wrap64 = c := by
  induction c with
  | nil => rfl
  | cons x xs ih =>
    simp only [List.map_cons]
    rw [ih (fun y hy => h y (List.mem_cons_of_mem _ hy))]
    have hx := h x (List.mem_cons_self _ _)
    simp only [wrap64, Nat.mod_eq_of_lt hx]

theorem chunkSize_of_lt (datatypeSize : Nat) (itsChunking : List Nat)
    (h : ∀ x ∈ itsChunking, x < 2 ^ 64) :
    chunkSize datatypeSize itsChunking = (datatypeSize * itsChunking.prod) % 2 ^ 64 := by
  rw [chunkSize_eq, map_wrap64_of_lt _ h]

theorem halveChunking_length (c : List Nat) : (halveChunking c).length = c.length := by
  simp [halveChunking]

theorem halveChunking_lt (c : List Nat) (k : Nat) (h : ∀ x ∈ c, x < 2 ^ (k + 1)) :
    ∀ x ∈ halveChunking c, x < 2 ^ k := by
  intro x hx
  simp only [halveChunking, List.mem_map] at hx
  obtain ⟨y, hy, rfl⟩ := hx
  have := h y hy
  rw [Nat.pow_succ] at this
  omega

theorem halveChunking_prod_le (c : List Nat) : (halveChunking c).prod ≤ c.prod := by
  induction c with
  | nil => simp [halveChunking]
  | cons x xs ih =>
    simp only [halveChunking, List.map_cons, List.prod_cons] at ih ⊢
    exact Nat.mul_le_mul (Nat.div_le_self x 2) ih

theorem chunkSize_zero_axes (datatypeSize : Nat) (c : List Nat) (hne : c ≠ [])
    (h : ∀ x ∈ c, x < 2 ^ 0) : chunkSize datatypeSize c = 0 := by
  rw [chunkSize_eq]
  cases c with
  | nil => exact absurd rfl hne
  | cons x xs =>
    have hx : x = 0 := by
      have := h x (List.mem_cons_self _ _)
      omega
    subst hx
    simp [wrap64]

/-- With as many calls as the axes have bits, plus one, the recursion of
`adjustChunksize` ends on every chunk shape of rank at least one. -/
theorem adjustChunksizeFuel_nonempty (k datatypeSize : Nat) (c : List Nat) (hne : c ≠ [])
    (h : ∀ x ∈ c, x < 2 ^ k) :
    ∃ r, adjustChunksizeFuel (k + 1) datatypeSize c = some r ∧ r.length = c.length := by
  induction k generalizing c with
  | zero =>
    refine ⟨c, ?_, rfl⟩
    simp [adjustChunksizeFuel, chunkSize_zero_axes datatypeSize c hne h]
  | succ k ih =>
    by_cases hbig : chunkSize datatypeSize c > 0xffffffff
    · have hne2 : halveChunking c ≠ [] := by
        intro h0
        apply hne
        have := halveChunking_length c
        rw [h0] at this
        exact List.length_eq_zero.mp this.symm
      obtain ⟨r, hr, hlen⟩ := ih (halveChunking c) hne2 (halveChunking_lt c k h)
      refine ⟨r, ?_, by rw [hlen, halveChunking_length]⟩
      rw [adjustChunksizeFuel, if_pos hbig]
      exact hr
    · exact ⟨c, by rw [adjustChunksizeFuel, if_neg hbig], rfl⟩

/-- The recursion of `adjustChunksize` ends within `adjustDepth` calls for
every chunk shape with 64-bit axes, provided the rank is at least one or the
element size is below `2^32`. -/
theorem adjustChunksizeFuel_enough (datatypeSize : Nat) (c : List Nat)
    (h : ∀ x ∈ c, x < 2 ^ 64) (hrank : c ≠ [] ∨ wrap64 datatypeSize ≤ 0xffffffff) :
    ∃ r, adjustChunksizeFuel adjustDepth datatypeSize c = some r ∧ r.length = c.length := by
  by_cases hne : c = []
  · subst hne
    have hE : wrap64 datatypeSize ≤ 0xffffffff := by
      rcases hrank with h1 | h1
      · exact absurd rfl h1
      · exact h1
    refine ⟨[], ?_, rfl⟩
    have : ¬ chunkSize datatypeSize [] > 0xffffffff := by
      simp only [chunkSize, List.foldl_nil]
      omega
    simp only [adjustDepth, adjustChunksizeFuel, if_neg this]
  · exact adjustChunksizeFuel_nonempty 64 datatypeSize c hne h

/-- Whatever `adjustChunksize` leaves has a 64-bit byte size of at most
`0xffffffff`. -/
theorem adjustChunksizeFuel_chunkSize (fuel datatypeSize : Nat) (c r : List Nat)
    (h : adjustChunksizeFuel fuel datatypeSize c = some r) :
    chunkSize datatypeSize r ≤ 0xffffffff := by
  induction fuel generalizing c with
  | zero => simp [adjustChunksizeFuel] at h
  | succ fuel ih =>
    rw [adjustChunksizeFuel] at h
    split at h
    · exact ih _ h
    · simp only [Option.some.injEq] at h
      subst h
      omega

/-- The exact product of the axes never grows under `adjustChunksize`. -/
theorem adjustChunksizeFuel_prod_le (fuel datatypeSize : Nat) (c r : List Nat)
    (h : adjustChunksizeFuel fuel datatypeSize c = some r) :
    r.prod ≤ c.prod ∧ (∀ k, (∀ x ∈ c, x < 2 ^ k) → ∀ x ∈ r, x < 2 ^ k) := by
  induction fuel generalizing c with
  | zero => simp [adjustChunksizeFuel] at h
  | succ fuel ih =>
    rw [adjustChunksizeFuel] at h
    split at h
    · obtain ⟨h1, h2⟩ := ih _ h
      refine ⟨le_trans h1 (halveChunking_prod_le c), ?_⟩
      intro k hk
      apply h2
      intro x hx
      simp only [halveChunking, List.mem_map] at hx
      obtain ⟨y, hy, rfl⟩ := hx
      exact lt_of_le_of_lt (Nat.div_le_self y 2) (hk y hy)
    · simp only [Option.some.injEq] at h
      subst h
      exact ⟨le_refl _, fun _ hk => hk⟩

/-- Where the byte size of the chunk handed in fits 64 bits, the chunk shape
left by `adjustChunksize` has an exact byte size below `2^32`. -/
theorem adjustChunksizeFuel_exact_bound (fuel datatypeSize : Nat) (c r : List Nat)
    (hc : ∀ x ∈ c, x < 2 ^ 64) (hfit : datatypeSize * c.prod < 2 ^ 64)
    (h : adjustChunksizeFuel fuel datatypeSize c = some r) :
    datatypeSize * r.prod < 2 ^ 32 := by
  have h1 := adjustChunksizeFuel_chunkSize fuel datatypeSize c r h
  obtain ⟨h2, h3⟩ := adjustChunksizeFuel_prod_le fuel datatypeSize c r h
  rw [chunkSize_of_lt _ _ (h3 64 hc)] at h1
  have h4 : datatypeSize * r.prod < 2 ^ 64 :=
    lt_of_le_of_lt (Nat.mul_le_mul_left _ h2) hfit
  rw [Nat.mod_eq_of_lt h4] at h1
  omega

/-! ### Chunk shape adjustment (C5, C6, C7) -/

/-- C5 (the code at the failing input): with one-byte elements and the chunk
shape `[2^32, 2^32]` the 64-bit byte size wraps to zero, so `setShape` stores
the chunk shape unchanged although its exact byte size is `2^64`, not below
`2^32`. -/
theorem setShape_chunk_bytes_wrap_at_64_bits :
    (HDF5Dataset.init.setShape (sampleEnv 1) [4294967296, 4294967296]
        [4294967296, 4294967296]).map (fun r => r.2.itsChunking)
      = some [4294967296, 4294967296]
    ∧ chunkSize 1 [4294967296, 4294967296] = 0
    ∧ ¬ (1 * [4294967296, 4294967296].prod < 2 ^ 32) := by
  refine ⟨?_, ?_, ?_⟩
  · decide
  · decide
  · decide

/-- C6 (counterexample): the chunk shape `[65536, 131072]` of one-byte elements
needs exactly one adjustment round, and that round changes both axes. -/
theorem adjustChunksize_changes_both_axes :
    2 ≤ [65536, 131072].length
    ∧ chunkSize 1 [65536, 131072] > 0xffffffff
    ∧ chunkSize 1 (halveChunking [65536, 131072]) ≤ 0xffffffff
    ∧ adjustChunksizeFuel adjustDepth 1 [65536, 131072] = some [32768, 65536]
    ∧ axesChanged [65536, 131072] [32768, 65536] = 2 := by
  refine ⟨?_, ?_, ?_, ?_, ?_⟩ <;> decide

/-- C6 (amended): a chunk shape of rank at least two that needs exactly one
adjustment round comes out with every axis halved (integer division by two);
no axis keeps its length unless it was zero. -/
theorem adjustChunksize_one_round_halves_every_axis (datatypeSize : Nat) (c : List Nat)
    (_hrank : 2 ≤ c.length)
    (hbig : chunkSize datatypeSize c > 0xffffffff)
    (hok : chunkSize datatypeSize (halveChunking c) ≤ 0xffffffff) :
    adjustChunksizeFuel adjustDepth datatypeSize c = some (c.map (fun x => x / 2)) := by
  have hok2 : ¬ chunkSize datatypeSize (halveChunking c) > 0xffffffff := by omega
  show adjustChunksizeFuel (63 + 1 + 1) datatypeSize c = _
  rw [adjustChunksizeFuel, if_pos hbig, adjustChunksizeFuel, if_neg hok2]
  rfl

/-- C6 (amended), at the chunk shape `[65536, 131072]` of one-byte elements. -/
theorem adjustChunksize_one_round_halves_every_axis_witness :
    adjustChunksizeFuel adjustDepth 1 [65536, 131072]
      = some ([65536, 131072].map (fun x => x / 2)) :=
  adjustChunksize_one_round_halves_every_axis 1 [65536, 131072]
    (by decide) (by decide) (by decide)

/-- C7 (the code at the failing input): for two-byte elements and the chunk
shape `[1, 2^31]`, whose axes are all at least one and whose byte size is
`2^32`, `adjustChunksize` leaves the chunk shape `[0, 2^30]`: the first axis is
reduced to zero. -/
theorem adjustChunksize_reduces_axis_to_zero :
    (∀ x ∈ [1, 2147483648], 1 ≤ x)
    ∧ 2 ^ 32 ≤ 2 * [1, 2147483648].prod
    ∧ (HDF5Dataset.adjustChunksize (sampleEnv 2)
        { HDF5Dataset.init with itsChunking := [1, 2147483648] }).map
          (fun r => r.2.itsChunking) = some [0, 1073741824]
    ∧ ¬ (∀ x ∈ [0, 1073741824], 1 ≤ x) := by
  refine ⟨?_, ?_, ?_, ?_⟩ <;> decide

/-! ### Creation of a dataset (C8) -/

theorem range_map_getD (l : List Nat) :
    (List.range l.length).map (fun n => l.getD n 0) = l := by
  apply List.ext_getElem
  · simp
  · intro n h1 h2
    simp [List.getD_eq_getElem?_getD, List.getElem?_eq_getElem h2]

theorem range_map_const (n : Nat) (x : Nat) :
    (List.range n).map (fun _ => x) = List.replicate n x := by
  apply List.ext_getElem
  · simp
  · intro k h1 h2
    simp

/-- C8 (counterexample): the overload of `open` without a chunk argument, for
the shape `[10]`, asks for a dataspace of unlimited maximum extent and sets
the chunk shape `[10]` on the creation property list. -/
theorem open_without_chunksize_is_chunked_and_unlimited :
    (HDF5Dataset.init.openNoChunk (sampleEnv 4) 1 "data" [10] 7).map (fun r => r.2.2)
      = some [H5Call.H5Tcopy 7,
          H5Call.H5Screate_simple 1 [10] [H5S_UNLIMITED],
          H5Call.H5Pcreate,
          H5Call.H5Pset_chunk 12 1 [10],
          H5Call.H5Dcreate2 1 "data" 7 11 12,
          H5Call.H5Pclose 12] := by
  decide

/-- The chunk shape that `setShape` hands to `adjustChunksize`. -/
theorem setShape_eq (env : H5Env) (ds : HDF5Dataset) (shape chunksize r : List Nat)
    (hr : adjustChunksizeFuel adjustDepth (env.H5Tget_size ds.itsDatatype)
      (if chunksize = [] ∨ chunksize.length ≠ shape.length then shape else chunksize) = some r) :
    ds.setShape env shape chunksize
      = some (true, { ds with itsShape := shape, itsChunking := r }) := by
  by_cases hc : chunksize = [] ∨ chunksize.length ≠ shape.length
  · have hcond : (chunksize.isEmpty || chunksize.length != shape.length) = true := by
      rcases hc with h | h
      · simp [h]
      · simp [h]
    rw [if_pos hc] at hr
    simp only [HDF5Dataset.setShape, HDF5Dataset.adjustChunksize, hcond, if_true, hr]
  · have hc1 : chunksize ≠ [] := fun h => hc (Or.inl h)
    have hc2 : chunksize.length = shape.length := by
      by_contra h
      exact hc (Or.inr h)
    have hcond : (chunksize.isEmpty || chunksize.length != shape.length) = false := by
      simp [hc1, hc2]
    rw [if_neg hc] at hr
    simp only [HDF5Dataset.setShape, HDF5Dataset.adjustChunksize, hcond, Bool.false_eq_true,
      if_false, hr]

/-- C8 (amended): for every `chunksize`, empty or not, `open` asks for a
dataspace whose current extent is `shape` and whose maximum extent is
unlimited on every axis, and sets a chunk shape on the creation property list;
with a `chunksize` that is empty (as passed by the overload without a chunk
argument) or of another rank than `shape`, that chunk shape is the adjusted
`shape`, otherwise the adjusted `chunksize`. -/
theorem open_always_chunked_and_unlimited (env : H5Env) (ds : HDF5Dataset)
    (location : Int) (name : String) (shape chunksize : List Nat) (datatype : Int)
    (hshape : ∀ x ∈ shape, x < 2 ^ 64) (hchunk : ∀ x ∈ chunksize, x < 2 ^ 64)
    (hrank : shape ≠ [] ∨ wrap64 (env.H5Tget_size (env.H5Tcopy datatype)) ≤ 0xffffffff) :
    ∃ result chunkdims,
      ds.open env location name shape chunksize datatype = some result
      ∧ H5Call.H5Screate_simple shape.length shape
          (List.replicate shape.length H5S_UNLIMITED) ∈ result.2.2
      ∧ H5Call.H5Pset_chunk env.H5Pcreate shape.length chunkdims ∈ result.2.2
      ∧ adjustChunksizeFuel adjustDepth (env.H5Tget_size (env.H5Tcopy datatype))
          (if chunksize = [] ∨ chunksize.length ≠ shape.length then shape else chunksize)
          = some chunkdims := by
  have hc0 : ∀ x ∈ (if chunksize = [] ∨ chunksize.length ≠ shape.length then shape
      else chunksize), x < 2 ^ 64 := by
    split
    · exact hshape
    · exact hchunk
  have hlen0 : (if chunksize = [] ∨ chunksize.length ≠ shape.length then shape
      else chunksize).length = shape.length := by
    split
    · rfl
    · rename_i h
      by_contra h2
      exact h (Or.inr h2)
  have hrank0 : (if chunksize = [] ∨ chunksize.length ≠ shape.length then shape
      else chunksize) ≠ [] ∨ wrap64 (env.H5Tget_size (env.H5Tcopy datatype)) ≤ 0xffffffff := by
    rcases hrank with h | h
    · left
      intro h0
      apply h
      have := congrArg List.length h0
      rw [hlen0] at this
      exact List.length_eq_zero.mp this
    · exact Or.inr h
  obtain ⟨r, hr, hlen⟩ := adjustChunksizeFuel_enough _ _ hc0 hrank0
  have hrl : r.length = shape.length := by rw [hlen, hlen0]
  have hset := setShape_eq env { ds with itsName := name, itsDatatype := env.H5Tcopy datatype }
    shape chunksize r hr
  unfold HDF5Dataset.open
  simp only [hset]
  have hdims : (List.range shape.length).map (fun n => shape.getD n 0) = shape :=
    range_map_getD shape
  have hchunks : (List.range shape.length).map (fun n => r.getD n 0) = r := by
    rw [← hrl]
    exact range_map_getD r
  rw [hdims, hchunks, range_map_const]
  split
  · exact ⟨_, r, rfl, by simp, by simp, hr⟩
  · exact ⟨_, r, rfl, by simp, by simp, hr⟩

/-- C8 (amended), at the shape `[10]` with an empty `chunksize`, elements of 4
bytes. -/
theorem open_always_chunked_and_unlimited_witness :
    ∃ result chunkdims,
      HDF5Dataset.init.open (sampleEnv 4) 1 "data" [10] [] 7 = some result
      ∧ H5Call.H5Screate_simple [10].length [10]
          (List.replicate [10].length H5S_UNLIMITED) ∈ result.2.2
      ∧ H5Call.H5Pset_chunk (sampleEnv 4).H5Pcreate [10].length chunkdims ∈ result.2.2
      ∧ adjustChunksizeFuel adjustDepth ((sampleEnv 4).H5Tget_size ((sampleEnv 4).H5Tcopy 7))
          (if ([] : List Nat) = [] ∨ ([] : List Nat).length ≠ [10].length then [10] else [])
          = some chunkdims :=
  open_always_chunked_and_unlimited (sampleEnv 4) HDF5Dataset.init 1 "data" [10] [] 7
    (by decide) (by simp) (Or.inl (by simp))

/-! ### Hyperslab selection (C9, C10) -/

/-- On a valid dataset `setHyperslab` appends the slab to the tracked list,
whatever the selection operator. -/
theorem setHyperslab_appends (env : H5Env) (ds : HDF5Dataset) (slab : HDF5Hyperslab)
    (resizeDataset : Bool)
    (hvalid : (env.H5Iis_valid ds.location_p && env.H5Iis_valid ds.itsDataspace) = true) :
    (ds.setHyperslab env slab resizeDataset).2.itsHyperslab = ds.itsHyperslab ++ [slab] := by
  unfold HDF5Dataset.setHyperslab
  simp only [hvalid, if_true]
  split <;> rfl

/-- On an invalid dataset `setHyperslab` changes nothing and returns `true`. -/
theorem setHyperslab_invalid (env : H5Env) (ds : HDF5Dataset) (slab : HDF5Hyperslab)
    (resizeDataset : Bool)
    (hinvalid : (env.H5Iis_valid ds.location_p && env.H5Iis_valid ds.itsDataspace) = false) :
    ds.setHyperslab env slab resizeDataset = (true, ds) := by
  unfold HDF5Dataset.setHyperslab
  simp [hinvalid]

/-- C9 (the code at the failing input): on a valid dataset tracking one slab,
`setHyperslab` with operator `H5S_SELECT_SET` leaves two tracked slabs, the old
one and the new one, where the claim asks for the new one alone. -/
theorem setHyperslab_select_set_keeps_old_slabs :
    ((HDF5Dataset.setHyperslab (sampleEnv 4)
        { HDF5Dataset.init with
          location_p := 13, itsDataspace := 11, itsShape := [100],
          itsHyperslab := [⟨[0], [1], [10], [1], H5S_seloper_t.H5S_SELECT_SET⟩] }
        ⟨[50], [1], [20], [1], H5S_seloper_t.H5S_SELECT_SET⟩ false).2.itsHyperslab
      = [⟨[0], [1], [10], [1], H5S_seloper_t.H5S_SELECT_SET⟩,
         ⟨[50], [1], [20], [1], H5S_seloper_t.H5S_SELECT_SET⟩])
    ∧ (sampleEnv 4).H5Iis_valid 13 = true ∧ (sampleEnv 4).H5Iis_valid 11 = true := by
  refine ⟨?_, ?_, ?_⟩ <;> decide

/-- C10 (the code at the failing input): on a dataset that was never opened
(`location_p = 0`, `itsDataspace = 0`, both invalid) `setHyperslab` takes the
branch of the message "invalid HDF5 object" and returns `true`. -/
theorem setHyperslab_invalid_object_returns_true :
    (sampleEnv 4).H5Iis_valid HDF5Dataset.init.location_p = false
    ∧ (sampleEnv 4).H5Iis_valid HDF5Dataset.init.itsDataspace = false
    ∧ (HDF5Dataset.init.setHyperslab (sampleEnv 4)
        ⟨[0], [1], [10], [1], H5S_seloper_t.H5S_SELECT_SET⟩ true).1 = true := by
  refine ⟨?_, ?_, ?_⟩ <;> decide

/-! ### The model library -/

section model

variable {α : Type}

theorem predefined_datatype (cv : H5Type → H5Type → α → Option α) (T : HostType) :
    H5Model.predefined (T.datatype (H5Model.lib cv)) = true := by
  cases T <;> rfl

theorem hsize_natCast (n : Nat) (h : n < 2 ^ 64) : hsize (n : Int) = n := by
  unfold hsize
  have : ((n : Int) % 2 ^ 64) = n := by
    apply Int.emod_eq_of_lt
    · omega
    · have : (n : Int) < ((2 ^ 64 : Nat) : Int) := by exact_mod_cast h
      simpa using this
  rw [this]
  simp

theorem toInt32_natCast (n : Nat) (h : n < 2 ^ 31) : toInt32 n = n := by
  unfold toInt32
  omega

theorem fresh_not_neg (k : Int) (h : 0 ≤ k) : ¬ (H5Model.firstId + k < 0) := by
  unfold H5Model.firstId
  omega

theorem not_predefined_fresh (k : Int) (h : 0 ≤ k) :
    H5Model.builtin (H5Model.firstId + k) = none := by
  simp only [H5Model.builtin, H5Model.predefined, H5Model.firstId, H5Model.C_S1]
  have h1 : ¬ ((16777216 : Int) + k ≤ 207) := by omega
  have h2 : ¬ ((16777216 : Int) + k = 208) := by omega
  simp [h1, h2]

theorem builtin_predefined (id : Int) (h : H5Model.predefined id = true) :
    H5Model.builtin id = some (H5Type.native id) := by
  simp [H5Model.builtin, h]

theorem h5set_attribute_creates (cv : H5Type → H5Type → α → Option α) (s : H5State α)
    (datatype location_id : Int) (name : String) (value : List α)
    (hloc : s.locations location_id = true)
    (habs : s.attributes location_id name = none)
    (hty : H5Model.predefined datatype = true)
    (hlen : value.length < 2 ^ 64) :
    (h5set_attribute (H5Model.lib cv) s datatype location_id name value value.length).1 = true
    ∧ Stored (h5set_attribute (H5Model.lib cv) s datatype location_id name value value.length).2
        location_id name (H5Type.native datatype) value := by
  have h1 := fresh_not_neg (s.next : Int) (by omega)
  have h2 := fresh_not_neg ((s.next : Int) + 1) (by omega)
  have hs := hsize_natCast value.length hlen
  simp [h5set_attribute, h5set_attribute_write, closeIfValid, H5Model.lib,
      H5Model.H5Iis_valid, H5Model.H5Aexists, H5Model.H5Screate_simple, H5Model.H5Acreate,
      H5Model.H5Awrite, H5Model.H5Aclose, H5Model.H5Sclose, H5Model.alloc, H5Model.store,
      H5Model.release, H5Model.freshId, H5Model.typeOf, H5Model.attributeOf, H5Model.transfer,
      hloc, habs, builtin_predefined _ hty, hs, h1, h2, Stored]

theorem H5Aclose_file (s : H5State α) (id : Int) :
    (H5Model.H5Aclose s id).2.attributes = s.attributes
    ∧ (H5Model.H5Aclose s id).2.locations = s.locations := by
  unfold H5Model.H5Aclose
  split <;> exact ⟨rfl, rfl⟩

theorem H5Sclose_file (s : H5State α) (id : Int) :
    (H5Model.H5Sclose s id).2.attributes = s.attributes
    ∧ (H5Model.H5Sclose s id).2.locations = s.locations := by
  unfold H5Model.H5Sclose
  split <;> exact ⟨rfl, rfl⟩

/-- Closing identifiers leaves the file as it is. -/
theorem closeIfValid_file (cv : H5Type → H5Type → α → Option α) (s : H5State α) (id : Int) :
    ((closeIfValid (H5Model.lib cv) (H5Model.lib cv).H5Aclose s id).attributes = s.attributes
      ∧ (closeIfValid (H5Model.lib cv) (H5Model.lib cv).H5Aclose s id).locations = s.locations)
    ∧ ((closeIfValid (H5Model.lib cv) (H5Model.lib cv).H5Sclose s id).attributes = s.attributes
      ∧ (closeIfValid (H5Model.lib cv) (H5Model.lib cv).H5Sclose s id).locations
          = s.locations) := by
  unfold closeIfValid
  refine ⟨?_, ?_⟩
  · split
    · exact H5Aclose_file s id
    · exact ⟨rfl, rfl⟩
  · split
    · exact H5Sclose_file s id
    · exact ⟨rfl, rfl⟩

/-- The end of `h5set_attribute` on an open attribute whose dataspace has the
extent of the buffer and whose datatype is the one written from. -/
theorem h5set_attribute_write_stores (cv : H5Type → H5Type → α → Option α) (s : H5State α)
    (datatype attribute_id dataspace_id location_id : Int) (name : String)
    (value old : List α)
    (hloc : s.locations location_id = true)
    (hattr : H5Model.attributeOf s attribute_id = some (location_id, name,
      { datatype := H5Type.native datatype, dims := [value.length], data := old }))
    (hty : H5Model.predefined datatype = true) :
    (h5set_attribute_write (H5Model.lib cv) s datatype attribute_id dataspace_id value).1 = true
    ∧ Stored (h5set_attribute_write (H5Model.lib cv) s datatype attribute_id dataspace_id
        value).2 location_id name (H5Type.native datatype) value := by
  have hw : (H5Model.lib cv).H5Awrite s attribute_id datatype value
      = (0, H5Model.store s location_id name
          { datatype := H5Type.native datatype, dims := [value.length], data := value }) := by
    simp [H5Model.lib, H5Model.H5Awrite, hattr, H5Model.typeOf, builtin_predefined _ hty,
      H5Model.transfer]
  unfold h5set_attribute_write
  simp only [hw]
  refine ⟨by simp, ?_⟩
  have h1 := (closeIfValid_file cv (closeIfValid (H5Model.lib cv) (H5Model.lib cv).H5Aclose
    (H5Model.store s location_id name
      { datatype := H5Type.native datatype, dims := [value.length], data := value }) attribute_id)
    dataspace_id).2
  have h2 := (closeIfValid_file cv (H5Model.store s location_id name
      { datatype := H5Type.native datatype, dims := [value.length], data := value }) attribute_id).1
  simp only [Stored, show ¬ ((0 : Int) < 0) by omega, if_false]
  rw [h1.1, h1.2, h2.1, h2.2]
  simp [H5Model.store, hloc]

theorem h5set_attribute_updates (cv : H5Type → H5Type → α → Option α) (s : H5State α)
    (datatype location_id : Int) (name : String) (value old : List α)
    (hloc : s.locations location_id = true)
    (hold : s.attributes location_id name
      = some { datatype := H5Type.native datatype, dims := [value.length], data := old })
    (hty : H5Model.predefined datatype = true) :
    (h5set_attribute (H5Model.lib cv) s datatype location_id name value value.length).1 = true
    ∧ Stored (h5set_attribute (H5Model.lib cv) s datatype location_id name value value.length).2
        location_id name (H5Type.native datatype) value := by
  have hv : (H5Model.lib cv).H5Iis_valid s location_id = true := by
    simp [H5Model.lib, H5Model.H5Iis_valid, hloc]
  have he : (H5Model.lib cv).H5Aexists s location_id name = 1 := by
    simp [H5Model.lib, H5Model.H5Aexists, hloc, hold]
  have ho : (H5Model.lib cv).H5Aopen s location_id name
      = H5Model.alloc s (H5Handle.attribute location_id name) := by
    simp [H5Model.lib, H5Model.H5Aopen, hloc, hold]
  unfold h5set_attribute
  simp only [hv, he, ho, Bool.not_true, Bool.false_eq_true, if_false, ne_eq, one_ne_zero,
    not_false_eq_true, if_true]
  apply h5set_attribute_write_stores cv _ datatype _ 0 location_id name value old
  · exact hloc
  · simp [H5Model.attributeOf, H5Model.alloc, hold]
  · exact hty
theorem fresh_ne_succ (k : Int) : ¬ (H5Model.firstId + k = H5Model.firstId + (k + 1)) := by
  omega

theorem fresh_ne_succ2 (k : Int) : ¬ (H5Model.firstId + k = H5Model.firstId + (k + 1 + 1)) := by
  omega

/-- Reading a stored vector attribute by name. -/
theorem h5get_attribute_vector_reads (cv : H5Type → H5Type → α → Option α) (s : H5State α)
    (location_id : Int) (name : String) (t : H5Type) (v out : List α)
    (h : Stored s location_id name t v) :
    (h5get_attribute_vector_name (H5Model.lib cv) h5get_attribute_vector s location_id name
      out).1 = true
    ∧ (h5get_attribute_vector_name (H5Model.lib cv) h5get_attribute_vector s location_id name
      out).2.1 = v := by
  obtain ⟨hloc, hattr⟩ := h
  have p1 := not_predefined_fresh (s.next : Int) (by omega)
  have p2 := not_predefined_fresh ((s.next : Int) + 1) (by omega)
  have p3 := not_predefined_fresh ((s.next : Int) + 1 + 1) (by omega)
  have n1 := fresh_ne_succ (s.next : Int)
  have n2 := fresh_ne_succ2 (s.next : Int)
  simp [h5get_attribute_vector_name, h5get_attribute_vector, closeIfValid, H5Model.lib,
      H5Model.H5Iis_valid, H5Model.H5Aexists, H5Model.H5Aopen, H5Model.H5Aget_type,
      H5Model.H5Tget_native_type, H5Model.h5get_dataspace_shape, H5Model.H5Aread,
      H5Model.alloc, H5Model.freshId, H5Model.typeOf, H5Model.attributeOf, H5Model.transfer,
      hloc, hattr, p1, p2, p3, n1, n2]
theorem fresh_pos (k : Int) (h : 0 ≤ k) : H5Model.firstId + k > 0 := by
  unfold H5Model.firstId
  omega

theorem fresh_ne_class (k : Int) (h : 0 ≤ k) :
    ¬ (H5Model.firstId + k = H5T_FLOAT) ∧ ¬ (H5Model.firstId + k = H5T_INTEGER) := by
  unfold H5Model.firstId H5T_FLOAT H5T_INTEGER
  omega

/-- Reading a stored one-element attribute by name into a single variable. -/
theorem h5get_attribute_reads (cv : H5Type → H5Type → α → Option α) (s : H5State α)
    (location_id : Int) (name : String) (t : H5Type) (x out : α)
    (h : Stored s location_id name t [x]) :
    (h5get_attribute_name (H5Model.lib cv) h5get_attribute s location_id name out).1 = true
    ∧ (h5get_attribute_name (H5Model.lib cv) h5get_attribute s location_id name out).2.1 = x := by
  obtain ⟨hloc, hattr⟩ := h
  have p1 := not_predefined_fresh (s.next : Int) (by omega)
  have p2 := not_predefined_fresh ((s.next : Int) + 1) (by omega)
  have n1 := fresh_ne_succ (s.next : Int)
  have q1 := fresh_pos (s.next : Int) (by omega)
  have q2 := fresh_pos ((s.next : Int) + 1) (by omega)
  have c2 := fresh_ne_class ((s.next : Int) + 1) (by omega)
  simp [h5get_attribute_name, h5get_attribute, closeIfValid, H5Model.lib,
      H5Model.H5Iis_valid, H5Model.H5Aexists, H5Model.H5Aopen, H5Model.H5Aget_type,
      H5Model.H5Aread, H5Model.H5Eclear1,
      H5Model.alloc, H5Model.freshId, H5Model.typeOf, H5Model.attributeOf, H5Model.transfer,
      hloc, hattr, p1, p2, n1, q1, q2, c2.1, c2.2]

/-- Reading a stored vector of `int` by name into a vector of `bool`. -/
theorem h5get_attribute_vector_bool_reads (cv : H5Type → H5Type → Int → Option Int)
    (s : H5State Int) (location_id : Int) (name : String) (t : H5Type) (v : List Int)
    (out : List Bool) (h : Stored s location_id name t v) :
    (h5get_attribute_vector_name (H5Model.lib cv) h5get_attribute_vector_bool s location_id
      name out).1 = true
    ∧ (h5get_attribute_vector_name (H5Model.lib cv) h5get_attribute_vector_bool s location_id
      name out).2.1 = v.map (fun i => decide (i ≠ 0)) := by
  obtain ⟨hloc, hattr⟩ := h
  have p1 := not_predefined_fresh (s.next : Int) (by omega)
  have p2 := not_predefined_fresh ((s.next : Int) + 1) (by omega)
  have p3 := not_predefined_fresh ((s.next : Int) + 1 + 1) (by omega)
  have n1 := fresh_ne_succ (s.next : Int)
  have n2 := fresh_ne_succ2 (s.next : Int)
  simp [h5get_attribute_vector_name, h5get_attribute_vector_bool, closeIfValid, H5Model.lib,
      H5Model.H5Iis_valid, H5Model.H5Aexists, H5Model.H5Aopen, H5Model.H5Aget_type,
      H5Model.H5Tget_native_type, H5Model.h5get_dataspace_shape, H5Model.H5Aread,
      H5Model.alloc, H5Model.freshId, H5Model.typeOf, H5Model.attributeOf, H5Model.transfer,
      hloc, hattr, p1, p2, p3, n1, n2]
theorem cstring_of_no_nul (x : List Char) (h : ∀ c ∈ x, c ≠ Char.ofNat 0) : cstring x = x := by
  unfold cstring
  rw [List.takeWhile_eq_self_iff]
  intro c hc
  simpa using h c hc

theorem strcpy_of_no_nul (cap : Nat) (x : List Char) (h : ∀ c ∈ x, c ≠ Char.ofNat 0)
    (hfit : x.length + 1 ≤ cap) : strcpy cap x = some x := by
  have hx : x.takeWhile (fun c => c != Char.ofNat 0) = x := cstring_of_no_nul x h
  simp only [strcpy, hx, hfit, if_true]

/-- The end of the specialisation of `h5set_attribute` for `std::string` on an
open attribute of variable-length strings whose dataspace has the extent of
the buffer. -/
theorem h5set_attribute_string_write_stores (cv : H5Type → H5Type → List Char → Option (List Char))
    (s : H5State (List Char)) (type attribute_id dataspace_id location_id : Int)
    (name : String) (value old : List (List Char))
    (hloc : s.locations location_id = true)
    (hh : s.handles attribute_id = some (H5Handle.attribute location_id name))
    (hattr : s.attributes location_id name
      = some { datatype := H5Type.string none, dims := [value.length], data := old })
    (hty : H5Model.typeOf s type = some (H5Type.string none)) :
    (h5set_attribute_string_write (H5Model.lib cv) s type attribute_id dataspace_id value).1
      = true
    ∧ Stored (h5set_attribute_string_write (H5Model.lib cv) s type attribute_id dataspace_id
        value).2 location_id name (H5Type.string none) value := by
  have hw : (H5Model.lib cv).H5Awrite s attribute_id type value
      = (0, H5Model.store s location_id name
          { datatype := H5Type.string none, dims := [value.length], data := value }) := by
    simp [H5Model.lib, H5Model.H5Awrite, H5Model.attributeOf, hh, hattr, hty, H5Model.transfer]
  have hc : (H5Model.lib cv).H5Aclose (H5Model.store s location_id name
        { datatype := H5Type.string none, dims := [value.length], data := value }) attribute_id
      = (0, H5Model.release (H5Model.store s location_id name
        { datatype := H5Type.string none, dims := [value.length], data := value })
          attribute_id) := by
    simp [H5Model.lib, H5Model.H5Aclose, H5Model.store, hh]
  unfold h5set_attribute_string_write
  simp only [hw, hc, show ¬ ((0 : Int) < 0) by omega, if_false]
  refine ⟨trivial, ?_⟩
  have h1 := (closeIfValid_file cv (closeIfValid (H5Model.lib cv) (H5Model.lib cv).H5Sclose
    (H5Model.release (H5Model.store s location_id name
      { datatype := H5Type.string none, dims := [value.length], data := value }) attribute_id)
    dataspace_id) attribute_id).1
  have h2 := (closeIfValid_file cv (H5Model.release (H5Model.store s location_id name
      { datatype := H5Type.string none, dims := [value.length], data := value }) attribute_id)
    dataspace_id).2
  simp only [Stored]
  rw [h1.1, h1.2, h2.1, h2.2]
  simp [H5Model.store, H5Model.release, hloc]

/-- The calls of the model library behind the fields of the interface. -/
theorem lib_fields (cv : H5Type → H5Type → α → Option α) :
    (H5Model.lib cv).H5Iis_valid = H5Model.H5Iis_valid
    ∧ (H5Model.lib cv).H5Aexists = H5Model.H5Aexists
    ∧ (H5Model.lib cv).H5Aopen = H5Model.H5Aopen
    ∧ (H5Model.lib cv).H5Aclose = H5Model.H5Aclose
    ∧ (H5Model.lib cv).H5Acreate = H5Model.H5Acreate
    ∧ (H5Model.lib cv).H5Awrite = H5Model.H5Awrite cv
    ∧ (H5Model.lib cv).H5Aread = H5Model.H5Aread cv
    ∧ (H5Model.lib cv).H5Screate_simple = H5Model.H5Screate_simple
    ∧ (H5Model.lib cv).H5Sclose = H5Model.H5Sclose
    ∧ (H5Model.lib cv).H5Tcopy = H5Model.H5Tcopy
    ∧ (H5Model.lib cv).H5Tset_size = H5Model.H5Tset_size
    ∧ (H5Model.lib cv).H5Tclose = H5Model.H5Tclose
    ∧ (H5Model.lib cv).H5Aget_type = H5Model.H5Aget_type
    ∧ (H5Model.lib cv).H5Tget_native_type = H5Model.H5Tget_native_type
    ∧ (H5Model.lib cv).H5Tget_class = H5Model.H5Tget_class
    ∧ (H5Model.lib cv).H5Tis_variable_str = H5Model.H5Tis_variable_str
    ∧ (H5Model.lib cv).H5Tget_size = H5Model.H5Tget_size
    ∧ (H5Model.lib cv).H5Eclear1 = H5Model.H5Eclear1
    ∧ (H5Model.lib cv).h5get_dataspace_shape = H5Model.h5get_dataspace_shape
    ∧ (H5Model.lib cv).H5T_C_S1 = H5Model.C_S1 :=
  ⟨rfl, rfl, rfl, rfl, rfl, rfl, rfl, rfl, rfl, rfl, rfl, rfl, rfl, rfl, rfl, rfl, rfl, rfl,
    rfl, rfl⟩

theorem closeIfValid_Aclose (cv : H5Type → H5Type → α → Option α) (s : H5State α) (id : Int) :
    (closeIfValid (H5Model.lib cv) H5Model.H5Aclose s id).attributes = s.attributes
    ∧ (closeIfValid (H5Model.lib cv) H5Model.H5Aclose s id).locations = s.locations :=
  (closeIfValid_file cv s id).1

theorem closeIfValid_Sclose (cv : H5Type → H5Type → α → Option α) (s : H5State α) (id : Int) :
    (closeIfValid (H5Model.lib cv) H5Model.H5Sclose s id).attributes = s.attributes
    ∧ (closeIfValid (H5Model.lib cv) H5Model.H5Sclose s id).locations = s.locations :=
  (closeIfValid_file cv s id).2

theorem mapM_strcpy (cap : Nat) (value : List (List Char))
    (h : ∀ x ∈ value, (∀ c ∈ x, c ≠ Char.ofNat 0) ∧ x.length + 1 ≤ cap) :
    value.mapM (strcpy cap) = some value := by
  induction value with
  | nil => rfl
  | cons x xs ih =>
    have hx := h x (List.mem_cons_self _ _)
    rw [List.mapM_cons, strcpy_of_no_nul cap x hx.1 hx.2,
      ih (fun y hy => h y (List.mem_cons_of_mem _ hy))]
    rfl

/-- Writing strings without NUL that fit the copy buffer, to a location that
has no attribute `name` yet. -/
theorem h5set_attribute_string_creates (cv : H5Type → H5Type → List Char → Option (List Char))
    (cap : Nat) (s : H5State (List Char)) (location_id : Int) (name : String)
    (value : List (List Char))
    (hloc : s.locations location_id = true)
    (habs : s.attributes location_id name = none)
    (hlen : value.length < 2 ^ 64)
    (hval : ∀ x ∈ value, (∀ c ∈ x, c ≠ Char.ofNat 0) ∧ x.length + 1 ≤ cap) :
    ∃ r, h5set_attribute_string (H5Model.lib cv) cap s H5T_STRING location_id name value
        value.length = some r
      ∧ r.1 = true ∧ Stored r.2 location_id name (H5Type.string none) value := by
  have hm : (value.take ((value.length : Int).toNat)).mapM (strcpy cap) = some value := by
    simp only [Int.toNat_ofNat, List.take_length]
    exact mapM_strcpy cap value hval
  have hs := hsize_natCast value.length hlen
  have h0 := fresh_not_neg (s.next : Int) (by omega)
  have h1 := fresh_not_neg ((s.next : Int) + 1) (by omega)
  have h2 := fresh_not_neg ((s.next : Int) + 1 + 1) (by omega)
  have p0 := not_predefined_fresh (s.next : Int) (by omega)
  have p1 := not_predefined_fresh ((s.next : Int) + 1) (by omega)
  have n1 := fresh_ne_succ (s.next : Int)
  have n2 := fresh_ne_succ2 (s.next : Int)
  have n3 := fresh_ne_succ ((s.next : Int) + 1)
  have b : H5Model.builtin H5Model.C_S1 = some (H5Type.string (some 1)) := by decide
  unfold h5set_attribute_string
  simp only [hm]
  simp [h5set_attribute_string_write, lib_fields, closeIfValid_Aclose, closeIfValid_Sclose,
    H5Model.H5Iis_valid, H5Model.H5Aexists, H5Model.H5Screate_simple, H5Model.H5Acreate,
    H5Model.H5Awrite, H5Model.H5Aclose, H5Model.H5Tcopy, H5Model.H5Tset_size,
    H5Model.alloc, H5Model.store, H5Model.release, H5Model.freshId, H5Model.typeOf,
    H5Model.attributeOf, H5Model.transfer, Stored,
    hloc, habs, hs, h0, h1, h2, p0, p1, n1, n2, n3, b]

/-- Writing strings without NUL that fit the copy buffer, over an attribute of
variable-length strings with the same number of elements. -/
theorem h5set_attribute_string_updates (cv : H5Type → H5Type → List Char → Option (List Char))
    (cap : Nat) (s : H5State (List Char)) (location_id : Int) (name : String)
    (value old : List (List Char))
    (hloc : s.locations location_id = true)
    (hold : s.attributes location_id name
      = some { datatype := H5Type.string none, dims := [value.length], data := old })
    (hval : ∀ x ∈ value, (∀ c ∈ x, c ≠ Char.ofNat 0) ∧ x.length + 1 ≤ cap) :
    ∃ r, h5set_attribute_string (H5Model.lib cv) cap s H5T_STRING location_id name value
        value.length = some r
      ∧ r.1 = true ∧ Stored r.2 location_id name (H5Type.string none) value := by
  have hm : (value.take ((value.length : Int).toNat)).mapM (strcpy cap) = some value := by
    simp only [Int.toNat_ofNat, List.take_length]
    exact mapM_strcpy cap value hval
  have h0 := fresh_not_neg (s.next : Int) (by omega)
  have h1 := fresh_not_neg ((s.next : Int) + 1) (by omega)
  have p0 := not_predefined_fresh (s.next : Int) (by omega)
  have p1 := not_predefined_fresh ((s.next : Int) + 1) (by omega)
  have n1 := fresh_ne_succ (s.next : Int)
  have b : H5Model.builtin H5Model.C_S1 = some (H5Type.string (some 1)) := by decide
  unfold h5set_attribute_string
  simp only [hm]
  simp [h5set_attribute_string_write, lib_fields, closeIfValid_Aclose, closeIfValid_Sclose,
    H5Model.H5Iis_valid, H5Model.H5Aexists, H5Model.H5Aopen,
    H5Model.H5Awrite, H5Model.H5Aclose, H5Model.H5Tcopy, H5Model.H5Tset_size,
    H5Model.alloc, H5Model.store, H5Model.release, H5Model.freshId, H5Model.typeOf,
    H5Model.attributeOf, H5Model.transfer, Stored,
    hloc, hold, h0, h1, p0, p1, n1, b]

/-- Reading a stored one-element attribute of variable-length strings by name
into a `std::string`. -/
theorem h5get_attribute_string_reads (cv : H5Type → H5Type → List Char → Option (List Char))
    (s : H5State (List Char)) (location_id : Int) (name : String) (x out : List Char)
    (hx : ∀ c ∈ x, c ≠ Char.ofNat 0)
    (h : Stored s location_id name (H5Type.string none) [x]) :
    (h5get_attribute_name (H5Model.lib cv) h5get_attribute_string s location_id name out).1
      = true
    ∧ (h5get_attribute_name (H5Model.lib cv) h5get_attribute_string s location_id name out).2.1
      = x := by
  obtain ⟨hloc, hattr⟩ := h
  have p1 := not_predefined_fresh (s.next : Int) (by omega)
  have p2 := not_predefined_fresh ((s.next : Int) + 1) (by omega)
  have p3 := not_predefined_fresh ((s.next : Int) + 1 + 1) (by omega)
  have n1 := fresh_ne_succ (s.next : Int)
  have n2 := fresh_ne_succ2 (s.next : Int)
  have q1 := fresh_pos (s.next : Int) (by omega)
  have q2 := fresh_pos ((s.next : Int) + 1) (by omega)
  simp [h5get_attribute_name, h5get_attribute_string, lib_fields,
      H5Model.H5Iis_valid, H5Model.H5Aexists, H5Model.H5Aopen, H5Model.H5Aget_type,
      H5Model.H5Tget_native_type, H5Model.H5Tget_class, H5Model.H5Tis_variable_str,
      H5Model.H5Aread, H5Model.typeClass, H5T_STRING,
      H5Model.alloc, H5Model.freshId, H5Model.typeOf, H5Model.attributeOf, H5Model.transfer,
      hloc, hattr, p1, p2, p3, n1, n2, q1, q2, cstring_of_no_nul x hx]

end model

/-! ### The attribute codec (C1, C2, C3, C4) -/

section claims

variable {α : Type}

theorem h5set_attribute_vector_eq {σ β : Type}
    (setPtr : σ → Int → String → List β → Int → Bool × σ) (s : σ) (location_id : Int)
    (name : String) (value : List β) (hlen : value.length < 2 ^ 31) :
    h5set_attribute_vector setPtr s location_id name value
      = some (setPtr s location_id name value value.length) := by
  have h1 := toInt32_natCast value.length hlen
  have h2 : ¬ ((value.length : Int) < 0) := by omega
  simp only [h5set_attribute_vector, h1, h2, if_false, Int.toNat_ofNat, List.take_length]

/-- Writing a vector of a numeric type to a writable location stores it. -/
theorem h5set_attribute_ptr_stores (cv : H5Type → H5Type → α → Option α) (s : H5State α)
    (T : HostType) (location : Int) (name : String) (v : List α)
    (hlen : v.length < 2 ^ 31)
    (hw : Writable s location name (H5Type.native (T.datatype (H5Model.lib cv))) v.length) :
    (h5set_attribute_ptr (H5Model.lib cv) T s location name v v.length).1 = true
    ∧ Stored (h5set_attribute_ptr (H5Model.lib cv) T s location name v v.length).2
        location name (H5Type.native (T.datatype (H5Model.lib cv))) v := by
  obtain ⟨hloc, hattr⟩ := hw
  unfold h5set_attribute_ptr
  rcases hattr with habs | ⟨old, hold⟩
  · exact h5set_attribute_creates cv s _ location name v hloc habs
      (predefined_datatype cv T) (by omega)
  · exact h5set_attribute_updates cv s _ location name v old hloc hold
      (predefined_datatype cv T)

/-- C1 (counterexample): on a group where "X" already exists with one element,
writing the vector `[1, 2]` and reading "X" back succeeds twice and yields
`[1]`. -/
theorem round_trip_fails_on_existing_attribute :
    setGetVector (H5Model.lib keepValue) HostType.int groupWithX 5 "X" [1, 2] []
      = some (true, true, [1])
    ∧ H5Model.H5Iis_valid groupWithX 5 = true := by
  refine ⟨?_, ?_⟩ <;> decide

/-- C1 (amended): round trip of an attribute on a location where "X" does not
exist yet, or exists with the datatype and the length of the value written.
For each numeric type (`int`, `uint`, `short`, `long`, `float`, `double`) a
vector of length `1 ≤ n < 2^31` and a single value, for `bool` a vector, and
for `std::string` a single string without NUL that fits the copy buffer, are
written by `h5set_attribute` and read back by `h5get_attribute`; both calls
succeed and the value read is the value written. -/
theorem attribute_round_trip (cv : H5Type → H5Type → α → Option α)
    (cvInt : H5Type → H5Type → Int → Option Int)
    (cvString : H5Type → H5Type → List Char → Option (List Char))
    (T : HostType) (MAX_COL_NAME_SIZE : Nat) (location : Int) (name : String) :
    (∀ (s : H5State α) (v out : List α), 1 ≤ v.length → v.length < 2 ^ 31 →
      Writable s location name (H5Type.native (T.datatype (H5Model.lib cv))) v.length →
      setGetVector (H5Model.lib cv) T s location name v out = some (true, true, v))
    ∧ (∀ (s : H5State α) (x out : α),
      Writable s location name (H5Type.native (T.datatype (H5Model.lib cv))) 1 →
      setGetScalar (H5Model.lib cv) T s location name x out = (true, true, x))
    ∧ (∀ (s : H5State Int) (b out : List Bool), 1 ≤ b.length → b.length < 2 ^ 31 →
      Writable s location name (H5Type.native H5Model.NATIVE_INT) b.length →
      setGetVectorBool (H5Model.lib cvInt) s location name b out = some (true, true, b))
    ∧ (∀ (s : H5State (List Char)) (x out : List Char),
      (∀ c ∈ x, c ≠ NUL) → x.length + 1 ≤ MAX_COL_NAME_SIZE →
      Writable s location name (H5Type.string none) 1 →
      setGetString (H5Model.lib cvString) MAX_COL_NAME_SIZE s location name x out
        = some (true, true, x)) := by
  refine ⟨?_, ?_, ?_, ?_⟩
  · intro s v out _ hlen hw
    obtain ⟨h1, h2⟩ := h5set_attribute_ptr_stores cv s T location name v hlen hw
    obtain ⟨h3, h4⟩ := h5get_attribute_vector_reads cv _ location name _ v out h2
    have e := h5set_attribute_vector_eq (h5set_attribute_ptr (H5Model.lib cv) T) s location
      name v hlen
    show Option.map _ (h5set_attribute_vector (h5set_attribute_ptr (H5Model.lib cv) T) s
      location name v) = _
    rw [e, Option.map_some', h1, h3, h4]
  · intro s x out hw
    obtain ⟨h1, h2⟩ := h5set_attribute_ptr_stores cv s T location name [x] (by simp) hw
    obtain ⟨h3, h4⟩ := h5get_attribute_reads cv _ location name _ x out h2
    have e : h5set_attribute_scalar (h5set_attribute_ptr (H5Model.lib cv) T) s location name x
        = h5set_attribute_ptr (H5Model.lib cv) T s location name [x] ([x].length : Nat) := rfl
    simp only [setGetScalar, e, h1, h3, h4]
  · intro s b out _ hlen hw
    have hlen2 : (b.map (fun c : Bool => if c then (1 : Int) else 0)).length < 2 ^ 31 := by
      simpa using hlen
    have hw2 : Writable s location name
        (H5Type.native ((HostType.int).datatype (H5Model.lib cvInt)))
        (b.map (fun c : Bool => if c then (1 : Int) else 0)).length := by
      simpa using hw
    obtain ⟨h1, h2⟩ := h5set_attribute_ptr_stores cvInt s HostType.int location name
      (b.map (fun c : Bool => if c then (1 : Int) else 0)) hlen2 hw2
    obtain ⟨h3, h4⟩ := h5get_attribute_vector_bool_reads cvInt _ location name _ _ out h2
    have e : h5set_attribute_bool (H5Model.lib cvInt) s location name b (b.length : Nat)
        = h5set_attribute_ptr (H5Model.lib cvInt) HostType.int s location name
            (b.map (fun c : Bool => if c then (1 : Int) else 0))
            ((b.map (fun c : Bool => if c then (1 : Int) else 0)).length : Nat) := by
      simp [h5set_attribute_bool, h5set_attribute_ptr, HostType.datatype]
    have hb : (b.map (fun c : Bool => if c then (1 : Int) else 0)).map
        (fun i => decide (i ≠ 0)) = b := by
      rw [List.map_map]
      conv_rhs => rw [← List.map_id b]
      apply List.map_congr_left
      intro c _
      cases c <;> simp
    have e2 := h5set_attribute_vector_eq (h5set_attribute_bool (H5Model.lib cvInt)) s location
      name b hlen
    show Option.map _ (h5set_attribute_vector (h5set_attribute_bool (H5Model.lib cvInt)) s
      location name b) = _
    rw [e2, Option.map_some', e, h1, h3, h4, hb]
  · intro s x out hx hfit hw
    have hx2 : ∀ c ∈ x, c ≠ Char.ofNat 0 := hx
    have hval : ∀ y ∈ [x], (∀ c ∈ y, c ≠ Char.ofNat 0) ∧ y.length + 1 ≤ MAX_COL_NAME_SIZE := by
      intro y hy
      rw [List.mem_singleton] at hy
      subst hy
      exact ⟨hx2, hfit⟩
    obtain ⟨hloc, hattr⟩ := hw
    have hset : ∃ r, h5set_attribute_string (H5Model.lib cvString) MAX_COL_NAME_SIZE s
        H5T_STRING location name [x] ([x].length : Nat) = some r
        ∧ r.1 = true ∧ Stored r.2 location name (H5Type.string none) [x] := by
      rcases hattr with habs | ⟨old, hold⟩
      · exact h5set_attribute_string_creates cvString _ s location name [x] hloc habs
          (by simp) hval
      · exact h5set_attribute_string_updates cvString _ s location name [x] old hloc hold hval
    obtain ⟨r, hr, h1, h2⟩ := hset
    obtain ⟨h3, h4⟩ := h5get_attribute_string_reads cvString _ location name x out hx2 h2
    have e : h5set_attribute_scalar
        (h5set_attribute_string_ptr (H5Model.lib cvString) MAX_COL_NAME_SIZE) s location name x
        = h5set_attribute_string (H5Model.lib cvString) MAX_COL_NAME_SIZE s
            H5T_STRING location name [x] ([x].length : Nat) := rfl
    show Option.map _ (h5set_attribute_scalar
      (h5set_attribute_string_ptr (H5Model.lib cvString) MAX_COL_NAME_SIZE) s location name x)
      = _
    rw [e, hr, Option.map_some', h1, h3, h4]

/-- C1 (amended), at concrete values: a vector of `int` and a vector of
`bool` written to a group without attributes, an `int` written over the
one-element attribute "X", and the string "bla". -/
theorem attribute_round_trip_witness :
    setGetVector (H5Model.lib keepValue) HostType.int (emptyGroup : H5State Int) 5 "X"
        [1, 2] [] = some (true, true, [1, 2])
    ∧ setGetScalar (H5Model.lib keepValue) HostType.int groupWithX 5 "X" 42 0
        = (true, true, 42)
    ∧ setGetVectorBool (H5Model.lib keepValue) emptyGroup 5 "X" [true, false] []
        = some (true, true, [true, false])
    ∧ setGetString (H5Model.lib keepValue) 256 emptyGroup 5 "X" ['b', 'l', 'a'] []
        = some (true, true, ['b', 'l', 'a']) :=
  ⟨(attribute_round_trip (keepValue : H5Type → H5Type → Int → Option Int) keepValue keepValue
      HostType.int 256 5 "X").1 emptyGroup [1, 2] [] (by decide) (by decide)
      ⟨rfl, Or.inl rfl⟩,
    (attribute_round_trip (keepValue : H5Type → H5Type → Int → Option Int) keepValue keepValue
      HostType.int 256 5 "X").2.1 groupWithX 42 0 ⟨rfl, Or.inr ⟨[7], rfl⟩⟩,
    (attribute_round_trip (keepValue : H5Type → H5Type → Int → Option Int) keepValue keepValue
      HostType.int 256 5 "X").2.2.1 emptyGroup [true, false] [] (by decide) (by decide)
      ⟨rfl, Or.inl rfl⟩,
    (attribute_round_trip (keepValue : H5Type → H5Type → Int → Option Int) keepValue keepValue
      HostType.int 256 5 "X").2.2.2 emptyGroup ['b', 'l', 'a'] [] (by decide) (by decide)
      ⟨rfl, Or.inl rfl⟩⟩

/-- C2 (counterexample): on a group where "X" is stored with one element,
`h5set_attribute` with the vector `[1, 2]` returns `true` and leaves "X" with
one element, `1`: the stored length is not the length of the value written. -/
theorem write_keeps_stored_length :
    (h5set_attribute_vector (h5set_attribute_ptr (H5Model.lib keepValue) HostType.int)
        groupWithX 5 "X" [1, 2]).map (fun r => (r.1, r.2.attributes 5 "X"))
      = some (true,
          some { datatype := H5Type.native H5Model.NATIVE_INT, dims := [1], data := [1] }) := by
  decide

/-- C2 (amended): on a location where the attribute exists with the datatype of
the value written and with a stored length equal to the length of the value
(below `2^31`), `h5set_attribute` returns `true` and the stored attribute then
has exactly the length and the elements of the value, no element of the old
value being left: for every vector `w` of one of the numeric element types
(`int`, `uint`, `short`, `long`, `unsigned long long`, `float`, `double`), and
for every array `ws` of `std::string` written with its number of elements over
an attribute of variable-length strings, provided no string of `ws` holds a NUL
character and each is shorter than `MAX_COL_NAME_SIZE`. -/
theorem write_replaces_value_of_same_length (cv : H5Type → H5Type → α → Option α)
    (s : H5State α) (T : HostType) (location : Int) (name : String) (w old : List α)
    (cvs : H5Type → H5Type → List Char → Option (List Char)) (MAX_COL_NAME_SIZE : Nat)
    (ss : H5State (List Char)) (slocation : Int) (sname : String)
    (ws olds : List (List Char))
    (hloc : s.locations location = true)
    (hold : s.attributes location name
      = some { datatype := H5Type.native (T.datatype (H5Model.lib cv)),
               dims := [w.length], data := old })
    (hlen : w.length < 2 ^ 31)
    (hsloc : ss.locations slocation = true)
    (hsold : ss.attributes slocation sname
      = some { datatype := H5Type.string none, dims := [ws.length], data := olds })
    (_hslen : ws.length < 2 ^ 31)
    (hws : ∀ x ∈ ws, (∀ c ∈ x, c ≠ Char.ofNat 0) ∧ x.length + 1 ≤ MAX_COL_NAME_SIZE) :
    (∃ r, h5set_attribute_vector (h5set_attribute_ptr (H5Model.lib cv) T) s location name w
        = some r
      ∧ r.1 = true
      ∧ r.2.attributes location name
        = some { datatype := H5Type.native (T.datatype (H5Model.lib cv)),
                 dims := [w.length], data := w })
    ∧ (∃ r, h5set_attribute_string_ptr (H5Model.lib cvs) MAX_COL_NAME_SIZE ss slocation sname
        ws ws.length = some r
      ∧ r.1 = true
      ∧ r.2.attributes slocation sname
        = some { datatype := H5Type.string none, dims := [ws.length], data := ws }) := by
  constructor
  · obtain ⟨h1, _, h2⟩ := h5set_attribute_ptr_stores cv s T location name w hlen
      ⟨hloc, Or.inr ⟨old, hold⟩⟩
    exact ⟨_, h5set_attribute_vector_eq _ s location name w hlen, h1, h2⟩
  · obtain ⟨r, hr, h1, h2⟩ :=
      h5set_attribute_string_updates cvs MAX_COL_NAME_SIZE ss slocation sname ws olds hsloc
        hsold hws
    exact ⟨r, hr, h1, h2.2⟩

/-- C2 (amended), at the group whose attribute "V" holds `[1, 2, 3]`, written
with `[10, 20, 30]`, and at the group whose attribute "S" holds the strings
"old" and "v", written with "new" and "w". -/
theorem write_replaces_value_of_same_length_witness :
    (∃ r, h5set_attribute_vector (h5set_attribute_ptr (H5Model.lib keepValue) HostType.int)
        groupWithV 5 "V" [10, 20, 30] = some r
      ∧ r.1 = true
      ∧ r.2.attributes 5 "V"
        = some { datatype := H5Type.native (HostType.int.datatype
                   (H5Model.lib (keepValue : H5Type → H5Type → Int → Option Int))),
                 dims := [[10, 20, 30].length], data := [10, 20, 30] })
    ∧ (∃ r, h5set_attribute_string_ptr (H5Model.lib keepValue) 256 groupWithS 5 "S"
        [['n', 'e', 'w'], ['w']] ([['n', 'e', 'w'], ['w']] : List (List Char)).length = some r
      ∧ r.1 = true
      ∧ r.2.attributes 5 "S"
        = some { datatype := H5Type.string none,
                 dims := [([['n', 'e', 'w'], ['w']] : List (List Char)).length],
                 data := [['n', 'e', 'w'], ['w']] }) :=
  write_replaces_value_of_same_length keepValue groupWithV HostType.int 5 "V" [10, 20, 30]
    [1, 2, 3] keepValue 256 groupWithS 5 "S" [['n', 'e', 'w'], ['w']] [['o', 'l', 'd'], ['v']]
    rfl rfl (by decide) rfl rfl (by decide) (by decide)

/-- With an invalid attribute identifier `h5get_attribute` returns `false`. -/
theorem h5get_attribute_invalid {σ : Type} (lib : H5Lib σ α) (s : σ) (attribute_id : Int)
    (value : α) (h : lib.H5Iis_valid s attribute_id = false) :
    h5get_attribute lib s attribute_id value = (false, value, s) := by
  simp [h5get_attribute, h]

/-- With a valid attribute identifier the status of `h5get_attribute` is the
one of `H5Eclear1`, whatever `H5Aread` returned: where clearing the error
stack succeeds, the function returns `true`. -/
theorem h5get_attribute_valid {σ : Type} (lib : H5Lib σ α) (s : σ) (attribute_id : Int)
    (value : α) (h : lib.H5Iis_valid s attribute_id = true)
    (hclear : ∀ s1, (lib.H5Eclear1 s1).1 = 0) :
    (h5get_attribute lib s attribute_id value).1 = true := by
  simp [h5get_attribute, h, hclear]

/-- C3 (the code at the failing input): identifier 5 is valid but names a
group, so `H5Aread` fails (status -1), and `h5get_attribute` returns `true`
with the variable untouched; and a single-value request for the attribute
"V", stored as a vector of three elements, returns `true` as well (with the
first element). -/
theorem h5get_attribute_true_after_failed_read :
    H5Model.H5Iis_valid groupWithV 5 = true
    ∧ (H5Model.H5Aread keepValue groupWithV 5 (H5Model.H5Aget_type groupWithV 5).1).1 = -1
    ∧ (h5get_attribute (H5Model.lib keepValue) groupWithV 5 0).1 = true
    ∧ (h5get_attribute (H5Model.lib keepValue) groupWithV 5 0).2.1 = 0
    ∧ (h5get_attribute_name (H5Model.lib keepValue) h5get_attribute groupWithV 5 "V" 0).1
        = true
    ∧ (h5get_attribute_name (H5Model.lib keepValue) h5get_attribute groupWithV 5 "V" 0).2.1
        = 1 := by
  refine ⟨?_, ?_, ?_, ?_, ?_, ?_⟩ <;> decide

/-- C4 (the code at the failing input): for the attribute of the two strings
"ab" and "cd" of fixed size 4, the buffer read is "ab\0\0cd\0\0";
`std::string (buffer)` ends at the first NUL and is "ab", and the slice for
the second entry, `substr (4, 4)`, starts behind its end: the exception
`std::out_of_range` is thrown and no vector is returned. -/
theorem h5get_attribute_vector_string_out_of_range :
    twoFixedStrings.h5get_dataspace_shape () 20 = (true, [2])
    ∧ twoFixedStrings.H5Aread () 20 31 = (0, ['a', 'b', NUL, NUL, 'c', 'd', NUL, NUL])
    ∧ cstring ['a', 'b', NUL, NUL, 'c', 'd', NUL, NUL] = ['a', 'b']
    ∧ substr ['a', 'b'] (1 * 4) 4 = none
    ∧ h5get_attribute_vector_string twoFixedStrings () 20 [] = none := by
  refine ⟨?_, ?_, ?_, ?_, ?_⟩ <;> decide

end claims

/-! ### Creation of a dataset: status (C11) -/

/-- The status returned by `open` is the validity of the creation property
list, whatever `H5Screate_simple` and `H5Dcreate2` hand back. -/
theorem open_status (env : H5Env) (ds : HDF5Dataset) (location : Int) (name : String)
    (shape chunksize : List Nat) (datatype : Int)
    (result : Bool × HDF5Dataset × List H5Call)
    (h : ds.open env location name shape chunksize datatype = some result) :
    result.1 = env.H5Iis_valid env.H5Pcreate := by
  unfold HDF5Dataset.open at h
  dsimp only at h
  split at h
  · exact absurd h (by simp)
  · split at h
    · rename_i hv
      simp only [Option.some.injEq] at h
      rw [← h, hv]
    · rename_i hv
      simp only [Option.some.injEq] at h
      rw [← h]
      simpa using hv

/-- C11 (the code at the failing input): where the library cannot create the
dataspace nor the dataset (`H5Screate_simple` and `H5Dcreate2` hand back -1),
`open` stores the two invalid identifiers and returns `true`. -/
theorem open_returns_true_when_creation_fails :
    (noCreateEnv 4).H5Screate_simple 1 [10] [H5S_UNLIMITED] = -1
    ∧ (noCreateEnv 4).H5Dcreate2 1 "data" 7 (-1) 12 = -1
    ∧ (HDF5Dataset.init.open (noCreateEnv 4) 1 "data" [10] [5] 7).map
        (fun r => (r.1, r.2.1.itsDataspace, r.2.1.location_p)) = some (true, -1, -1) := by
  refine ⟨?_, ?_, ?_⟩ <;> decide

/-! ### Filename (C19, C20) -/

/-- C19: for every observation ID `o`, optional description `d`, file type
`t`, extension `e` and path `p`, `Filename (o, d, t, e, p).filename (false)` is
"L" ++ o ++ ("" if `d` is empty, else "_" ++ d) ++ "_" ++ getName (t) ++ "." ++
getName (e); `filename (true)` is `p` ++ "/" ++ `filename (false)` when `p` is
not empty and `filename (false)` when it is; and
`Filename ("123456789", "", uv, h5)` gives "L123456789_uv.h5". -/
theorem filename_format (o d : String) (t : FileType) (e : FileExtension) (p : String) :
    (Filename.create o d t e p).filename false
      = "L" ++ o ++ (if d = "" then "" else "_" ++ d) ++ "_" ++ Filename.getNameType t
          ++ "." ++ Filename.getNameExtension e
    ∧ (Filename.create o d t e p).filename true
      = (if p = "" then (Filename.create o d t e p).filename false
          else p ++ "/" ++ (Filename.create o d t e p).filename false)
    ∧ (Filename.create "123456789" "" FileType.uv FileExtension.h5 "").filename false
      = "L123456789_uv.h5" := by
  refine ⟨?_, ?_, ?_⟩
  · by_cases hd : d = ""
    · simp [Filename.filename, Filename.create, Filename.setOptionalDescription, hd]
    · simp [Filename.filename, Filename.create, Filename.setOptionalDescription, hd,
        String.append_assoc]
  · by_cases hp : p = ""
    · simp [Filename.filename, Filename.create, Filename.setOptionalDescription, hp]
    · by_cases hd : d = ""
      · simp [Filename.filename, Filename.create, Filename.setOptionalDescription, hp, hd,
          String.append_assoc]
        rw [← String.append_assoc "/" "L"]
        rfl
      · simp [Filename.filename, Filename.create, Filename.setOptionalDescription, hp, hd,
          String.append_assoc]
        rw [← String.append_assoc "/" "L"]
        rfl
  · decide

/-- C20 (the code at the failing input): the descriptions "_x" (leading
underscore) and "a-b" (hyphen) fail the documented checks, and
`setOptionalDescription` stores each of them in place of the old
description. -/
theorem setOptionalDescription_stores_rejected_description :
    passesDocumentedChecks "_x" = false
    ∧ passesDocumentedChecks "a-b" = false
    ∧ ((Filename.create "123456789" "old" FileType.uv FileExtension.h5 "").setOptionalDescription
        "_x").optionalDescription_p = "_x"
    ∧ ((Filename.create "123456789" "old" FileType.uv FileExtension.h5 "").setOptionalDescription
        "a-b").optionalDescription_p = "a-b" := by
  refine ⟨?_, ?_, ?_, ?_⟩ <;> decide

/-! ### Closing arrays and groups (C18) -/

/-- The call `dalGroup::close ()` is guarded: with `itsGroupID = 0` no call is
issued, and after a successful close `itsGroupID` is 0. -/
theorem dalGroup_close_guarded (env : H5CloseEnv) :
    dalGroup.close env 0 = (SUCCESS, 0, [])
    ∧ ∀ id, (dalGroup.close env id).1 = SUCCESS → (dalGroup.close env id).2.1 = 0 := by
  refine ⟨by simp [dalGroup.close], ?_⟩
  intro id h
  unfold dalGroup.close at h ⊢
  by_cases h0 : 0 ≠ id
  · by_cases h1 : env.H5Gclose id < 0
    · simp [h0, h1, FAIL, SUCCESS] at h
    · simp [h0, h1]
  · have : id = 0 := by
      by_contra hne
      exact h0 (fun h2 => hne h2.symm)
    simp [this]

/-- C18 (the code at the failing input): `close ()` on a default-constructed
`dalArray` issues `H5Dclose (0)`; and on an array opened once, a first and a
second `close ()` issue `H5Dclose` twice, on the same identifier. -/
theorem dalArray_close_is_not_guarded :
    (dalArray.close closeEnv dalArray.init).2.2 = [H5CloseCall.H5Dclose 0]
    ∧ (dalArray.close closeEnv (dalArray.open closeEnv dalArray.init 3 "data").2.1).1 = SUCCESS
    ∧ (dalArray.close closeEnv (dalArray.open closeEnv dalArray.init 3 "data").2.1).2.2
        ++ (dalArray.close closeEnv
            (dalArray.close closeEnv (dalArray.open closeEnv dalArray.init 3 "data").2.1).2.1).2.2
      = [H5CloseCall.H5Dclose 31, H5CloseCall.H5Dclose 31] := by
  refine ⟨?_, ?_, ?_⟩ <;> decide


/-! ## CoordinatesGroup.cc, BF_StationBeam.cc : opening a group -/

theorem stringLess_irrefl (a : List Char) : stringLess a a = false := by
  induction a with
  | nil => rfl
  | cons x xs ih => simp [stringLess, ih]

theorem stringLess_trans (a b c : List Char) (h₁ : stringLess a b = true)
    (h₂ : stringLess b c = true) : stringLess a c = true := by
  induction a generalizing b c with
  | nil =>
    cases b with
    | nil => simp [stringLess] at h₁
    | cons y ys =>
      cases c with
      | nil => simp [stringLess] at h₂
      | cons z zs => simp [stringLess]
  | cons x xs ih =>
    cases b with
    | nil => simp [stringLess] at h₁
    | cons y ys =>
      cases c with
      | nil => simp [stringLess] at h₂
      | cons z zs =>
        simp only [stringLess] at h₁ h₂ ⊢
        split_ifs at h₁ h₂ ⊢ <;> first | rfl | omega | exact ih ys zs h₁ h₂

theorem stringLess_total (a b : List Char) (h₁ : stringLess a b = false) (h₂ : a ≠ b) :
    stringLess b a = true := by
  induction a generalizing b with
  | nil =>
    cases b with
    | nil => exact absurd rfl h₂
    | cons y ys => simp [stringLess] at h₁
  | cons x xs ih =>
    cases b with
    | nil => simp [stringLess]
    | cons y ys =>
      simp only [stringLess] at h₁ ⊢
      split_ifs at h₁ ⊢ <;> first | rfl | omega | skip
      have hxy : x = y := by
        have e : x.toNat = y.toNat := by omega
        rw [← Char.ofNat_toNat x, ← Char.ofNat_toNat y, e]
      subst hxy
      exact ih ys h₁ (fun h => h₂ (by rw [h]))

theorem StringLt_irrefl (x : String) : ¬ StringLt x x := by
  simp [StringLt, stringLess_irrefl]

theorem StringLt_trans {x y z : String} (h₁ : StringLt x y) (h₂ : StringLt y z) :
    StringLt x z :=
  stringLess_trans _ _ _ h₁ h₂

theorem StringLt_total {x y : String} (h₁ : ¬ StringLt x y) (h₂ : x ≠ y) : StringLt y x := by
  refine stringLess_total _ _ ?_ ?_
  · simpa [StringLt] using h₁
  · intro h
    exact h₂ (String.ext h)

theorem mem_setInsert (n x : String) (s : List String) :
    n ∈ setInsert x s ↔ n = x ∨ n ∈ s := by
  induction s with
  | nil => simp [setInsert]
  | cons y ys ih =>
    unfold setInsert
    by_cases h1 : stringLess x.data y.data = true
    · simp [h1]
    · by_cases h2 : x = y
      · subst h2
        simp [h1]
      · simp [h1, h2, ih]
        tauto

theorem mem_foldl_setInsert (n : String) (l s : List String) :
    n ∈ l.foldl (fun acc x => setInsert x acc) s ↔ n ∈ l ∨ n ∈ s := by
  induction l generalizing s with
  | nil => simp
  | cons x xs ih =>
    simp only [List.foldl_cons, ih, mem_setInsert, List.mem_cons]
    tauto

theorem setInsert_sorted (x : String) (s : List String) (h : s.Sorted StringLt) :
    (setInsert x s).Sorted StringLt := by
  induction s with
  | nil => simp [setInsert]
  | cons y ys ih =>
    have hy := List.rel_of_sorted_cons h
    have hys := List.Sorted.of_cons h
    unfold setInsert
    by_cases h1 : stringLess x.data y.data = true
    · rw [if_pos h1]
      refine List.sorted_cons.2 ⟨?_, h⟩
      intro b hb
      rcases List.mem_cons.1 hb with hb | hb
      · rw [hb]
        exact h1
      · exact StringLt_trans h1 (hy b hb)
    · rw [if_neg h1]
      by_cases h2 : x = y
      · rw [if_pos h2]
        exact h
      · rw [if_neg h2]
        refine List.sorted_cons.2 ⟨?_, ih hys⟩
        intro b hb
        rcases (mem_setInsert b x ys).1 hb with hb | hb
        · rw [hb]
          exact StringLt_total h1 h2
        · exact hy b hb

theorem sorted_nodup (l : List String) (h : l.Sorted StringLt) : l.Nodup := by
  induction l with
  | nil => exact List.nodup_nil
  | cons y ys ih =>
    refine List.nodup_cons.2 ⟨?_, ih (List.Sorted.of_cons h)⟩
    intro hmem
    exact StringLt_irrefl y (List.rel_of_sorted_cons h y hmem)

theorem sorted_eq_of_mem_iff (l₁ l₂ : List String) (h₁ : l₁.Sorted StringLt)
    (h₂ : l₂.Sorted StringLt) (h : ∀ n, n ∈ l₁ ↔ n ∈ l₂) : l₁ = l₂ := by
  induction l₁ generalizing l₂ with
  | nil =>
    cases l₂ with
    | nil => rfl
    | cons y ys => exact absurd ((h y).2 (List.mem_cons_self y ys)) (List.not_mem_nil y)
  | cons x xs ih =>
    cases l₂ with
    | nil => exact absurd ((h x).1 (List.mem_cons_self x xs)) (List.not_mem_nil x)
    | cons y ys =>
      have hx := List.rel_of_sorted_cons h₁
      have hy := List.rel_of_sorted_cons h₂
      have hxy : x = y := by
        by_contra hne
        have m1 : x ∈ ys := by
          rcases List.mem_cons.1 ((h x).1 (List.mem_cons_self x xs)) with e | e
          · exact absurd e hne
          · exact e
        have m2 : y ∈ xs := by
          rcases List.mem_cons.1 ((h y).2 (List.mem_cons_self y ys)) with e | e
          · exact absurd e.symm hne
          · exact e
        exact StringLt_irrefl x (StringLt_trans (hx y m2) (hy x m1))
      subst hxy
      have hn₁ := (List.nodup_cons.1 (sorted_nodup _ h₁)).1
      have hn₂ := (List.nodup_cons.1 (sorted_nodup _ h₂)).1
      have ht : xs = ys := by
        refine ih ys (List.Sorted.of_cons h₁) (List.Sorted.of_cons h₂) ?_
        intro n
        constructor
        · intro hm
          rcases List.mem_cons.1 ((h n).1 (List.mem_cons_of_mem x hm)) with e | e
          · exact absurd (e ▸ hm) hn₁
          · exact e
        · intro hm
          rcases List.mem_cons.1 ((h n).2 (List.mem_cons_of_mem x hm)) with e | e
          · exact absurd (e ▸ hm) hn₂
          · exact e
      rw [ht]

theorem CoordinatesGroup_attributes {F : Type} (cg : CoordinatesGroup F) :
    cg.setAttributes.attributes_p =
      ["COORDINATE_TYPES", "GROUPTYPE", "NOF_AXES", "NOF_COORDINATES", "REF_LOCATION_FRAME",
        "REF_LOCATION_UNIT", "REF_LOCATION_VALUE", "REF_TIME_FRAME", "REF_TIME_UNIT",
        "REF_TIME_VALUE"] := by
  unfold CoordinatesGroup.setAttributes
  dsimp only
  decide

theorem BF_StationBeam_attributes (bf : BF_StationBeam) :
    bf.setAttributes.attributes_p =
      ["CHANNELS_PER_SUBBAND", "CHANNEL_WIDTH", "CHANNEL_WIDTH_UNIT", "CLOCK_RATE",
        "CLOCK_RATE_UNIT", "GROUPTYPE", "NOF_PENCIL_BEAMS", "NOF_SAMPLES", "NOF_STATIONS",
        "POINT_ALTITUDE", "POINT_AZIMUTH", "POINT_DEC", "POINT_RA", "SAMPLING_RATE",
        "SAMPLING_RATE_UNIT", "SAMPLING_TIME", "SAMPLING_TIME_UNIT", "STATIONS_LIST",
        "SUBBAND_WIDTH", "SUBBAND_WIDTH_UNIT", "TOTAL_INTEGRATION_TIME",
        "TOTAL_INTEGRATION_TIME_UNIT", "TRACKING"] := by
  unfold BF_StationBeam.setAttributes
  dsimp only
  decide

/-- C12: for every parent location and every name under which no link exists
(`H5Lexists` answers 0), and also when the existence check reports an error and
the group cannot be opened, `CoordinatesGroup::open (location, name, false)`
returns false, issues neither `H5Gcreate` nor any `h5set_attribute`, opens no
group (every `H5Gopen2` it issued failed) and leaves `location_p` without a
valid identifier. -/
theorem CoordinatesGroup_open_missing_without_create {F : Type} (env : H5GroupEnv)
    (cg : CoordinatesGroup F) (location : Int) (name : String)
    (h : env.H5Lexists location name = 0 ∨
      (env.H5Lexists location name < 0 ∧ env.H5Gopen2 location name < 0)) :
    (cg.open env location name false).1 = false ∧
    (∀ c ∈ (cg.open env location name false).2.2,
      c.isCreate = false ∧ c.isAttributeWrite = false ∧
        (c = GroupCall.H5Gopen2 location name → env.H5Gopen2 location name < 0)) ∧
    (cg.open env location name false).2.1.location_p ≤ 0 := by
  unfold CoordinatesGroup.open
  rcases h with h | ⟨h1, h2⟩
  · simp [h, GroupCall.isCreate, GroupCall.isAttributeWrite]
  · have h3 : env.H5Lexists location name ≠ 0 := by omega
    have h4 : ¬ 0 < env.H5Gopen2 location name := by omega
    simp [h3, h4, h2, GroupCall.isCreate, GroupCall.isAttributeWrite]
    omega

theorem CoordinatesGroup_open_missing_without_create_witness :
    (emptyParent.H5Lexists 1 "Coordinates" = 0 ∨
      (emptyParent.H5Lexists 1 "Coordinates" < 0 ∧ emptyParent.H5Gopen2 1 "Coordinates" < 0)) ∧
    ((CoordinatesGroup.init (0 : Int)).open emptyParent 1 "Coordinates" false).1 = false ∧
    (∀ c ∈ ((CoordinatesGroup.init (0 : Int)).open emptyParent 1 "Coordinates" false).2.2,
      c.isCreate = false ∧ c.isAttributeWrite = false ∧
        (c = GroupCall.H5Gopen2 1 "Coordinates" → emptyParent.H5Gopen2 1 "Coordinates" < 0)) ∧
    ((CoordinatesGroup.init (0 : Int)).open emptyParent 1 "Coordinates" false).2.1.location_p ≤ 0 :=
  ⟨by decide,
    CoordinatesGroup_open_missing_without_create emptyParent (CoordinatesGroup.init (0 : Int)) 1
      "Coordinates" (by decide)⟩



theorem CoordinatesGroup_open_created {F : Type} (env : H5GroupEnv) (cg : CoordinatesGroup F)
    (location : Int) (name : String)
    (hmem : GroupCall.H5Gcreate location name ∈ (cg.open env location name true).2.2)
    (hpos : 0 < (cg.open env location name true).2.1.location_p) :
    namesWritten (cg.open env location name true).2.2 =
        ["GROUPTYPE", "REF_LOCATION_VALUE", "REF_LOCATION_UNIT", "REF_LOCATION_FRAME",
          "REF_TIME_VALUE", "REF_TIME_UNIT", "REF_TIME_FRAME", "NOF_COORDINATES", "NOF_AXES",
          "COORDINATE_TYPES"] ∧
      (cg.open env location name true).1 = true ∧
      (cg.open env location name true).2.1.attributes_p = cg.setAttributes.attributes_p ∧
      (cg.open env location name true).2.1.location_p = env.H5Gcreate location name ∧
      namesWrittenTo (cg.open env location name true).2.2 (env.H5Gcreate location name) =
        ["GROUPTYPE", "REF_LOCATION_VALUE", "REF_LOCATION_UNIT", "REF_LOCATION_FRAME",
          "REF_TIME_VALUE", "REF_TIME_UNIT", "REF_TIME_FRAME", "NOF_COORDINATES", "NOF_AXES",
          "COORDINATE_TYPES"] ∧
      (∀ c ∈ (cg.open env location name true).2.2, c.isAttributeWrite = true →
        c.target = some (env.H5Gcreate location name)) := by
  unfold CoordinatesGroup.open at hmem hpos ⊢
  dsimp only at hmem hpos ⊢
  by_cases h1 : env.H5Lexists location name ≠ 0
  · rw [if_pos h1] at hmem hpos ⊢
    dsimp only at hmem hpos ⊢
    by_cases h2 : env.H5Gopen2 location name > 0
    · rw [if_pos h2] at hmem
      simp at hmem
    · rw [if_neg h2] at hmem hpos ⊢
      by_cases h3 : env.H5Gcreate location name > 0
      · simp [h3, namesWritten, namesWrittenTo, GroupCall.isAttributeWrite, GroupCall.target]
      · simp [h3] at hpos
  · rw [if_neg h1] at hmem hpos ⊢
    dsimp only at hmem hpos ⊢
    by_cases h3 : env.H5Gcreate location name > 0
    · simp [h3, namesWritten, namesWrittenTo, GroupCall.isAttributeWrite, GroupCall.target]
    · simp [h3] at hpos

theorem BF_StationBeam_open_created {F : Type} (env : H5GroupEnv) (bf : BF_StationBeam)
    (defaultFloat : F) (defaultStrings : List String) (location : Int) (name : String)
    (hmem : GroupCall.H5Gcreate location name ∈
      (bf.open env defaultFloat defaultStrings location name true).2.2)
    (hpos : 0 < (bf.open env defaultFloat defaultStrings location name true).2.1.location_p) :
    namesWritten (bf.open env defaultFloat defaultStrings location name true).2.2 =
        ["GROUPTYPE", "NOF_STATIONS", "STATIONS_LIST", "POINT_RA", "POINT_DEC", "TRACKING",
          "POINT_ALTITUDE", "POINT_AZIMUTH", "CLOCK_RATE", "CLOCK_RATE_UNIT", "NOF_SAMPLES",
          "SAMPLING_RATE", "SAMPLING_RATE_UNIT", "SAMPLING_TIME", "SAMPLING_TIME_UNIT",
          "TOTAL_INTEGRATION_TIME", "TOTAL_INTEGRATION_TIME_UNIT", "CHANNELS_PER_SUBBAND",
          "SUBBAND_WIDTH", "SUBBAND_WIDTH_UNIT", "CHANNEL_WIDTH", "CHANNEL_WIDTH_UNIT",
          "NOF_PENCIL_BEAMS"] ∧
      (bf.open env defaultFloat defaultStrings location name true).1 = true ∧
      (bf.open env defaultFloat defaultStrings location name true).2.1.attributes_p =
        bf.setAttributes.attributes_p ∧
      valuesWritten (bf.open env defaultFloat defaultStrings location name true).2.2
        "GROUPTYPE" = [AttrValue.string "StatBeam"] ∧
      valuesWritten (bf.open env defaultFloat defaultStrings location name true).2.2
        "NOF_STATIONS" = [AttrValue.int 0] ∧
      valuesWritten (bf.open env defaultFloat defaultStrings location name true).2.2
        "TRACKING" = [AttrValue.string "OFF"] ∧
      (bf.open env defaultFloat defaultStrings location name true).2.1.location_p =
        env.H5Gcreate location name ∧
      namesWrittenTo (bf.open env defaultFloat defaultStrings location name true).2.2
          (env.H5Gcreate location name) =
        ["GROUPTYPE", "NOF_STATIONS", "STATIONS_LIST", "POINT_RA", "POINT_DEC", "TRACKING",
          "POINT_ALTITUDE", "POINT_AZIMUTH", "CLOCK_RATE", "CLOCK_RATE_UNIT", "NOF_SAMPLES",
          "SAMPLING_RATE", "SAMPLING_RATE_UNIT", "SAMPLING_TIME", "SAMPLING_TIME_UNIT",
          "TOTAL_INTEGRATION_TIME", "TOTAL_INTEGRATION_TIME_UNIT", "CHANNELS_PER_SUBBAND",
          "SUBBAND_WIDTH", "SUBBAND_WIDTH_UNIT", "CHANNEL_WIDTH", "CHANNEL_WIDTH_UNIT",
          "NOF_PENCIL_BEAMS"] ∧
      (∀ c ∈ (bf.open env defaultFloat defaultStrings location name true).2.2,
        c.isAttributeWrite = true → c.target = some (env.H5Gcreate location name)) ∧
      valuesWrittenTo (bf.open env defaultFloat defaultStrings location name true).2.2
        (env.H5Gcreate location name) "GROUPTYPE" = [AttrValue.string "StatBeam"] ∧
      valuesWrittenTo (bf.open env defaultFloat defaultStrings location name true).2.2
        (env.H5Gcreate location name) "NOF_STATIONS" = [AttrValue.int 0] ∧
      valuesWrittenTo (bf.open env defaultFloat defaultStrings location name true).2.2
        (env.H5Gcreate location name) "TRACKING" = [AttrValue.string "OFF"] := by
  unfold BF_StationBeam.open at hmem hpos ⊢
  dsimp only at hmem hpos ⊢
  by_cases h1 : setCount bf.setAttributes.attributes_p name ≠ 0
  · rw [if_pos h1] at hmem hpos ⊢
    dsimp only at hmem hpos ⊢
    by_cases h2 : env.H5Gopen2 location name > 0
    · rw [if_pos h2] at hmem
      simp at hmem
    · rw [if_neg h2] at hmem hpos ⊢
      by_cases h3 : env.H5Gcreate location name > 0
      · simp [h3, namesWritten, valuesWritten, namesWrittenTo, valuesWrittenTo,
          GroupCall.isAttributeWrite, GroupCall.target]
      · simp [h3] at hpos
  · rw [if_neg h1] at hmem hpos ⊢
    dsimp only at hmem hpos ⊢
    by_cases h3 : env.H5Gcreate location name > 0
    · simp [h3, namesWritten, valuesWritten, namesWrittenTo, valuesWrittenTo,
        GroupCall.isAttributeWrite, GroupCall.target]
    · simp [h3] at hpos

/-- C13: when `open (location, name, true)` creates a new group (it issued
`H5Gcreate` and holds a valid identifier afterwards), `location_p` is the
identifier of the new group handed back by `H5Gcreate`, every attribute write
issued is directed to that new group and to no other location, and the
attribute names written to the new group are exactly the names registered by
`setAttributes`, each written once: 10 names for `CoordinatesGroup`, 23 names
for `BF_StationBeam`; and to the new `BF_StationBeam` group are written
GROUPTYPE = "StatBeam", NOF_STATIONS = 0 and TRACKING = "OFF", each once. -/
theorem open_create_writes_registered_attributes {F : Type} (env : H5GroupEnv)
    (cg : CoordinatesGroup F) (bf : BF_StationBeam) (defaultFloat : F)
    (defaultStrings : List String) (location : Int) (name : String) :
    ((GroupCall.H5Gcreate location name ∈ (cg.open env location name true).2.2 ∧
        0 < (cg.open env location name true).2.1.location_p) →
      (cg.open env location name true).2.1.location_p = env.H5Gcreate location name ∧
        (∀ c ∈ (cg.open env location name true).2.2, c.isAttributeWrite = true →
          c.target = some (cg.open env location name true).2.1.location_p) ∧
        (∀ n, n ∈ namesWrittenTo (cg.open env location name true).2.2
              (cg.open env location name true).2.1.location_p ↔
            n ∈ (cg.open env location name true).2.1.attributes_p) ∧
        (namesWrittenTo (cg.open env location name true).2.2
          (cg.open env location name true).2.1.location_p).Nodup ∧
        (namesWrittenTo (cg.open env location name true).2.2
          (cg.open env location name true).2.1.location_p).length = 10 ∧
        (cg.open env location name true).2.1.attributes_p.length = 10 ∧
        (cg.open env location name true).1 = true) ∧
    ((GroupCall.H5Gcreate location name ∈
          (bf.open env defaultFloat defaultStrings location name true).2.2 ∧
        0 < (bf.open env defaultFloat defaultStrings location name true).2.1.location_p) →
      (bf.open env defaultFloat defaultStrings location name true).2.1.location_p =
          env.H5Gcreate location name ∧
        (∀ c ∈ (bf.open env defaultFloat defaultStrings location name true).2.2,
          c.isAttributeWrite = true →
          c.target =
            some (bf.open env defaultFloat defaultStrings location name true).2.1.location_p) ∧
        (∀ n, n ∈ namesWrittenTo (bf.open env defaultFloat defaultStrings location name true).2.2
              (bf.open env defaultFloat defaultStrings location name true).2.1.location_p ↔
            n ∈ (bf.open env defaultFloat defaultStrings location name true).2.1.attributes_p) ∧
        (namesWrittenTo (bf.open env defaultFloat defaultStrings location name true).2.2
          (bf.open env defaultFloat defaultStrings location name true).2.1.location_p).Nodup ∧
        (namesWrittenTo (bf.open env defaultFloat defaultStrings location name true).2.2
          (bf.open env defaultFloat defaultStrings location name true).2.1.location_p).length
          = 23 ∧
        (bf.open env defaultFloat defaultStrings location name true).2.1.attributes_p.length
          = 23 ∧
        (bf.open env defaultFloat defaultStrings location name true).1 = true ∧
        valuesWrittenTo (bf.open env defaultFloat defaultStrings location name true).2.2
          (bf.open env defaultFloat defaultStrings location name true).2.1.location_p
          "GROUPTYPE" = [AttrValue.string "StatBeam"] ∧
        valuesWrittenTo (bf.open env defaultFloat defaultStrings location name true).2.2
          (bf.open env defaultFloat defaultStrings location name true).2.1.location_p
          "NOF_STATIONS" = [AttrValue.int 0] ∧
        valuesWrittenTo (bf.open env defaultFloat defaultStrings location name true).2.2
          (bf.open env defaultFloat defaultStrings location name true).2.1.location_p
          "TRACKING" = [AttrValue.string "OFF"]) := by
  refine ⟨?_, ?_⟩
  · rintro ⟨hmem, hpos⟩
    obtain ⟨_, h2, h3, hloc, h5, h6⟩ :=
      CoordinatesGroup_open_created env cg location name hmem hpos
    rw [hloc, h2, h3, h5]
    refine ⟨rfl, h6, ?_, by decide, by decide, ?_, rfl⟩
    · intro n
      have e : cg.setAttributes.attributes_p =
          ["GROUPTYPE", "REF_LOCATION_VALUE", "REF_LOCATION_UNIT", "REF_LOCATION_FRAME",
            "REF_TIME_VALUE", "REF_TIME_UNIT", "REF_TIME_FRAME", "NOF_COORDINATES", "NOF_AXES",
            "COORDINATE_TYPES"].foldl (fun acc x => setInsert x acc) [] := rfl
      rw [e, mem_foldl_setInsert]
      simp
    · rw [CoordinatesGroup_attributes]
      rfl
  · rintro ⟨hmem, hpos⟩
    obtain ⟨_, h2, h3, _, _, _, hloc, h5, h6, v1, v2, v3⟩ :=
      BF_StationBeam_open_created env bf defaultFloat defaultStrings location name hmem hpos
    rw [hloc, h2, h3, h5, v1, v2, v3]
    refine ⟨rfl, h6, ?_, by decide, by decide, ?_, rfl, rfl, rfl, rfl⟩
    · intro n
      have e : bf.setAttributes.attributes_p =
          ["GROUPTYPE", "NOF_STATIONS", "STATIONS_LIST", "POINT_RA", "POINT_DEC", "TRACKING",
            "POINT_ALTITUDE", "POINT_AZIMUTH", "CLOCK_RATE", "CLOCK_RATE_UNIT", "NOF_SAMPLES",
            "SAMPLING_RATE", "SAMPLING_RATE_UNIT", "SAMPLING_TIME", "SAMPLING_TIME_UNIT",
            "TOTAL_INTEGRATION_TIME", "TOTAL_INTEGRATION_TIME_UNIT", "CHANNELS_PER_SUBBAND",
            "SUBBAND_WIDTH", "SUBBAND_WIDTH_UNIT", "CHANNEL_WIDTH", "CHANNEL_WIDTH_UNIT",
            "NOF_PENCIL_BEAMS"].foldl (fun acc x => setInsert x acc) [] := rfl
      rw [e, mem_foldl_setInsert]
      simp
    · rw [BF_StationBeam_attributes]
      rfl

theorem open_create_writes_registered_attributes_witness :
    (GroupCall.H5Gcreate 1 "Coordinates" ∈
        ((CoordinatesGroup.init (0 : Int)).open emptyParent 1 "Coordinates" true).2.2 ∧
      0 < ((CoordinatesGroup.init (0 : Int)).open emptyParent 1 "Coordinates"
        true).2.1.location_p) ∧
    (GroupCall.H5Gcreate 1 "StationBeam001" ∈
        (BF_StationBeam.init.open emptyParent (0 : Int) [] 1 "StationBeam001" true).2.2 ∧
      0 < (BF_StationBeam.init.open emptyParent (0 : Int) [] 1 "StationBeam001"
        true).2.1.location_p) ∧
    ((CoordinatesGroup.init (0 : Int)).open emptyParent 1 "Coordinates" true).2.1.location_p =
      emptyParent.H5Gcreate 1 "Coordinates" ∧
    (namesWrittenTo ((CoordinatesGroup.init (0 : Int)).open emptyParent 1 "Coordinates"
        true).2.2
      ((CoordinatesGroup.init (0 : Int)).open emptyParent 1 "Coordinates"
        true).2.1.location_p).length = 10 ∧
    valuesWrittenTo (BF_StationBeam.init.open emptyParent (0 : Int) [] 1 "StationBeam001" true).2.2
      (BF_StationBeam.init.open emptyParent (0 : Int) [] 1 "StationBeam001" true).2.1.location_p
      "TRACKING" = [AttrValue.string "OFF"] ∧
    namesWrittenTo (BF_StationBeam.init.open emptyParent (0 : Int) [] 1 "StationBeam001" true).2.2
      1 = [] :=
  ⟨by decide, by decide,
    ((open_create_writes_registered_attributes emptyParent (CoordinatesGroup.init (0 : Int))
      BF_StationBeam.init (0 : Int) [] 1 "Coordinates").1 (by decide)).1,
    ((open_create_writes_registered_attributes emptyParent (CoordinatesGroup.init (0 : Int))
      BF_StationBeam.init (0 : Int) [] 1 "Coordinates").1 (by decide)).2.2.2.2.1,
    ((open_create_writes_registered_attributes emptyParent (CoordinatesGroup.init (0 : Int))
      BF_StationBeam.init (0 : Int) [] 1 "StationBeam001").2 (by decide)).2.2.2.2.2.2.2.2.2,
    by decide⟩

/-- C14: a parent location that holds the group "StationBeam001" (the link
exists and `H5Gopen2` would open it): `BF_StationBeam::open` never issues
`H5Gopen2`, because it looks the name up in the set of attribute names and not
in the set of group names it has just read.  With `create = true` it issues
`H5Gcreate` for the existing group, which fails, and returns false; with
`create = false` it returns false as well; no group is open afterwards. -/
theorem BF_StationBeam_open_does_not_open_existing_group :
    parentWithBeam.H5Lexists 1 "StationBeam001" = 1 ∧
    parentWithBeam.H5Gopen2 1 "StationBeam001" = 21 ∧
    (BF_StationBeam.init.open parentWithBeam (0 : Int) [] 1 "StationBeam001" true).1 = false ∧
    (BF_StationBeam.init.open parentWithBeam (0 : Int) [] 1 "StationBeam001" true).2.2 =
      [GroupCall.h5get_names 1 H5G_GROUP, GroupCall.H5Gcreate 1 "StationBeam001"] ∧
    (BF_StationBeam.init.open parentWithBeam (0 : Int) [] 1 "StationBeam001"
      true).2.1.location_p = -1 ∧
    (BF_StationBeam.init.open parentWithBeam (0 : Int) [] 1 "StationBeam001" false).1 = false ∧
    (BF_StationBeam.init.open parentWithBeam (0 : Int) [] 1 "StationBeam001" false).2.2 =
      [GroupCall.h5get_names 1 H5G_GROUP] ∧
    (BF_StationBeam.init.open parentWithBeam (0 : Int) [] 1 "StationBeam001"
      false).2.1.location_p = 0 := by
  decide


/-! ## dalCommon.cc : the names of the objects attached to a location -/

theorem foldl_range_get {α β : Type} (g : α → β → α) :
    ∀ (cs : List β) (f : α → Nat → α) (a : α),
      (∀ a i c, cs[i]? = some c → f a i = g a c) →
      (List.range cs.length).foldl f a = cs.foldl g a
  | [], _, _, _ => rfl
  | c :: cs, f, a, h => by
    rw [List.length_cons, List.range_succ_eq_map, List.foldl_cons, List.foldl_map,
      h a 0 c (by simp), List.foldl_cons]
    exact foldl_range_get g cs (fun a i => f a (i + 1)) (g a c)
      (fun a i c' hc => h a (i + 1) c' (by simpa using hc))

theorem h5get_name_index_childrenLib (file : Int → Option (List (String × Int)))
    (location : Int) (cs : List (String × Int)) (tmp : String) (idx : Nat) (c : String × Int)
    (hfile : file location = some cs) (hc : cs[idx]? = some c) :
    h5get_name_index (childrenLib file) tmp location idx =
      if 0 < c.1.length then (true, c.1) else (false, tmp) := by
  have hlt : idx < cs.length := by
    rcases Nat.lt_or_ge idx cs.length with h | h
    · exact h
    · rw [List.getElem?_eq_none h] at hc
      exact absurd hc (by simp)
  have h1 : ¬ idx > cs.length := by omega
  unfold h5get_name_index
  simp only [childrenLib, hfile, hc, h1, if_false]
  by_cases h2 : 0 < c.1.length
  · have h3 : ∀ k : Nat, ((k : Int) + 1).toNat - 1 = k := by
      intro k
      omega
    have h4 : (c.1.length : Int) > 0 := by omega
    rw [if_pos h4, if_pos h2, h3]
    show (true, String.mk (List.take c.1.data.length c.1.data)) = (true, c.1)
    rw [List.take_length]
  · have h4 : ¬ (c.1.length : Int) > 0 := by omega
    rw [if_neg h4, if_neg h2]

theorem h5get_names_step_childrenLib (file : Int → Option (List (String × Int)))
    (location : Int) (cs : List (String × Int)) (type : Int) (acc : Bool × String × List String)
    (idx : Nat) (c : String × Int) (hfile : file location = some cs) (hc : cs[idx]? = some c) :
    h5get_names_step (childrenLib file) location type acc idx = childStep type acc c := by
  unfold h5get_names_step childStep
  rw [h5get_name_index_childrenLib file location cs acc.2.1 idx c hfile hc]
  have e : (childrenLib file).H5Gget_objtype_by_idx location idx = c.2 := by
    simp [childrenLib, hfile, hc]
  rw [e]
  by_cases h1 : type = c.2
  · by_cases h2 : 0 < c.1.length
    · simp [h1, h2]
    · simp [h1, h2]
  · simp [h1]

theorem h5get_names_childrenLib (file : Int → Option (List (String × Int))) (location : Int)
    (cs : List (String × Int)) (names : List String) (type : Int)
    (hfile : file location = some cs) :
    h5get_names (childrenLib file) names location type =
      if 0 < cs.length then
        ((cs.foldl (childStep type) (true, "", names)).1,
          (cs.foldl (childStep type) (true, "", names)).2.2)
      else (false, names) := by
  have e : (childrenLib file).H5Gget_num_objs location = (0, cs.length) := by
    simp [childrenLib, hfile]
  unfold h5get_names
  simp only [e]
  rw [if_neg (by decide)]
  by_cases h : 0 < cs.length
  · rw [if_pos h, if_pos h]
    rw [foldl_range_get (childStep type) cs _ _
      (fun a i c hc => h5get_names_step_childrenLib file location cs type a i c hfile hc)]
  · rw [if_neg h, if_neg h]

theorem childStep_foldl_mem (type : Int) (n : String) (cs : List (String × Int))
    (acc : Bool × String × List String) :
    n ∈ (cs.foldl (childStep type) acc).2.2 ↔
      n ∈ acc.2.2 ∨ ∃ c ∈ cs, type = c.2 ∧ 0 < c.1.length ∧ c.1 = n := by
  induction cs generalizing acc with
  | nil => simp
  | cons c cs ih =>
    rw [List.foldl_cons, ih]
    unfold childStep
    by_cases h1 : type = c.2
    · by_cases h2 : 0 < c.1.length
      · simp only [if_pos h1, if_pos h2, mem_setInsert, List.mem_cons, exists_eq_or_imp]
        constructor
        · rintro ((h | h) | h)
          · exact Or.inr (Or.inl ⟨h1, h2, h.symm⟩)
          · exact Or.inl h
          · exact Or.inr (Or.inr h)
        · rintro (h | ⟨_, _, h⟩ | h)
          · exact Or.inl (Or.inr h)
          · exact Or.inl (Or.inl h.symm)
          · exact Or.inr h
      · simp only [if_pos h1, if_neg h2, List.mem_cons, exists_eq_or_imp]
        constructor
        · rintro (h | h)
          · exact Or.inl h
          · exact Or.inr (Or.inr h)
        · rintro (h | ⟨_, h, _⟩ | h)
          · exact Or.inl h
          · exact absurd h h2
          · exact Or.inr h
    · simp only [if_neg h1, List.mem_cons, exists_eq_or_imp]
      constructor
      · rintro (h | h)
        · exact Or.inl h
        · exact Or.inr (Or.inr h)
      · rintro (h | ⟨h, _, _⟩ | h)
        · exact Or.inl h
        · exact absurd h h1
        · exact Or.inr h

theorem childStep_foldl_status (type : Int) (cs : List (String × Int))
    (acc : Bool × String × List String) (hacc : acc.1 = true)
    (h : ∀ c ∈ cs, type = c.2 → 0 < c.1.length) :
    (cs.foldl (childStep type) acc).1 = true := by
  induction cs generalizing acc with
  | nil => exact hacc
  | cons c cs ih =>
    rw [List.foldl_cons]
    refine ih _ ?_ (fun c' hc' => h c' (List.mem_cons_of_mem c hc'))
    unfold childStep
    by_cases h1 : type = c.2
    · rw [if_pos h1, if_pos (h c (List.mem_cons_self c cs) h1)]
    · rw [if_neg h1]
      exact hacc

theorem h5get_names_step_sorted (lib : H5GLib) (locationID : Int) (type : Int)
    (l : List Nat) (acc : Bool × String × List String) (h : acc.2.2.Sorted StringLt) :
    (l.foldl (h5get_names_step lib locationID type) acc).2.2.Sorted StringLt := by
  induction l generalizing acc with
  | nil => exact h
  | cons i l ih =>
    rw [List.foldl_cons]
    refine ih _ ?_
    unfold h5get_names_step
    dsimp only
    split_ifs
    · exact setInsert_sorted _ _ h
    · exact h
    · exact h

theorem h5get_names_sorted (lib : H5GLib) (names : List String) (locationID : Int)
    (type : Int) (h : names.Sorted StringLt) :
    (h5get_names lib names locationID type).2.Sorted StringLt := by
  unfold h5get_names
  dsimp only
  split_ifs
  · exact h
  · exact h5get_names_step_sorted lib locationID type _ _ h
  · exact h

theorem resize_length (v : List String) (n : Nat) : (resize v n).length = n := by
  unfold resize
  rw [List.length_append, List.length_take, List.length_replicate]
  omega

theorem copyFrom_eq (s d : List String) (h : d.length = s.length) : copyFrom s d = s := by
  induction s generalizing d with
  | nil =>
    cases d with
    | nil => rfl
    | cons y ys => simp at h
  | cons x xs ih =>
    cases d with
    | nil => simp at h
    | cons y ys =>
      rw [copyFrom, ih ys (by simpa using h)]

theorem h5get_names_vector_eq (lib : H5GLib) (names : List String) (location_id : Int)
    (type : Int) :
    h5get_names_vector lib names location_id type = h5get_names lib [] location_id type := by
  unfold h5get_names_vector
  dsimp only
  rw [copyFrom_eq _ _ (resize_length _ _)]

theorem namesOfType_mem (type : Int) (cs : List (String × Int)) (n : String) :
    n ∈ namesOfType type cs ↔ (n, type) ∈ cs := by
  unfold namesOfType
  simp only [List.mem_map, List.mem_filter, decide_eq_true_eq]
  constructor
  · rintro ⟨c, ⟨hc, ht⟩, hn⟩
    rw [← hn, ← ht]
    exact hc
  · intro h
    exact ⟨(n, type), ⟨h, rfl⟩, rfl⟩

/-- C15 (zero children): for a valid location without attached objects
`h5get_names (names, location, H5G_GROUP)`, called with an empty set, leaves
the set empty and returns false, although no library call reported an error. -/
theorem h5get_names_false_without_children :
    (childrenLib noChildren).H5Gget_num_objs 1 = (0, 0) ∧
    h5get_names (childrenLib noChildren) [] 1 H5G_GROUP = (false, []) := by
  decide

/-- C15 (amended): for every valid location whose attached objects `cs` include
groups with pairwise distinct non-empty names (plus any number of other
objects), `h5get_names (names, location, H5G_GROUP)` called with an empty set
yields exactly the names of those groups, once each, in increasing order; it
returns true when the location has at least one attached object and false when
it has none. -/
theorem h5get_names_yields_group_names (file : Int → Option (List (String × Int)))
    (location : Int) (cs : List (String × Int)) (hfile : file location = some cs)
    (hnames : ∀ c ∈ cs, c.2 = H5G_GROUP → c.1 ≠ "")
    (hdistinct : (namesOfType H5G_GROUP cs).Nodup) :
    (h5get_names (childrenLib file) [] location H5G_GROUP).2.Perm (namesOfType H5G_GROUP cs) ∧
    (h5get_names (childrenLib file) [] location H5G_GROUP).2.length
      = (namesOfType H5G_GROUP cs).length ∧
    (h5get_names (childrenLib file) [] location H5G_GROUP).2.Sorted StringLt ∧
    (cs ≠ [] → (h5get_names (childrenLib file) [] location H5G_GROUP).1 = true) ∧
    (cs = [] → h5get_names (childrenLib file) [] location H5G_GROUP = (false, [])) := by
  have hpos : ∀ c ∈ cs, H5G_GROUP = c.2 → 0 < c.1.length := by
    intro c hc ht
    have h1 := hnames c hc ht.symm
    rcases Nat.eq_zero_or_pos c.1.length with h0 | h0
    · exact absurd (String.ext (List.length_eq_zero.1 h0)) h1
    · exact h0
  have hsorted := h5get_names_sorted (childrenLib file) [] location H5G_GROUP List.sorted_nil
  have hperm : (h5get_names (childrenLib file) [] location H5G_GROUP).2.Perm
      (namesOfType H5G_GROUP cs) := by
    refine (List.perm_ext_iff_of_nodup (sorted_nodup _ hsorted) hdistinct).2 ?_
    intro n
    rw [namesOfType_mem, h5get_names_childrenLib file location cs [] H5G_GROUP hfile]
    by_cases h : 0 < cs.length
    · rw [if_pos h]
      dsimp only
      rw [childStep_foldl_mem]
      constructor
      · rintro (h | ⟨c, hc, ht, _, hn⟩)
        · simp at h
        · have e : c = (n, H5G_GROUP) := Prod.ext hn ht.symm
          rw [← e]
          exact hc
      · intro hm
        exact Or.inr ⟨(n, H5G_GROUP), hm, rfl, hpos _ hm rfl, rfl⟩
    · have e : cs = [] := List.length_eq_zero.1 (by omega)
      rw [if_neg h, e]
      simp
  refine ⟨hperm, hperm.length_eq, hsorted, ?_, ?_⟩
  · intro hne
    have h : 0 < cs.length := List.length_pos.2 hne
    rw [h5get_names_childrenLib file location cs [] H5G_GROUP hfile, if_pos h]
    exact childStep_foldl_status H5G_GROUP cs _ rfl hpos
  · intro he
    rw [h5get_names_childrenLib file location cs [] H5G_GROUP hfile, he]
    rfl

theorem h5get_names_yields_group_names_witness :
    threeChildren 1 =
      some [("Station002", H5G_GROUP), ("data", H5G_DATASET), ("Station001", H5G_GROUP)] ∧
    (h5get_names (childrenLib threeChildren) [] 1 H5G_GROUP).2.length = 2 ∧
    (h5get_names (childrenLib threeChildren) [] 1 H5G_GROUP).1 = true :=
  ⟨rfl,
    (h5get_names_yields_group_names threeChildren 1
      [("Station002", H5G_GROUP), ("data", H5G_DATASET), ("Station001", H5G_GROUP)] rfl
      (by decide) (by decide)).2.1,
    (h5get_names_yields_group_names threeChildren 1
      [("Station002", H5G_GROUP), ("data", H5G_DATASET), ("Station001", H5G_GROUP)] rfl
      (by decide) (by decide)).2.2.2.1 (by decide)⟩

/-- C16: for every library, location and object type the vector produced by
`h5get_names (std::vector<std::string>&, location, type)` is strictly
increasing in the order of `std::string` (hence duplicate-free), is the content
of the set the set-valued `h5get_names` yields for the same arguments, with the
same status, and does not depend on the prior content of the vector; and for
two files whose attached objects at the location are permutations of each
other the vectors are equal. -/
theorem h5get_names_vector_sorted_set (lib : H5GLib) (names names' : List String)
    (location : Int) (type : Int) :
    (h5get_names_vector lib names location type).2.Sorted StringLt ∧
    (h5get_names_vector lib names location type).2.Nodup ∧
    h5get_names_vector lib names location type = h5get_names lib [] location type ∧
    h5get_names_vector lib names' location type = h5get_names_vector lib names location type ∧
    (∀ (file file' : Int → Option (List (String × Int))) (cs cs' : List (String × Int)),
      file location = some cs → file' location = some cs' → cs.Perm cs' →
      (h5get_names_vector (childrenLib file) names location type).2 =
        (h5get_names_vector (childrenLib file') names' location type).2) := by
  have hs : ∀ (l : H5GLib) (v : List String),
      (h5get_names_vector l v location type).2.Sorted StringLt := by
    intro l v
    rw [h5get_names_vector_eq]
    exact h5get_names_sorted l [] location type List.sorted_nil
  refine ⟨hs lib names, sorted_nodup _ (hs lib names), h5get_names_vector_eq _ _ _ _, ?_, ?_⟩
  · rw [h5get_names_vector_eq, h5get_names_vector_eq]
  · intro file file' cs cs' hfile hfile' hperm
    refine sorted_eq_of_mem_iff _ _ (hs _ _) (hs _ _) ?_
    intro n
    rw [h5get_names_vector_eq, h5get_names_vector_eq,
      h5get_names_childrenLib file location cs [] type hfile,
      h5get_names_childrenLib file' location cs' [] type hfile', hperm.length_eq]
    by_cases h : 0 < cs'.length
    · rw [if_pos h, if_pos h]
      dsimp only
      rw [childStep_foldl_mem, childStep_foldl_mem]
      constructor
      · rintro (h | ⟨c, hc, hr⟩)
        · exact Or.inl h
        · exact Or.inr ⟨c, hperm.mem_iff.1 hc, hr⟩
      · rintro (h | ⟨c, hc, hr⟩)
        · exact Or.inl h
        · exact Or.inr ⟨c, hperm.mem_iff.2 hc, hr⟩
    · rw [if_neg h, if_neg h]

theorem h5get_names_vector_sorted_set_witness :
    threeChildren 1 =
      some [("Station002", H5G_GROUP), ("data", H5G_DATASET), ("Station001", H5G_GROUP)] ∧
    threeChildrenReordered 1 =
      some [("Station001", H5G_GROUP), ("Station002", H5G_GROUP), ("data", H5G_DATASET)] ∧
    (h5get_names_vector (childrenLib threeChildren) ["x", "y", "z"] 1 H5G_GROUP).2 =
      (h5get_names_vector (childrenLib threeChildrenReordered) [] 1 H5G_GROUP).2 :=
  ⟨rfl, rfl,
    (h5get_names_vector_sorted_set (childrenLib threeChildren) ["x", "y", "z"] [] 1
      H5G_GROUP).2.2.2.2 threeChildren threeChildrenReordered
      [("Station002", H5G_GROUP), ("data", H5G_DATASET), ("Station001", H5G_GROUP)]
      [("Station001", H5G_GROUP), ("Station002", H5G_GROUP), ("data", H5G_DATASET)] rfl rfl
      (by decide)⟩

/-! ## dalGroup.cc : member names -/

theorem iterate_dalGroup_file_info (lib : H5IterLib) (gid : Int) (ms : List String)
    (data : List String) (hinfo : ∀ m ∈ ms, (lib.H5Gget_objinfo gid m).1 ≤ 0) :
    (iterate (dalGroup_file_info lib) gid ms data).2 =
      data ++ ms.filter (fun m => (lib.H5Gget_objinfo gid m).2 = H5G_DATASET) := by
  induction ms generalizing data with
  | nil => simp [iterate]
  | cons m ms ih =>
    have h1 : ¬ (lib.H5Gget_objinfo gid m).1 > 0 := by
      have := hinfo m (List.mem_cons_self m ms)
      omega
    have ih' := fun d => ih d (fun m' hm' => hinfo m' (List.mem_cons_of_mem m hm'))
    unfold iterate
    by_cases h2 : (lib.H5Gget_objinfo gid m).2 = H5G_DATASET
    · simp [dalGroup_file_info, h1, h2, ih']
    · simp [dalGroup_file_info, h1, h2, ih']

/-- C17 (groups are not listed): for the group "/Station001" with the child
groups "a" and "b" and the dataset "d", `dalGroup::getMemberNames` returns only
"d"; with the two child groups alone it returns the empty list although the
group has members and the file handle is valid. -/
theorem getMemberNames_omits_child_groups :
    (groupFile [("a", H5G_GROUP), ("b", H5G_GROUP), ("d", H5G_DATASET)]).H5Iis_valid 1 = true ∧
    getMemberNames (groupFile [("a", H5G_GROUP), ("b", H5G_GROUP), ("d", H5G_DATASET)]) 1
      "/Station001" = ["d"] ∧
    getMemberNames (groupFile [("a", H5G_GROUP), ("b", H5G_GROUP)]) 1 "/Station001" = [] := by
  decide

/-- C17 (amended): for every group that `H5Giterate` can visit, with members
`ms`, and for which `H5Gget_objinfo` reports no positive status,
`dalGroup::getMemberNames` returns the names of the members that are datasets,
in iteration order, when the file handle is valid, and the empty list when the
file handle is invalid. -/
theorem getMemberNames_lists_datasets (lib : H5IterLib) (itsFileID : Int)
    (groupname_full : String) (gid : Int) (ms : List String)
    (hmembers : lib.members itsFileID groupname_full = some (gid, ms))
    (hinfo : ∀ m ∈ ms, (lib.H5Gget_objinfo gid m).1 ≤ 0) :
    getMemberNames lib itsFileID groupname_full =
      if lib.H5Iis_valid itsFileID then
        ms.filter (fun m => (lib.H5Gget_objinfo gid m).2 = H5G_DATASET)
      else [] := by
  unfold getMemberNames H5Giterate
  dsimp only
  rw [hmembers]
  dsimp only
  rw [iterate_dalGroup_file_info lib gid ms [] hinfo, List.nil_append]

theorem getMemberNames_lists_datasets_witness :
    (groupFile [("a", H5G_GROUP), ("d", H5G_DATASET), ("e", H5G_DATASET)]).members 1
      "/Station001" = some (5, ["a", "d", "e"]) ∧
    getMemberNames (groupFile [("a", H5G_GROUP), ("d", H5G_DATASET), ("e", H5G_DATASET)]) 1
      "/Station001" =
      if (groupFile [("a", H5G_GROUP), ("d", H5G_DATASET), ("e", H5G_DATASET)]).H5Iis_valid 1
      then
        ["a", "d", "e"].filter (fun m =>
          ((groupFile [("a", H5G_GROUP), ("d", H5G_DATASET), ("e", H5G_DATASET)]).H5Gget_objinfo
            5 m).2 = H5G_DATASET)
      else [] :=
  ⟨by decide,
    getMemberNames_lists_datasets
      (groupFile [("a", H5G_GROUP), ("d", H5G_DATASET), ("e", H5G_DATASET)]) 1 "/Station001" 5
      ["a", "d", "e"] (by decide) (by decide)⟩



/-! ## dalCommon.h : array operations -/

theorem product_eq_prod {T : Type} [MonoidWithZero T] (vec : List T) (h : vec ≠ []) :
    product vec = vec.prod := by
  unfold product
  cases vec with
  | nil => exact absurd rfl h
  | cons x xs =>
    rw [if_neg (by simp), List.prod_eq_foldl]

/-- C24 (empty vector): `product` of the empty vector is `T (0)`, not 1, so
that `product ([] ++ [2]) = 2` differs from `product ([]) * product ([2]) = 0`. -/
theorem product_empty_is_zero :
    product ([] : List Int) = 0 ∧
    product (([] : List Int) ++ [2]) = 2 ∧
    product ([] : List Int) * product [(2 : Int)] = 0 := by
  decide

theorem product_foldl {T : Type} [Mul T] [Zero T] [One T] (vec : List T) (h : vec ≠ []) :
    product vec = vec.foldl (fun tmp x => tmp * x) 1 := by
  unfold product
  cases vec with
  | nil => exact absurd rfl h
  | cons x xs => rw [if_neg (by simp)]

/-- C24 (amended): for every element type `T`, with no assumption on its
multiplication, `product (a)` of a non-empty vector is the left-to-right
product `((1 * a[0]) * a[1]) * ...` of its elements, `product (a ++ b)`
continues the product of `a` over the elements of `b`, and the empty vector
gives 0.  For an element type `M` whose multiplication is associative with
identity 1 (exact or modular integer arithmetic), `product` of a non-empty
vector is the product of its elements and
`product (c ++ d) = product (c) * product (d)` for all non-empty `c` and `d`. -/
theorem product_append_nonempty {T : Type} [Mul T] [Zero T] [One T] {M : Type}
    [MonoidWithZero M] (a b : List T) (c d : List M) (ha : a ≠ []) (hc : c ≠ [])
    (hd : d ≠ []) :
    product a = a.foldl (fun tmp x => tmp * x) 1 ∧
    product (a ++ b) = b.foldl (fun tmp x => tmp * x) (product a) ∧
    product ([] : List T) = 0 ∧
    product c = c.prod ∧ product d = d.prod ∧
    product (c ++ d) = product c * product d ∧
    product ([] : List M) = 0 := by
  have hab : a ++ b ≠ [] := by
    intro h
    exact ha (List.append_eq_nil.1 h).1
  have hcd : c ++ d ≠ [] := by
    intro h
    exact hc (List.append_eq_nil.1 h).1
  refine ⟨product_foldl a ha, ?_, rfl, product_eq_prod c hc, product_eq_prod d hd, ?_, rfl⟩
  · rw [product_foldl _ hab, product_foldl a ha, List.foldl_append]
  · rw [product_eq_prod c hc, product_eq_prod d hd, product_eq_prod _ hcd, List.prod_append]

theorem product_append_nonempty_witness :
    ([2] : List Int) ≠ [] ∧ ([3, 4] : List Int) ≠ [] ∧
    product (([2] : List Int) ++ [3, 4]) =
      ([3, 4] : List Int).foldl (fun tmp x => tmp * x) (product ([2] : List Int)) ∧
    product (([2] : List Int) ++ [3, 4]) = product ([2] : List Int) * product ([3, 4] : List Int) :=
  ⟨by decide, by decide,
    (product_append_nonempty ([2] : List Int) [3, 4] ([2] : List Int) [3, 4] (by decide)
      (by decide) (by decide)).2.1,
    (product_append_nonempty ([2] : List Int) [3, 4] ([2] : List Int) [3, 4] (by decide)
      (by decide) (by decide)).2.2.2.2.2.1⟩

/-- C23 (the code at the failing input): on a vector that already holds four
elements 5, `IdentityMatrix (data, 2)` only writes the diagonal and leaves
`[1, 5, 5, 1]`, which is not the identity matrix; on an empty vector it gives
`[1, 0, 0, 1]`. -/
theorem IdentityMatrix_keeps_prior_content :
    IdentityMatrix ([5, 5, 5, 5] : List Int) 2 = some [1, 5, 5, 1] ∧
    IdentityMatrix ([] : List Int) 2 = some [1, 0, 0, 1] := by
  decide

/-! ## dalCommon.cc : the name of an object -/

theorem h5get_name_status (lib : H5NameLib) (name : String) (object_id : Int)
    (absolute : Bool) :
    (h5get_name lib name object_id absolute).1 =
      decide (lib.H5Iget_type object_id ≠ H5I_BADID) := by
  unfold h5get_name
  dsimp only
  split_ifs <;> simp_all

/-- C25 (the code at the failing input): for a valid group identifier whose name
the library reports with zero characters, or with a negative length,
`h5get_name` leaves `name` unchanged and returns true; for an identifier of a bad
type it returns false. -/
theorem h5get_name_true_without_name :
    (namelessLib 0).H5Iget_type 5 = H5I_GROUP ∧
    (namelessLib 0).H5Iget_name 5 10 = (0, "") ∧
    h5get_name (namelessLib 0) "old" 5 true = (true, "old") ∧
    (namelessLib (-1)).H5Iget_name 5 10 = (-1, "") ∧
    h5get_name (namelessLib (-1)) "old" 5 true = (true, "old") ∧
    h5get_name (namelessLib 0) "old" 7 true = (false, "old") := by
  decide

/-! ## BF_StationBeam.cc : the name of a station beam -/

/-- C26 (the code at the failing input): `getName (3)` is "StationBeam003"; for
the index 1000000000 the formatted number has ten characters, which with the
terminator do not fit into `char uid[10]`. -/
theorem getName_overflows_buffer :
    BF_StationBeam.getName 3 = some "StationBeam003" ∧
    sprintf_03d (toInt32 1000000000) = "1000000000".data ∧
    (sprintf_03d (toInt32 1000000000)).length + 1 = 11 ∧
    BF_StationBeam.getName 1000000000 = none := by
  decide

/-! ## HDF5Dataset.cc : the recursion of adjustChunksize ends -/

theorem adjustChunksizeFuel_mono (fuel k datatypeSize : Nat) (c r : List Nat)
    (h : adjustChunksizeFuel fuel datatypeSize c = some r) :
    adjustChunksizeFuel (fuel + k) datatypeSize c = some r := by
  induction fuel generalizing c with
  | zero => simp [adjustChunksizeFuel] at h
  | succ fuel ih =>
    rw [Nat.add_right_comm, adjustChunksizeFuel]
    rw [adjustChunksizeFuel] at h
    split
    · rename_i hbig
      rw [if_pos hbig] at h
      exact ih _ h
    · rename_i hbig
      rw [if_neg hbig] at h
      exact h

/-- C27: for every element size below `2^32` reported by the library and every
chunk shape of any rank (rank 0 included) with axes below `2^64`, the recursion
of `HDF5Dataset::adjustChunksize` ends: there is a chunk shape `r` that the
recursion returns with every bound of at least `adjustDepth` = 65 nested calls,
of the rank of the original one and with a 64-bit byte size of at most
`0xffffffff`; and `adjustChunksize` returns (the status true) with that chunk
shape. -/
theorem adjustChunksize_terminates (env : H5Env) (ds : HDF5Dataset)
    (hE : env.H5Tget_size ds.itsDatatype < 2 ^ 32)
    (hc : ∀ x ∈ ds.itsChunking, x < 2 ^ 64) :
    ∃ r, (∀ fuel, adjustDepth ≤ fuel →
        adjustChunksizeFuel fuel (env.H5Tget_size ds.itsDatatype) ds.itsChunking = some r) ∧
      r.length = ds.itsChunking.length ∧
      chunkSize (env.H5Tget_size ds.itsDatatype) r ≤ 0xffffffff ∧
      ds.adjustChunksize env = some (true, { ds with itsChunking := r }) := by
  have hw : wrap64 (env.H5Tget_size ds.itsDatatype) ≤ 0xffffffff := by
    unfold wrap64
    have := Nat.mod_le (env.H5Tget_size ds.itsDatatype) (2 ^ 64)
    omega
  obtain ⟨r, hr, hlen⟩ :=
    adjustChunksizeFuel_enough (env.H5Tget_size ds.itsDatatype) ds.itsChunking hc (Or.inr hw)
  refine ⟨r, ?_, hlen, adjustChunksizeFuel_chunkSize _ _ _ _ hr, ?_⟩
  · intro fuel hfuel
    obtain ⟨k, rfl⟩ := Nat.exists_eq_add_of_le hfuel
    exact adjustChunksizeFuel_mono _ k _ _ _ hr
  · unfold HDF5Dataset.adjustChunksize
    rw [hr]

theorem adjustChunksize_terminates_witness :
    (sampleEnv 4).H5Tget_size HDF5Dataset.init.itsDatatype < 2 ^ 32 ∧
    (∀ x ∈ ({ HDF5Dataset.init with
        itsChunking := [4294967296, 4294967296] } : HDF5Dataset).itsChunking, x < 2 ^ 64) ∧
    ∃ r, (∀ fuel, adjustDepth ≤ fuel →
        adjustChunksizeFuel fuel
          ((sampleEnv 4).H5Tget_size ({ HDF5Dataset.init with
            itsChunking := [4294967296, 4294967296] } : HDF5Dataset).itsDatatype)
          ({ HDF5Dataset.init with
            itsChunking := [4294967296, 4294967296] } : HDF5Dataset).itsChunking = some r) ∧
      r.length = ({ HDF5Dataset.init with
            itsChunking := [4294967296, 4294967296] } : HDF5Dataset).itsChunking.length ∧
      chunkSize ((sampleEnv 4).H5Tget_size ({ HDF5Dataset.init with
            itsChunking := [4294967296, 4294967296] } : HDF5Dataset).itsDatatype) r
        ≤ 0xffffffff ∧
      ({ HDF5Dataset.init with
            itsChunking := [4294967296, 4294967296] } : HDF5Dataset).adjustChunksize (sampleEnv 4)
        = some (true, { ({ HDF5Dataset.init with
            itsChunking := [4294967296, 4294967296] } : HDF5Dataset) with itsChunking := r }) :=
  ⟨by decide, by decide,
    adjustChunksize_terminates (sampleEnv 4)
      { HDF5Dataset.init with itsChunking := [4294967296, 4294967296] } (by decide)
      (by decide)⟩



/-! ## dalCommon.cc : swapbytes -/

theorem swapbytes_loop {T : Type} (addr : List T) (n : Nat) (hlen : n ≤ addr.length) (k : Nat)
    (hk : k ≤ n / 2) :
    ∃ L, (List.range k).foldlM (swapbytes_step (n : Int)) addr = some L ∧
      L.length = addr.length ∧
      ∀ j, L[j]? = if j < k ∨ (n - k ≤ j ∧ j < n) then addr[n - 1 - j]? else addr[j]? := by
  induction k with
  | zero =>
    refine ⟨addr, rfl, rfl, ?_⟩
    intro j
    have : ¬ (j < 0 ∨ (n - 0 ≤ j ∧ j < n)) := by omega
    rw [if_neg this]
  | succ k ih =>
    obtain ⟨L, hL, hlenL, hget⟩ := ih (by omega)
    have hk1 : k < L.length := by omega
    have hk2 : n - 1 - k < L.length := by omega
    have e1 : L[k]? = addr[k]? := by
      rw [hget k, if_neg (by omega)]
    have e2 : L[n - 1 - k]? = addr[n - 1 - k]? := by
      rw [hget (n - 1 - k), if_neg (by omega)]
    have a1 : addr[k]? = some addr[k] := List.getElem?_eq_getElem (by omega)
    have a2 : addr[n - 1 - k]? = some addr[n - 1 - k] := List.getElem?_eq_getElem (by omega)
    have hj : ¬ ((n : Int) - ((k : Int) + 1) < 0) := by omega
    have hj2 : ((n : Int) - ((k : Int) + 1)).toNat = n - 1 - k := by omega
    refine ⟨(L.set k addr[n - 1 - k]).set (n - 1 - k) addr[k], ?_, ?_, ?_⟩
    · rw [List.range_succ, List.foldlM_append, hL]
      simp only [List.foldlM_cons, List.foldlM_nil, Option.bind_eq_bind, Option.some_bind,
        swapbytes_step, if_neg hj, hj2, e1, e2, a1, a2, Option.bind_some]
      rfl
    · rw [List.length_set, List.length_set, hlenL]
    · intro j
      have hset : ((L.set k addr[n - 1 - k]).set (n - 1 - k) addr[k])[j]? =
          if n - 1 - k = j then some addr[k]
          else if k = j then some addr[n - 1 - k] else L[j]? := by
        rw [List.getElem?_set, List.getElem?_set, List.length_set, if_pos hk2, if_pos hk1]
      rw [hset]
      by_cases c1 : n - 1 - k = j
      · have hc : j < k + 1 ∨ (n - (k + 1) ≤ j ∧ j < n) := by omega
        have hi : n - 1 - j = k := by omega
        rw [if_pos c1, if_pos hc, hi, a1]
      · rw [if_neg c1]
        by_cases c2 : k = j
        · have hc : j < k + 1 ∨ (n - (k + 1) ≤ j ∧ j < n) := by omega
          rw [if_pos c2, if_pos hc, ← c2, a2]
        · rw [if_neg c2, hget j]
          by_cases c3 : j < k ∨ (n - k ≤ j ∧ j < n)
          · have hc : j < k + 1 ∨ (n - (k + 1) ≤ j ∧ j < n) := by omega
            rw [if_pos c3, if_pos hc]
          · have hc : ¬ (j < k + 1 ∨ (n - (k + 1) ≤ j ∧ j < n)) := by omega
            rw [if_neg c3, if_neg hc]

/-- C22: for every array `addr` and every `n` with `0 ≤ n ≤ 127` and
`n ≤ length (addr)`, `swapbytes (addr, n)` ends without touching an element
outside the array and leaves the first `n` elements reversed, followed by the
unchanged rest: the new `addr[i]` is the old `addr[n-1-i]` for `i < n`, every
element at an index `≥ n` is unchanged, and for `n ≤ 1` the array is
unchanged. -/
theorem swapbytes_reverses_prefix {T : Type} (addr : List T) (n : Nat) (_hn : n ≤ 127)
    (hlen : n ≤ addr.length) :
    ∃ L, swapbytes addr (n : Int) = some L ∧
      L = (addr.take n).reverse ++ addr.drop n ∧
      L.length = addr.length ∧
      (∀ i, i < n → L[i]? = addr[n - 1 - i]?) ∧
      (∀ i, n ≤ i → L[i]? = addr[i]?) ∧
      (n ≤ 1 → L = addr) := by
  obtain ⟨L, hL, hlenL, hget⟩ := swapbytes_loop addr n hlen (n / 2) (Nat.le_refl _)
  have hlow : ∀ i, i < n → L[i]? = addr[n - 1 - i]? := by
    intro i hi
    rw [hget i]
    by_cases c : i < n / 2 ∨ (n - n / 2 ≤ i ∧ i < n)
    · rw [if_pos c]
    · rw [if_neg c]
      have : n - 1 - i = i := by omega
      rw [this]
  have hhigh : ∀ i, n ≤ i → L[i]? = addr[i]? := by
    intro i hi
    rw [hget i, if_neg (by omega)]
  have hrev : L = (addr.take n).reverse ++ addr.drop n := by
    refine List.ext_getElem? ?_
    intro i
    rw [List.getElem?_append, List.length_reverse, List.length_take, Nat.min_eq_left hlen]
    by_cases c : i < n
    · rw [if_pos c, hlow i c, List.getElem?_reverse (by simpa [Nat.min_eq_left hlen] using c),
        List.length_take, Nat.min_eq_left hlen, List.getElem?_take, if_pos (by omega)]
    · rw [if_neg c, hhigh i (by omega), List.getElem?_drop]
      congr 1
      omega
  refine ⟨L, ?_, hrev, hlenL, hlow, hhigh, ?_⟩
  · unfold swapbytes
    have : (Int.tdiv (n : Int) 2).toNat = n / 2 := by
      rw [show (2 : Int) = ((2 : Nat) : Int) from rfl, ← Int.ofNat_tdiv, Int.toNat_ofNat]
    rw [this, hL]
  · intro h1
    refine List.ext_getElem? ?_
    intro i
    rw [hget i, if_neg (by omega)]

theorem swapbytes_reverses_prefix_witness :
    (8 : Nat) ≤ 127 ∧ 8 ≤ ([1, 2, 3, 4, 5, 6, 7, 8, 9] : List Nat).length ∧
    ∃ L, swapbytes ([1, 2, 3, 4, 5, 6, 7, 8, 9] : List Nat) ((8 : Nat) : Int) = some L ∧
      L = (([1, 2, 3, 4, 5, 6, 7, 8, 9] : List Nat).take 8).reverse
        ++ ([1, 2, 3, 4, 5, 6, 7, 8, 9] : List Nat).drop 8 ∧
      L.length = ([1, 2, 3, 4, 5, 6, 7, 8, 9] : List Nat).length ∧
      (∀ i, i < 8 → L[i]? = ([1, 2, 3, 4, 5, 6, 7, 8, 9] : List Nat)[8 - 1 - i]?) ∧
      (∀ i, 8 ≤ i → L[i]? = ([1, 2, 3, 4, 5, 6, 7, 8, 9] : List Nat)[i]?) ∧
      (8 ≤ 1 → L = [1, 2, 3, 4, 5, 6, 7, 8, 9]) :=
  ⟨by decide, by decide,
    swapbytes_reverses_prefix ([1, 2, 3, 4, 5, 6, 7, 8, 9] : List Nat) 8 (by decide)
      (by decide)⟩



/-! ## dalCommon.cc : crc16 -/

theorem two_pow_mul_xor (k a b : Nat) : 2 ^ k * (a ^^^ b) = 2 ^ k * a ^^^ 2 ^ k * b := by
  refine Nat.eq_of_testBit_eq ?_
  intro i
  simp only [Nat.testBit_mul_pow_two, Nat.testBit_xor]
  by_cases h : i ≥ k <;> simp [h]

theorem two_mul_xor (a b : Nat) : 2 * (a ^^^ b) = 2 * a ^^^ 2 * b := by
  have h := two_pow_mul_xor 1 a b
  simpa using h

theorem two_pow_mul_add_eq_xor (k a b : Nat) (h : b < 2 ^ k) :
    2 ^ k * a + b = 2 ^ k * a ^^^ b := by
  refine Nat.eq_of_testBit_eq ?_
  intro i
  rw [Nat.testBit_mul_pow_two_add a h, Nat.testBit_xor, Nat.testBit_mul_pow_two]
  by_cases c : i < k
  · have : ¬ i ≥ k := by omega
    simp [c, this]
  · have hb : b.testBit i = false :=
      Nat.testBit_lt_two_pow (Nat.lt_of_lt_of_le h (Nat.pow_le_pow_right (by decide) (by omega)))
    have : i ≥ k := by omega
    simp [c, this, hb]

theorem xor_cancel (a b : Nat) : a ^^^ b ^^^ b = a := by
  rw [Nat.xor_assoc, Nat.xor_self, Nat.xor_zero]

theorem xor_eq_iff (a b c : Nat) (h : a = b ^^^ c) : c = a ^^^ b := by
  rw [h, Nat.xor_comm b c, xor_cancel]

theorem testBit_31_iff (D : Nat) (h : D < 2 ^ 32) : D.testBit 31 = true ↔ 2 ^ 31 ≤ D := by
  constructor
  · intro hb
    exact Nat.testBit_implies_ge hb
  · intro hge
    obtain ⟨d, rfl⟩ := Nat.exists_eq_add_of_le hge
    rw [Nat.testBit_two_pow_add_eq, Nat.testBit_lt_two_pow (by omega)]
    rfl

theorem and_bit_31 (D : Nat) (h : D < 2 ^ 32) : D &&& 0x80000000 ≠ 0 ↔ 2 ^ 31 ≤ D := by
  rw [← testBit_31_iff D h]
  constructor
  · intro hne
    obtain ⟨i, hi⟩ := Nat.ne_zero_implies_bit_true hne
    rw [Nat.testBit_and] at hi
    have h1 : D.testBit i = true := by
      cases hD : D.testBit i
      · rw [hD] at hi
        simp at hi
      · rfl
    have h2 : (0x80000000 : Nat).testBit i = true := by
      cases hD : (0x80000000 : Nat).testBit i
      · rw [hD] at hi
        simp at hi
      · rfl
    have h3 : (2 ^ 31 : Nat).testBit i = true := h2
    rw [Nat.testBit_two_pow] at h3
    have h4 : 31 = i := by simpa using h3
    rw [h4]
    exact h1
  · intro hb hzero
    have h1 : (D &&& 0x80000000).testBit 31 = true := by
      rw [Nat.testBit_and, hb]
      decide
    rw [hzero] at h1
    simp at h1

theorem crc16_bit_low (D : Nat) (h : D < 2 ^ 31) : crc16_bit D = 2 * D := by
  have h1 : ¬ D &&& 0x80000000 ≠ 0 := by
    rw [and_bit_31 D (by omega)]
    omega
  have h2 : D &&& 0x7fffffff = D :=
    Nat.and_pow_two_sub_one_of_lt_two_pow (n := 31) h
  unfold crc16_bit
  simp only [if_neg h1, h2, Nat.shiftLeft_eq]
  omega

theorem crc16_bit_high (d : Nat) (h : d < 2 ^ 31) :
    crc16_bit (2 ^ 31 + d) = 2 * d ^^^ 0x80050000 := by
  have h1 : (2 ^ 31 + d) &&& 0x80000000 ≠ 0 := by
    rw [and_bit_31 _ (by omega)]
    omega
  have hc : CRC_div = 2 ^ 31 + 0x40028000 := by decide
  have e1 : 2 ^ 31 + d = 2 ^ 31 * 1 ^^^ d := by
    rw [← two_pow_mul_add_eq_xor 31 1 d h, Nat.mul_one]
  have e2 : 2 ^ 31 + 0x40028000 = 2 ^ 31 * 1 ^^^ 0x40028000 := by
    rw [← two_pow_mul_add_eq_xor 31 1 0x40028000 (by decide), Nat.mul_one]
  have e3 : (2 ^ 31 + d) ^^^ CRC_div = d ^^^ 0x40028000 := by
    rw [hc, e1, e2]
    calc 2 ^ 31 * 1 ^^^ d ^^^ (2 ^ 31 * 1 ^^^ 0x40028000)
        = (2 ^ 31 * 1 ^^^ 2 ^ 31 * 1) ^^^ (d ^^^ 0x40028000) := by ac_rfl
      _ = d ^^^ 0x40028000 := by rw [Nat.xor_self, Nat.zero_xor]
  have h3 : d ^^^ 0x40028000 < 2 ^ 31 := Nat.xor_lt_two_pow h (by decide)
  have h4 : (d ^^^ 0x40028000) &&& 0x7fffffff = d ^^^ 0x40028000 :=
    Nat.and_pow_two_sub_one_of_lt_two_pow (n := 31) h3
  unfold crc16_bit
  simp only [if_pos h1, e3, h4, Nat.shiftLeft_eq]
  have h5 : (d ^^^ 0x40028000) * 2 ^ 1 % 2 ^ 32 = 2 * (d ^^^ 0x40028000) := by omega
  rw [h5, two_mul_xor]

theorem crc16_bit_lt (D : Nat) : crc16_bit D < 2 ^ 32 := by
  unfold crc16_bit
  exact Nat.mod_lt _ (by decide)

/-- One round of the loop over `j` is one step of the division by `CRC_poly`:
`x * D = D' + e * CRC_poly * x^16` over GF(2), where `e` is the leading
coefficient of `D`. -/
theorem crc16_bit_division (D : Nat) (h : D < 2 ^ 32) :
    2 * D = crc16_bit D ^^^ (if 2 ^ 31 ≤ D then CRC_poly * 2 ^ 16 else 0) := by
  by_cases c : 2 ^ 31 ≤ D
  · obtain ⟨d, rfl⟩ := Nat.exists_eq_add_of_le c
    have hd : d < 2 ^ 31 := by omega
    rw [if_pos c, crc16_bit_high d hd]
    have hx : 2 * d ^^^ 0x80050000 < 2 ^ 32 := Nat.xor_lt_two_pow (by omega) (by decide)
    have e1 : CRC_poly * 2 ^ 16 = 2 ^ 32 * 1 ^^^ 0x80050000 := by decide
    have e2 : 2 * (2 ^ 31 + d) = 2 ^ 32 * 1 ^^^ 2 * d := by
      rw [← two_pow_mul_add_eq_xor 32 1 (2 * d) (by omega)]
      omega
    rw [e1, e2]
    calc 2 ^ 32 * 1 ^^^ 2 * d
        = 2 ^ 32 * 1 ^^^ (2 * d ^^^ (0x80050000 ^^^ 0x80050000)) := by
          rw [Nat.xor_self, Nat.xor_zero]
      _ = 2 * d ^^^ 0x80050000 ^^^ (2 ^ 32 * 1 ^^^ 0x80050000) := by ac_rfl
  · rw [if_neg c, Nat.xor_zero, crc16_bit_low D (by omega)]

theorem crc16_bit_eq (D : Nat) (h : D < 2 ^ 32) :
    crc16_bit D = 2 * D ^^^ (if 2 ^ 31 ≤ D then CRC_poly * 2 ^ 16 else 0) := by
  rw [crc16_bit_division D h, xor_cancel]


theorem clmul_append_one (q : List Bool) (b : Bool) (p : Nat) :
    clmul (q ++ [b]) p = 2 * clmul q p ^^^ (if b then p else 0) := by
  unfold clmul
  rw [List.foldl_append]
  rfl

theorem clmul_two_pow_mul (k : Nat) (q : List Bool) (p : Nat) :
    clmul q (2 ^ k * p) = 2 ^ k * clmul q p := by
  induction q using List.reverseRecOn with
  | nil => rfl
  | append_singleton q b ih =>
    rw [clmul_append_one, clmul_append_one, ih, two_pow_mul_xor]
    cases b
    · simp only [Bool.false_eq_true, if_false, Nat.mul_zero]
      rw [Nat.mul_left_comm]
    · simp only [if_true]
      rw [Nat.mul_left_comm]

theorem clmul_append (q q' : List Bool) (p : Nat) :
    clmul (q ++ q') p = 2 ^ q'.length * clmul q p ^^^ clmul q' p := by
  induction q' using List.reverseRecOn with
  | nil =>
    rw [List.append_nil, List.length_nil, Nat.pow_zero, Nat.one_mul]
    show _ = _ ^^^ 0
    rw [Nat.xor_zero]
  | append_singleton q' b ih =>
    rw [← List.append_assoc, clmul_append_one, clmul_append_one, ih, two_mul_xor,
      List.length_append, List.length_singleton, Nat.pow_succ, Nat.xor_assoc,
      ← Nat.mul_assoc, Nat.mul_comm 2 (2 ^ q'.length)]

theorem crc16_bit_iterate_succ (j D : Nat) :
    (List.range (j + 1)).foldl (fun data _ => crc16_bit data) D =
      crc16_bit ((List.range j).foldl (fun data _ => crc16_bit data) D) := by
  rw [List.range_succ, List.foldl_append]
  rfl

theorem crc16_bit_iterate_lt (j D : Nat) (h : D < 2 ^ 32) :
    (List.range j).foldl (fun data _ => crc16_bit data) D < 2 ^ 32 := by
  cases j with
  | zero => exact h
  | succ j =>
    rw [crc16_bit_iterate_succ]
    exact crc16_bit_lt _

/-- The quotient coefficients collected by `j` rounds of the loop over `j`. -/
theorem crc16_bit_iterate_division (j D : Nat) (h : D < 2 ^ 32) :
    ∃ q : List Bool, q.length = j ∧
      2 ^ j * D = clmul q (CRC_poly * 2 ^ 16) ^^^
        (List.range j).foldl (fun data _ => crc16_bit data) D := by
  induction j with
  | zero =>
    refine ⟨[], rfl, ?_⟩
    show 2 ^ 0 * D = 0 ^^^ D
    rw [Nat.zero_xor, Nat.pow_zero, Nat.one_mul]
  | succ j ih =>
    obtain ⟨q, hq, hD⟩ := ih
    have hlt := crc16_bit_iterate_lt j D h
    refine ⟨q ++ [decide (2 ^ 31 ≤ (List.range j).foldl (fun data _ => crc16_bit data) D)],
      by rw [List.length_append, hq]; rfl, ?_⟩
    rw [crc16_bit_iterate_succ, clmul_append_one, Nat.pow_succ, Nat.mul_comm (2 ^ j) 2,
      Nat.mul_assoc, hD, two_mul_xor, crc16_bit_division _ hlt]
    by_cases c : 2 ^ 31 ≤ (List.range j).foldl (fun data _ => crc16_bit data) D
    · simp only [c, decide_True, if_true]
      ac_rfl
    · simp only [c, decide_False, Bool.false_eq_true, if_false, Nat.xor_zero]

/-- The loop over `j` divides by `CRC_poly`: it leaves `x^16` times the sum of
`D` and a multiple of `CRC_poly`. -/
theorem crc16_bits_division (D : Nat) (h : D < 2 ^ 32) :
    ∃ q : List Bool, q.length = 16 ∧ crc16_bits D = 2 ^ 16 * (D ^^^ clmul q CRC_poly) := by
  obtain ⟨q, hq, hD⟩ := crc16_bit_iterate_division 16 D h
  refine ⟨q, hq, ?_⟩
  rw [Nat.mul_comm CRC_poly (2 ^ 16), clmul_two_pow_mul] at hD
  have h2 := xor_eq_iff _ _ _ hD
  unfold crc16_bits
  rw [h2, two_pow_mul_xor]

theorem crc16_bits_lt (D : Nat) (h : D < 2 ^ 32) : crc16_bits D < 2 ^ 32 :=
  crc16_bit_iterate_lt 16 D h

/-- The loop over `i` keeps `data` of the form `x^16 * R` with `R` of degree
below 16, and `R` is congruent to the message read so far modulo `CRC_poly`. -/
theorem crc16_word_foldl (rest : List Nat) (hw : ∀ w ∈ rest, w < 2 ^ 16) (R₀ M₀ : Nat)
    (q₀ : List Bool) (hR : R₀ < 2 ^ 16) (hM : M₀ = clmul q₀ CRC_poly ^^^ R₀) :
    ∃ (R : Nat) (q : List Bool), rest.foldl crc16_word (2 ^ 16 * R₀) = 2 ^ 16 * R ∧
      R < 2 ^ 16 ∧
      rest.foldl (fun m word => m * 2 ^ 16 + word) M₀ = clmul q CRC_poly ^^^ R := by
  induction rest generalizing R₀ M₀ q₀ with
  | nil => exact ⟨R₀, q₀, rfl, hR, hM⟩
  | cons w rest ih =>
    have hw0 : w < 2 ^ 16 := hw w (List.mem_cons_self w rest)
    have hD : 2 ^ 16 * R₀ + w < 2 ^ 32 := by omega
    obtain ⟨q, hq, hbits⟩ := crc16_bits_division (2 ^ 16 * R₀ + w) hD
    have hword : crc16_word (2 ^ 16 * R₀) w =
        2 ^ 16 * ((2 ^ 16 * R₀ + w) ^^^ clmul q CRC_poly) := by
      unfold crc16_word
      rw [Nat.mod_eq_of_lt hD, hbits]
    have hlt : (2 ^ 16 * R₀ + w) ^^^ clmul q CRC_poly < 2 ^ 16 := by
      have := crc16_bits_lt (2 ^ 16 * R₀ + w) hD
      rw [hbits] at this
      omega
    rw [List.foldl_cons, List.foldl_cons, hword]
    refine ih (fun w' hw' => hw w' (List.mem_cons_of_mem w hw')) _ _ (q₀ ++ q) hlt ?_
    rw [clmul_append, hq, hM, Nat.mul_comm _ (2 ^ 16),
      two_pow_mul_add_eq_xor 16 (clmul q₀ CRC_poly ^^^ R₀) w hw0,
      two_pow_mul_add_eq_xor 16 R₀ w hw0, two_pow_mul_xor]
    calc 2 ^ 16 * clmul q₀ CRC_poly ^^^ 2 ^ 16 * R₀ ^^^ w
        = 2 ^ 16 * clmul q₀ CRC_poly ^^^ (2 ^ 16 * R₀ ^^^ w)
          ^^^ (clmul q CRC_poly ^^^ clmul q CRC_poly) := by
          rw [Nat.xor_self, Nat.xor_zero, Nat.xor_assoc]
      _ = 2 ^ 16 * clmul q₀ CRC_poly ^^^ clmul q CRC_poly
          ^^^ (2 ^ 16 * R₀ ^^^ w ^^^ clmul q CRC_poly) := by ac_rfl

theorem crc16_loop_eq (pre rest : List Nat) (data : Nat) :
    crc16_loop (pre ++ rest) rest.length pre.length data = some (rest.foldl crc16_word data) := by
  induction rest generalizing pre data with
  | nil => rfl
  | cons w rest ih =>
    have e : (pre ++ w :: rest)[pre.length]? = some w := by
      rw [List.getElem?_append_right (Nat.le_refl _)]
      simp
    rw [List.length_cons, crc16_loop, e]
    have h2 := ih (pre ++ [w]) (crc16_word data w)
    rw [List.append_assoc, List.length_append, List.length_singleton] at h2
    exact h2

theorem crc16_cons (first : Nat) (rest : List Nat) (h : first < 2 ^ 16) :
    crc16 (first :: rest) (first :: rest).length =
      some (rest.foldl crc16_word (2 ^ 16 * first) >>> 16 % 2 ^ 16) := by
  have h1 : first &&& 0x7fffffff = first :=
    Nat.and_pow_two_sub_one_of_lt_two_pow (n := 31) (by omega)
  have h2 : (first <<< 16) % 2 ^ 32 = 2 ^ 16 * first := by
    rw [Nat.shiftLeft_eq]
    omega
  have h3 := crc16_loop_eq [first] rest (2 ^ 16 * first)
  unfold crc16
  simp only [List.getElem?_cons_zero, h1, h2, List.length_cons, Nat.add_sub_cancel]
  rw [show first :: rest = [first] ++ rest from rfl, show (1 : Nat) = [first].length from rfl, h3]
  rfl

theorem crc16_of_state (first : Nat) (rest : List Nat) (R : Nat) (h : first < 2 ^ 16)
    (hR : R < 2 ^ 16) (hS : rest.foldl crc16_word (2 ^ 16 * first) = 2 ^ 16 * R) :
    crc16 (first :: rest) (first :: rest).length = some R := by
  rw [crc16_cons first rest h, hS, Nat.shiftRight_eq_div_pow]
  congr 1
  omega


theorem clmul_cons_false (q : List Bool) (p : Nat) : clmul (false :: q) p = clmul q p := by
  unfold clmul
  rw [List.foldl_cons]
  simp only [Nat.mul_zero, Bool.false_eq_true, if_false, Nat.xor_zero]

theorem clmul_replicate_false (n : Nat) (q : List Bool) (p : Nat) :
    clmul (List.replicate n false ++ q) p = clmul q p := by
  induction n with
  | zero => rfl
  | succ n ih =>
    rw [List.replicate_succ, List.cons_append, clmul_cons_false, ih]

theorem clmul_foldl_xor (p : Nat) (q q' : List Bool) (a a' : Nat)
    (h : q.length = q'.length) :
    q.foldl (fun acc b => (2 * acc) ^^^ (if b then p else 0)) a ^^^
        q'.foldl (fun acc b => (2 * acc) ^^^ (if b then p else 0)) a' =
      (List.zipWith xor q q').foldl (fun acc b => (2 * acc) ^^^ (if b then p else 0))
        (a ^^^ a') := by
  induction q generalizing q' a a' with
  | nil =>
    cases q' with
    | nil => rfl
    | cons b' q' => simp at h
  | cons b q ih =>
    cases q' with
    | nil => simp at h
    | cons b' q' =>
      rw [List.foldl_cons, List.foldl_cons, List.zipWith_cons_cons, List.foldl_cons,
        ih q' _ _ (by simpa using h)]
      congr 1
      rw [two_mul_xor]
      cases b <;> cases b'
      · simp only [Bool.false_eq_true, if_false, Nat.xor_zero, Bool.xor_false]
      · simp only [Bool.false_eq_true, if_false, if_true, Nat.xor_zero, Bool.false_xor]
        ac_rfl
      · simp only [Bool.false_eq_true, if_false, if_true, Nat.xor_zero, Bool.xor_false]
        ac_rfl
      · simp only [if_true, Bool.xor_self, Bool.false_eq_true, if_false, Nat.xor_zero]
        calc 2 * a ^^^ p ^^^ (2 * a' ^^^ p) = 2 * a ^^^ 2 * a' ^^^ (p ^^^ p) := by ac_rfl
          _ = 2 * a ^^^ 2 * a' := by rw [Nat.xor_self, Nat.xor_zero]

/-- The multiples of `p` over GF(2) are closed under addition. -/
theorem clmul_xor (p : Nat) (q q' : List Bool) :
    ∃ q'', clmul q p ^^^ clmul q' p = clmul q'' p := by
  refine ⟨List.zipWith xor (List.replicate (q'.length - q.length) false ++ q)
    (List.replicate (q.length - q'.length) false ++ q'), ?_⟩
  have h := clmul_foldl_xor p (List.replicate (q'.length - q.length) false ++ q)
    (List.replicate (q.length - q'.length) false ++ q') 0 0
    (by simp only [List.length_append, List.length_replicate]; omega)
  have e1 := clmul_replicate_false (q'.length - q.length) q p
  have e2 := clmul_replicate_false (q.length - q'.length) q' p
  unfold clmul at e1 e2 ⊢
  rw [← e1, ← e2, h]
  rfl

theorem xor_ge_two_pow (a b k : Nat) (hb : b < 2 ^ k) (ha : 2 ^ k ≤ a) : 2 ^ k ≤ a ^^^ b := by
  by_contra hlt
  have h1 : a ^^^ b ^^^ b < 2 ^ k := Nat.xor_lt_two_pow (by omega) hb
  rw [xor_cancel] at h1
  omega

/-- A multiple of `CRC_poly` over GF(2) is zero or has degree at least 16. -/
theorem clmul_zero_or_ge (q : List Bool) :
    clmul q CRC_poly = 0 ∨ 2 ^ 16 ≤ clmul q CRC_poly := by
  induction q using List.reverseRecOn with
  | nil => exact Or.inl rfl
  | append_singleton q b ih =>
    rw [clmul_append_one]
    rcases ih with h0 | hge
    · rw [h0]
      cases b
      · exact Or.inl rfl
      · exact Or.inr (by decide)
    · right
      cases b
      · simp only [Bool.false_eq_true, if_false, Nat.xor_zero]
        omega
      · simp only [if_true]
        have h1 : 2 ^ 17 ≤ 2 * clmul q CRC_poly ^^^ CRC_poly :=
          xor_ge_two_pow _ _ 17 (by decide) (by omega)
        omega

/-- The remainder of a division by `CRC_poly` over GF(2) is unique. -/
theorem gf2_remainder_unique (q q' : List Bool) (r r' : Nat) (hr : r < 2 ^ 16)
    (hr' : r' < 2 ^ 16) (h : clmul q CRC_poly ^^^ r = clmul q' CRC_poly ^^^ r') : r = r' := by
  have h1 : clmul q CRC_poly ^^^ clmul q' CRC_poly = r ^^^ r' := by
    calc clmul q CRC_poly ^^^ clmul q' CRC_poly
        = clmul q CRC_poly ^^^ clmul q' CRC_poly ^^^ (r ^^^ r) := by
          rw [Nat.xor_self, Nat.xor_zero]
      _ = (clmul q CRC_poly ^^^ r) ^^^ (clmul q' CRC_poly ^^^ r) := by ac_rfl
      _ = (clmul q' CRC_poly ^^^ r') ^^^ (clmul q' CRC_poly ^^^ r) := by rw [h]
      _ = (clmul q' CRC_poly ^^^ clmul q' CRC_poly) ^^^ (r ^^^ r') := by ac_rfl
      _ = r ^^^ r' := by rw [Nat.xor_self, Nat.zero_xor]
  obtain ⟨q'', hq''⟩ := clmul_xor CRC_poly q q'
  have h2 : r ^^^ r' < 2 ^ 16 := Nat.xor_lt_two_pow hr hr'
  have h3 : r ^^^ r' = 0 := by
    rcases clmul_zero_or_ge q'' with h0 | hge
    · rw [← h1, hq'', h0]
    · rw [← h1, hq''] at h2
      omega
  calc r = r ^^^ r' ^^^ r' := (xor_cancel r r').symm
    _ = r' := by rw [h3, Nat.zero_xor]

theorem bit31_xor (D E : Nat) (hD : D < 2 ^ 32) (hE : E < 2 ^ 32) :
    2 ^ 31 ≤ D ^^^ E ↔ ¬ (2 ^ 31 ≤ D ↔ 2 ^ 31 ≤ E) := by
  rw [← testBit_31_iff D hD, ← testBit_31_iff E hE,
    ← testBit_31_iff (D ^^^ E) (Nat.xor_lt_two_pow hD hE), Nat.testBit_xor]
  cases D.testBit 31 <;> cases E.testBit 31 <;> simp

/-- One round of the loop over `j` is linear over GF(2). -/
theorem crc16_bit_xor (D E : Nat) (hD : D < 2 ^ 32) (hE : E < 2 ^ 32) :
    crc16_bit (D ^^^ E) = crc16_bit D ^^^ crc16_bit E := by
  rw [crc16_bit_eq D hD, crc16_bit_eq E hE, crc16_bit_eq _ (Nat.xor_lt_two_pow hD hE),
    two_mul_xor]
  have hx := bit31_xor D E hD hE
  by_cases c1 : 2 ^ 31 ≤ D <;> by_cases c2 : 2 ^ 31 ≤ E
  · have c3 : ¬ 2 ^ 31 ≤ D ^^^ E := by
      rw [hx]
      omega
    rw [if_pos c1, if_pos c2, if_neg c3, Nat.xor_zero]
    calc 2 * D ^^^ 2 * E
        = 2 * D ^^^ 2 * E ^^^ (CRC_poly * 2 ^ 16 ^^^ CRC_poly * 2 ^ 16) := by
          rw [Nat.xor_self, Nat.xor_zero]
      _ = 2 * D ^^^ CRC_poly * 2 ^ 16 ^^^ (2 * E ^^^ CRC_poly * 2 ^ 16) := by ac_rfl
  · have c3 : 2 ^ 31 ≤ D ^^^ E := by
      rw [hx]
      omega
    rw [if_pos c1, if_neg c2, if_pos c3, Nat.xor_zero]
    ac_rfl
  · have c3 : 2 ^ 31 ≤ D ^^^ E := by
      rw [hx]
      omega
    rw [if_neg c1, if_pos c2, if_pos c3, Nat.xor_zero]
    ac_rfl
  · have c3 : ¬ 2 ^ 31 ≤ D ^^^ E := by
      rw [hx]
      omega
    rw [if_neg c1, if_neg c2, if_neg c3, Nat.xor_zero, Nat.xor_zero, Nat.xor_zero]

theorem crc16_bits_xor (D E : Nat) (hD : D < 2 ^ 32) (hE : E < 2 ^ 32) :
    crc16_bits (D ^^^ E) = crc16_bits D ^^^ crc16_bits E := by
  have h : ∀ j, (List.range j).foldl (fun data _ => crc16_bit data) (D ^^^ E) =
      (List.range j).foldl (fun data _ => crc16_bit data) D ^^^
        (List.range j).foldl (fun data _ => crc16_bit data) E := by
    intro j
    induction j with
    | zero => rfl
    | succ j ih =>
      rw [crc16_bit_iterate_succ, crc16_bit_iterate_succ, crc16_bit_iterate_succ, ih,
        crc16_bit_xor _ _ (crc16_bit_iterate_lt j D hD) (crc16_bit_iterate_lt j E hE)]
  exact h 16

/-- On a word below `2^16` the loop over `j` only shifts. -/
theorem crc16_bits_small (c : Nat) (h : c < 2 ^ 16) : crc16_bits c = 2 ^ 16 * c := by
  have hj : ∀ j, j ≤ 16 →
      (List.range j).foldl (fun data _ => crc16_bit data) c = 2 ^ j * c := by
    intro j
    induction j with
    | zero =>
      intro _
      show c = 2 ^ 0 * c
      omega
    | succ j ih =>
      intro hle
      have h1 : 2 ^ j ≤ 2 ^ 15 := Nat.pow_le_pow_right (by decide) (by omega)
      have h2 : 2 ^ j * c ≤ 2 ^ 15 * c := Nat.mul_le_mul_right c h1
      rw [crc16_bit_iterate_succ, ih (by omega), crc16_bit_low _ (by omega), Nat.pow_succ,
        Nat.mul_comm (2 ^ j) 2, Nat.mul_assoc]
  exact hj 16 (Nat.le_refl _)

theorem crc16_word_state (R w : Nat) (hR : R < 2 ^ 16) (hw : w < 2 ^ 16) :
    ∃ R', R' < 2 ^ 16 ∧ crc16_word (2 ^ 16 * R) w = 2 ^ 16 * R' := by
  have hD : 2 ^ 16 * R + w < 2 ^ 32 := by omega
  obtain ⟨q, _, hbits⟩ := crc16_bits_division (2 ^ 16 * R + w) hD
  have hlt := crc16_bits_lt (2 ^ 16 * R + w) hD
  refine ⟨(2 ^ 16 * R + w) ^^^ clmul q CRC_poly, ?_, ?_⟩
  · rw [hbits] at hlt
    omega
  · unfold crc16_word
    rw [Nat.mod_eq_of_lt hD, hbits]

theorem crc16_foldl_state (rest : List Nat) (hw : ∀ w ∈ rest, w < 2 ^ 16) (R : Nat)
    (hR : R < 2 ^ 16) :
    ∃ R', R' < 2 ^ 16 ∧ rest.foldl crc16_word (2 ^ 16 * R) = 2 ^ 16 * R' := by
  obtain ⟨R', _, h1, h2, _⟩ := crc16_word_foldl rest hw R (clmul [] CRC_poly ^^^ R) [] hR rfl
  exact ⟨R', h2, h1⟩

/-- The body of the loop over `i` is linear over GF(2). -/
theorem crc16_word_xor (Ra Rb wa wb : Nat) (hRa : Ra < 2 ^ 16) (hRb : Rb < 2 ^ 16)
    (hwa : wa < 2 ^ 16) (hwb : wb < 2 ^ 16) :
    crc16_word (2 ^ 16 * (Ra ^^^ Rb)) (wa ^^^ wb) =
      crc16_word (2 ^ 16 * Ra) wa ^^^ crc16_word (2 ^ 16 * Rb) wb := by
  have hR : Ra ^^^ Rb < 2 ^ 16 := Nat.xor_lt_two_pow hRa hRb
  have hw : wa ^^^ wb < 2 ^ 16 := Nat.xor_lt_two_pow hwa hwb
  have h1 : 2 ^ 16 * Ra + wa < 2 ^ 32 := by omega
  have h2 : 2 ^ 16 * Rb + wb < 2 ^ 32 := by omega
  have h3 : 2 ^ 16 * (Ra ^^^ Rb) + (wa ^^^ wb) < 2 ^ 32 := by omega
  have e : 2 ^ 16 * (Ra ^^^ Rb) + (wa ^^^ wb) = (2 ^ 16 * Ra + wa) ^^^ (2 ^ 16 * Rb + wb) := by
    rw [two_pow_mul_add_eq_xor 16 (Ra ^^^ Rb) (wa ^^^ wb) hw,
      two_pow_mul_add_eq_xor 16 Ra wa hwa, two_pow_mul_add_eq_xor 16 Rb wb hwb,
      two_pow_mul_xor]
    ac_rfl
  unfold crc16_word
  rw [Nat.mod_eq_of_lt h1, Nat.mod_eq_of_lt h2, Nat.mod_eq_of_lt h3, e,
    crc16_bits_xor _ _ h1 h2]

theorem crc16_foldl_xor (ra rb : List Nat) (hlen : ra.length = rb.length)
    (ha : ∀ w ∈ ra, w < 2 ^ 16) (hb : ∀ w ∈ rb, w < 2 ^ 16) (Ra Rb : Nat)
    (hRa : Ra < 2 ^ 16) (hRb : Rb < 2 ^ 16) :
    (xorBuffers ra rb).foldl crc16_word (2 ^ 16 * (Ra ^^^ Rb)) =
      ra.foldl crc16_word (2 ^ 16 * Ra) ^^^ rb.foldl crc16_word (2 ^ 16 * Rb) := by
  induction ra generalizing rb Ra Rb with
  | nil =>
    cases rb with
    | nil =>
      show 2 ^ 16 * (Ra ^^^ Rb) = 2 ^ 16 * Ra ^^^ 2 ^ 16 * Rb
      rw [two_pow_mul_xor]
    | cons wb rb => simp at hlen
  | cons wa ra ih =>
    cases rb with
    | nil => simp at hlen
    | cons wb rb =>
      have hwa := ha wa (List.mem_cons_self wa ra)
      have hwb := hb wb (List.mem_cons_self wb rb)
      obtain ⟨Ra', hRa', ea⟩ := crc16_word_state Ra wa hRa hwa
      obtain ⟨Rb', hRb', eb⟩ := crc16_word_state Rb wb hRb hwb
      show ((wa ^^^ wb) :: xorBuffers ra rb).foldl crc16_word (2 ^ 16 * (Ra ^^^ Rb)) = _
      rw [List.foldl_cons, List.foldl_cons, List.foldl_cons,
        crc16_word_xor Ra Rb wa wb hRa hRb hwa hwb, ea, eb, ← two_pow_mul_xor]
      exact ih rb (by simpa using hlen) (fun w h => ha w (List.mem_cons_of_mem wa h))
        (fun w h => hb w (List.mem_cons_of_mem wb h)) Ra' Rb' hRa' hRb'


/-- C21: for every non-empty buffer of 16-bit words, `crc16 (buffer, n)` with
`n` the number of words returns the remainder of the message polynomial modulo
`CRC_poly` = `x^16 + x^15 + x^2 + 1` over GF(2): the value `r` returned has
degree below 16, the message polynomial is `r` plus a multiple of `CRC_poly`,
and `r` is the only such value.  In particular `crc16` of a single word is that
word and `crc16` of an all-zero buffer is 0. -/
theorem crc16_is_remainder (buffer : List Nat) (hne : buffer ≠ [])
    (hw : ∀ w ∈ buffer, w < 2 ^ 16) :
    ∃ r, crc16 buffer buffer.length = some r ∧ r < 2 ^ 16 ∧
      (∃ q, message buffer = clmul q CRC_poly ^^^ r) ∧
      (∀ q' r', r' < 2 ^ 16 → message buffer = clmul q' CRC_poly ^^^ r' → r' = r) ∧
      (buffer.length = 1 → buffer = [r]) ∧
      ((∀ w ∈ buffer, w = 0) → r = 0) := by
  cases buffer with
  | nil => exact absurd rfl hne
  | cons first rest =>
    have hfirst : first < 2 ^ 16 := hw first (List.mem_cons_self first rest)
    have hrest : ∀ w ∈ rest, w < 2 ^ 16 := fun w h => hw w (List.mem_cons_of_mem first h)
    have hM₀ : 0 * 2 ^ 16 + first = clmul [] CRC_poly ^^^ first := by
      show 0 * 2 ^ 16 + first = 0 ^^^ first
      rw [Nat.zero_xor]
      omega
    obtain ⟨R, q, hS, hR, hM⟩ := crc16_word_foldl rest hrest first _ [] hfirst hM₀
    have hmsg : message (first :: rest) = clmul q CRC_poly ^^^ R := hM
    have huniq : ∀ q' r', r' < 2 ^ 16 → message (first :: rest) = clmul q' CRC_poly ^^^ r' →
        r' = R := by
      intro q' r' hr' h'
      rw [hmsg] at h'
      exact (gf2_remainder_unique q q' R r' hR hr' h').symm
    refine ⟨R, crc16_of_state first rest R hfirst hR hS, hR, ⟨q, hmsg⟩, huniq, ?_, ?_⟩
    · intro hlen
      have hnil : rest = [] := List.length_eq_zero.1 (by simpa using hlen)
      subst hnil
      have e : 2 ^ 16 * first = 2 ^ 16 * R := hS
      have : first = R := by omega
      rw [this]
    · intro hzero
      have hmz : ∀ (l : List Nat), (∀ w ∈ l, w = 0) →
          l.foldl (fun m word => m * 2 ^ 16 + word) 0 = 0 := by
        intro l
        induction l with
        | nil => intro _; rfl
        | cons x xs ih =>
          intro hx
          rw [List.foldl_cons, hx x (List.mem_cons_self x xs)]
          exact ih (fun w h => hx w (List.mem_cons_of_mem x h))
      have h0 : message (first :: rest) = clmul [] CRC_poly ^^^ 0 := hmz _ hzero
      exact (huniq [] 0 (by decide) h0).symm

theorem crc16_is_remainder_witness :
    ([0x1234, 0xABCD, 0xFFFF] : List Nat) ≠ [] ∧
    (∀ w ∈ ([0x1234, 0xABCD, 0xFFFF] : List Nat), w < 2 ^ 16) ∧
    ∃ r, crc16 [0x1234, 0xABCD, 0xFFFF] ([0x1234, 0xABCD, 0xFFFF] : List Nat).length = some r ∧
      r < 2 ^ 16 ∧
      (∃ q, message [0x1234, 0xABCD, 0xFFFF] = clmul q CRC_poly ^^^ r) ∧
      (∀ q' r', r' < 2 ^ 16 →
        message [0x1234, 0xABCD, 0xFFFF] = clmul q' CRC_poly ^^^ r' → r' = r) ∧
      (([0x1234, 0xABCD, 0xFFFF] : List Nat).length = 1 → [0x1234, 0xABCD, 0xFFFF] = [r]) ∧
      ((∀ w ∈ ([0x1234, 0xABCD, 0xFFFF] : List Nat), w = 0) → r = 0) :=
  ⟨by decide, by decide, crc16_is_remainder [0x1234, 0xABCD, 0xFFFF] (by decide) (by decide)⟩

/-- C28: appending the checksum gives a zero checksum: for every non-empty
buffer `M` of `n` 16-bit words, with `c = crc16 (M ++ [0], n+1)`,
`crc16 (M ++ [c], n+1) = 0`; and `crc16` is linear over XOR: for non-empty
buffers `a`, `b` of equal length `crc16 (a xor b) = crc16 (a) xor crc16 (b)`. -/
theorem crc16_checksum_and_linearity (M a b : List Nat) (hM : M ≠ [])
    (hMw : ∀ w ∈ M, w < 2 ^ 16) (ha : a ≠ []) (hab : a.length = b.length)
    (haw : ∀ w ∈ a, w < 2 ^ 16) (hbw : ∀ w ∈ b, w < 2 ^ 16) :
    (∃ c, crc16 (M ++ [0]) (M.length + 1) = some c ∧ c < 2 ^ 16 ∧
      crc16 (M ++ [c]) (M.length + 1) = some 0) ∧
    (∃ ra rb, crc16 a a.length = some ra ∧ crc16 b b.length = some rb ∧
      crc16 (xorBuffers a b) a.length = some (ra ^^^ rb)) := by
  constructor
  · cases M with
    | nil => exact absurd rfl hM
    | cons first rest =>
      have hfirst : first < 2 ^ 16 := hMw first (List.mem_cons_self first rest)
      have hrest : ∀ w ∈ rest, w < 2 ^ 16 := fun w h => hMw w (List.mem_cons_of_mem first h)
      obtain ⟨R, hR, hS⟩ := crc16_foldl_state rest hrest first hfirst
      obtain ⟨c, hc, hc0⟩ := crc16_word_state R 0 hR (by decide)
      have hc1 : crc16_word (2 ^ 16 * R) c = 0 := by
        have hD : 2 ^ 16 * R + c < 2 ^ 32 := by omega
        have e0 : crc16_bits (2 ^ 16 * R) = 2 ^ 16 * c := by
          have := hc0
          unfold crc16_word at this
          rw [Nat.add_zero, Nat.mod_eq_of_lt (by omega)] at this
          exact this
        unfold crc16_word
        rw [Nat.mod_eq_of_lt hD, two_pow_mul_add_eq_xor 16 R c hc,
          crc16_bits_xor _ _ (by omega) (by omega), e0, crc16_bits_small c hc, Nat.xor_self]
      have len : ∀ w : Nat, (first :: rest).length + 1 = (first :: (rest ++ [w])).length := by
        intro w
        simp
      refine ⟨c, ?_, hc, ?_⟩
      · rw [List.cons_append, len 0]
        refine crc16_of_state first (rest ++ [0]) c hfirst hc ?_
        rw [List.foldl_append, hS]
        exact hc0
      · rw [List.cons_append, len c]
        refine crc16_of_state first (rest ++ [c]) 0 hfirst (by decide) ?_
        rw [List.foldl_append, hS]
        exact hc1
  · cases a with
    | nil => exact absurd rfl ha
    | cons a₀ ra =>
      cases b with
      | nil => simp at hab
      | cons b₀ rb =>
        have ha₀ : a₀ < 2 ^ 16 := haw a₀ (List.mem_cons_self a₀ ra)
        have hb₀ : b₀ < 2 ^ 16 := hbw b₀ (List.mem_cons_self b₀ rb)
        have hra : ∀ w ∈ ra, w < 2 ^ 16 := fun w h => haw w (List.mem_cons_of_mem a₀ h)
        have hrb : ∀ w ∈ rb, w < 2 ^ 16 := fun w h => hbw w (List.mem_cons_of_mem b₀ h)
        have hlen : ra.length = rb.length := by simpa using hab
        obtain ⟨Ra, hRa, hSa⟩ := crc16_foldl_state ra hra a₀ ha₀
        obtain ⟨Rb, hRb, hSb⟩ := crc16_foldl_state rb hrb b₀ hb₀
        refine ⟨Ra, Rb, crc16_of_state a₀ ra Ra ha₀ hRa hSa, crc16_of_state b₀ rb Rb hb₀ hRb hSb,
          ?_⟩
        have hx : xorBuffers (a₀ :: ra) (b₀ :: rb) = (a₀ ^^^ b₀) :: xorBuffers ra rb := rfl
        have hxl : (a₀ :: ra).length = ((a₀ ^^^ b₀) :: xorBuffers ra rb).length := by
          unfold xorBuffers
          rw [List.length_cons, List.length_cons, List.length_zipWith, hlen, Nat.min_self]
        rw [hx, hxl]
        refine crc16_of_state _ _ _ (Nat.xor_lt_two_pow ha₀ hb₀) (Nat.xor_lt_two_pow hRa hRb) ?_
        rw [crc16_foldl_xor ra rb hlen hra hrb a₀ b₀ ha₀ hb₀, hSa, hSb, two_pow_mul_xor]

theorem crc16_checksum_and_linearity_witness :
    ([0xFFFF, 0xFFFF] : List Nat) ≠ [] ∧ ([1, 2, 3] : List Nat) ≠ [] ∧
    (∃ c, crc16 (([0xFFFF, 0xFFFF] : List Nat) ++ [0])
        (([0xFFFF, 0xFFFF] : List Nat).length + 1) = some c ∧ c < 2 ^ 16 ∧
      crc16 (([0xFFFF, 0xFFFF] : List Nat) ++ [c])
        (([0xFFFF, 0xFFFF] : List Nat).length + 1) = some 0) ∧
    (∃ ra rb, crc16 [1, 2, 3] ([1, 2, 3] : List Nat).length = some ra ∧
      crc16 [7, 7, 9] ([7, 7, 9] : List Nat).length = some rb ∧
      crc16 (xorBuffers [1, 2, 3] [7, 7, 9]) ([1, 2, 3] : List Nat).length = some (ra ^^^ rb)) :=
  ⟨by decide, by decide,
    crc16_checksum_and_linearity [0xFFFF, 0xFFFF] [1, 2, 3] [7, 7, 9] (by decide) (by decide)
      (by decide) (by decide) (by decide) (by decide)⟩


end DAL
